import Mathlib

/-! BACnet GPIO controller: priority engine, WriteProperty and ReadProperty handling.

A shallow embedding of `pi_deployment/bacnet4linux/receive_writeproperty.c`,
`gpio_objects.c` and `receive_readproperty.c`.  File-level C variables are
fields of `World`; every C function that touches them takes the world and
returns the new one together with its C return value.  What the program reads
from outside (the outcome of hardware commands, the clock, `rand()`, a pin level)
is a field of `World` that the program never writes, or an argument.
-/

set_option linter.unusedVariables false

namespace GpioBacnet

/-! ## Constants of `bacnet_enum.h` / `bacnet_const.h` -/

/-- Modelled from the spec: `bacnet_enum.h` is not under src; object types are the
ASHRAE 135 numbers (Analog-Input 0). -/
def OBJECT_ANALOG_INPUT : Nat := 0
/-- Modelled from the spec: ASHRAE 135 object type Analog-Output. -/
def OBJECT_ANALOG_OUTPUT : Nat := 1
/-- Modelled from the spec: ASHRAE 135 object type Binary-Input. -/
def OBJECT_BINARY_INPUT : Nat := 3
/-- Modelled from the spec: ASHRAE 135 object type Binary-Output. -/
def OBJECT_BINARY_OUTPUT : Nat := 4
/-- Modelled from the spec: ASHRAE 135 object type Device. -/
def OBJECT_DEVICE : Nat := 8

/-- Modelled from the spec: ASHRAE 135 property identifier present-value. -/
def PROP_PRESENT_VALUE : Nat := 85
/-- Modelled from the spec: ASHRAE 135 property identifier priority-array. -/
def PROP_PRIORITY_ARRAY : Nat := 87
/-- Modelled from the spec: ASHRAE 135 property identifier relinquish-default. -/
def PROP_RELINQUISH_DEFAULT : Nat := 104

/-- Modelled from the spec: application tag Null (0), spec section 4.1. -/
def BACNET_APPLICATION_TAG_NULL : Nat := 0
/-- Modelled from the spec: application tag Real (4), spec section 4.1. -/
def BACNET_APPLICATION_TAG_REAL : Nat := 4
/-- Modelled from the spec: application tag Enumerated (9), spec section 4.1. -/
def BACNET_APPLICATION_TAG_ENUMERATED : Nat := 9

/-! ## Data model -/

/-- Modelled from the spec: `union ObjectValue` is declared in `bacnet_struct.h`, not
under src.  The sources use its members `enumerated` (uint32_t) and `real`
(float); they overlay the same four bytes, so the union is carried as that
32-bit word and a Real is its IEEE-754 bit pattern. -/
structure ObjectValue where
  bits : Nat
deriving DecidableEq, Repr

/-- Member `enumerated` of the union. -/
def ObjectValue.enumerated (v : ObjectValue) : Nat := v.bits

/-- Member `real` of the union, as a bit pattern. -/
def ObjectValue.real (v : ObjectValue) : Nat := v.bits

/-- Modelled from the spec: `struct ObjectRef_Struct` is declared in `bacnet_struct.h`,
not under src; these are the fields the sources read and write (spec section 3,
object record).  `inst` is the C field `instance`. -/
structure ObjectRef where
  type : Nat
  inst : Nat
  name : Option String
  value : ObjectValue
  active : Option String
  inactive : Option String
deriving DecidableEq, Repr

/-- The `struct gpio_priority_array` of gpio_objects.c. -/
structure gpio_priority_array where
  values : Fin 16 → ObjectValue
  priorities_set : Nat
  relinquish_default : ObjectValue
  out_of_service : Nat

/-- Argument of a `gpio_write_pin(instance, float value)` call: the callers pass either
a `uint32_t` (converted to float by the call) or a float, kept apart here because
the float is carried as a bit pattern. -/
inductive PinValue where
  | ofEnumerated (n : Nat)
  | ofReal (bits : Nat)
deriving DecidableEq, Repr

/-- One invocation of the hardware effector `gpio_write_pin`.  `in_gpio_objects` tells
which of the two static functions of that name ran (`true`: gpio_objects.c, `false`:
receive_writeproperty.c); `gpio_pin` is the pin chosen by its `switch (instance)`,
`none` when the function returns at `default:` before touching the hardware. -/
structure PinWrite where
  in_gpio_objects : Bool
  inst : Nat
  value : PinValue
  gpio_pin : Option Nat
deriving DecidableEq, Repr

/-- One hardware operation of the two `gpio_write_pin` functions on a pin, with the level
to set: a shell command run through `system` or `popen` (gpiozero, RPi.GPIO, gpioset,
`echo`), or a sysfs file operation (`access`, export, direction, value). -/
inductive HwCommand where
  | system_gpiozero (pin : Nat) (level : Bool)
  | system_rpi_gpio (pin : Nat) (level : Bool)
  | system_gpioset (pin : Nat) (level : Bool)
  | popen_gpiozero (pin : Nat) (level : Bool)
  | access_sysfs (pin : Nat)
  | export_sysfs (pin : Nat)
  | direction_sysfs (pin : Nat)
  | value_sysfs (pin : Nat) (level : Bool)
  | system_echo (pin : Nat) (level : Bool)
deriving DecidableEq, Repr

/-- The globals that main.c sets from the command line (`BACnet_Device_Instance`,
`BACnet_Vendor_Identifier`, `BACnet_Time_Sync_Seconds`, `BACnet_COV_Support`,
`BACnet_APDU_Timeout`) and the constants `MAX_APDU` and `Program_Version` of the headers.
None of them is defined under src, so they are parameters of the start state. -/
structure Config where
  BACnet_Device_Instance : Nat
  BACnet_Vendor_Identifier : Nat
  BACnet_Time_Sync_Seconds : Int
  BACnet_COV_Support : Int
  BACnet_APDU_Timeout : Nat
  MAX_APDU : Nat
  Program_Version : String
deriving DecidableEq, Repr

/-- The fields of `struct tm` that `encode_device_property` reads from `localtime`. -/
structure tm where
  tm_sec : Nat
  tm_min : Nat
  tm_hour : Nat
  tm_mday : Nat
  tm_mon : Nat
  tm_year : Nat
  tm_wday : Nat
deriving DecidableEq, Repr

/-- The process state and its environment: the object store, the file-level variables of
receive_writeproperty.c (`priority_arrays`, `priority_null`, `relinquish_defaults`,
`arrays_initialized`) and of gpio_objects.c (`gpio_priorities`, and `last_update`, the
static of `gpio_update_inputs`), the free APDU buffers, the configuration, and the output
traces (APDUs handed to the link layer, effector calls, hardware operations attempted).
`clock` is what `localtime(time(NULL))` gives and `hardware c` tells whether the hardware
operation `c` succeeds (exit status 0, the expected output, a file that opens); both belong
to the environment, the program reads them and never writes them. -/
structure World where
  objects : List ObjectRef
  priority_arrays : Fin 3 → Fin 16 → ObjectValue
  priority_null : Fin 3 → Fin 16 → Bool
  relinquish_defaults : Fin 5 → ObjectValue
  arrays_initialized : Bool
  gpio_priorities : Fin 5 → gpio_priority_array
  pdu_pool : Nat
  sent : List (List Nat)
  pin_writes : List PinWrite
  config : Config
  clock : tm
  hardware : HwCommand → Bool
  hw_log : List HwCommand
  last_update : Nat

/-! ## receive_writeproperty.c: the priority engine -/

/-- `get_priority_index`: the C function returns -1 for an unknown instance, here `none`. -/
def get_priority_index (inst : Nat) : Option (Fin 3) :=
  if inst = 4018 then some 0
  else if inst = 4026 then some 1
  else if inst = 2021 then some 2
  else none

/-- The test of receive_writeproperty.c lines 164-165 and 265-266 (and of
receive_readproperty.c lines 79-80): a GPIO output object with a priority array. -/
def is_gpio_output (object_type inst : Nat) : Bool :=
  (object_type == OBJECT_BINARY_OUTPUT && (inst == 4018 || inst == 4026)) ||
  (object_type == OBJECT_ANALOG_OUTPUT && inst == 2021)

/-- The `for (i = 0; i < 16; i++)` loop of `calculate_effective_value` over the indices
still to visit, falling through to the relinquish-default. -/
def first_non_null (nulls : Fin 16 → Bool) (vals : Fin 16 → ObjectValue)
    (dflt : ObjectValue) : List (Fin 16) → ObjectValue
  | [] => dflt
  | i :: rest => if !nulls i then vals i else first_non_null nulls vals dflt rest

/-- `calculate_effective_value`. -/
def calculate_effective_value (w : World) (object_type inst : Nat) : ObjectValue :=
  match get_priority_index inst with
  | none =>
      if object_type = OBJECT_BINARY_OUTPUT then { bits := 0 } else { bits := 0 }
  | some pri_idx =>
      first_non_null (w.priority_null pri_idx) (w.priority_arrays pri_idx)
        (w.relinquish_defaults (Fin.castLE (by decide) pri_idx)) (List.finRange 16)

/-- `initialize_priority_arrays`: the two nested loops cover all of `[3][16]`;
`relinquish_defaults[0..2]` are reset (0.0f has the bit pattern 0), `[3]` and `[4]`
are left alone. -/
def initialize_priority_arrays (w : World) : World :=
  if w.arrays_initialized then w
  else
    { w with
      priority_null := fun _ _ => true
      priority_arrays := fun _ _ => { bits := 0 }
      relinquish_defaults := fun i => if i.val < 3 then { bits := 0 } else w.relinquish_defaults i
      arrays_initialized := true }

/-- The array index `priority - 1`, used only after the check `1 <= priority <= 16`. -/
def slot (priority : Nat) : Fin 16 := Fin.ofNat (priority - 1)

/-- `get_priority_value(instance, priority, value)`: returns the world (the call may
initialise the arrays), the C return value (`true` = Null) and the content of `*value`
after the call, given its content `value` before. -/
def get_priority_value (w : World) (inst priority : Nat) (value : ObjectValue) :
    World × Bool × ObjectValue :=
  let w := initialize_priority_arrays w
  match get_priority_index inst with
  | none => (w, true, value)
  | some pri_idx =>
      if priority < 1 ∨ priority > 16 then (w, true, value)
      else if w.priority_null pri_idx (slot priority) then (w, true, value)
      else (w, false, w.priority_arrays pri_idx (slot priority))

/-! ## The object store -/

/-- Modelled from the spec: `object_find` (bacnet_object.c is not under src) looks an object
up by its key `(object-type, instance)` in the store of this device (spec section 4.2,
`find`); the first record with the key is the one found. -/
def object_find : List ObjectRef → Nat → Nat → Option ObjectRef
  | [], _, _ => none
  | o :: rest, object_type, inst =>
      if o.type = object_type ∧ o.inst = inst then some o else object_find rest object_type inst

/-- An assignment `obj_ptr->value = v` (or to a member of `value`) through the pointer that
`object_find` returned for the key `(object_type, inst)`: the found record gets the value. -/
def object_assign : List ObjectRef → Nat → Nat → ObjectValue → List ObjectRef
  | [], _, _, _ => []
  | o :: rest, object_type, inst, v =>
      if o.type = object_type ∧ o.inst = inst then { o with value := v } :: rest
      else o :: object_assign rest object_type inst v

/-! ## gpio_objects.c -/

/-- The `switch (instance)` at the head of both `gpio_write_pin` functions. -/
def gpio_pin_of (inst : Nat) : Option Nat :=
  if inst = 4018 then some 18
  else if inst = 4026 then some 26
  else if inst = 2021 then some 21
  else none

/-- The C test `value != 0.0` on the float argument of `gpio_write_pin`: an unsigned
converted to float is nonzero exactly when it is, and a float given by its IEEE-754 bit
pattern is zero exactly when all bits below the sign bit are 0. -/
def PinValue.ne_zero : PinValue → Bool
  | PinValue.ofEnumerated n => decide (n ≠ 0)
  | PinValue.ofReal bits => decide (bits % 2 ^ 31 ≠ 0)

/-- The C test `value > 0.5` on the float argument of `gpio_write_pin`: an unsigned converted
to float exceeds 0.5 exactly when it is at least 1, and a float given by its IEEE-754 bit
pattern does when it is positive, above the pattern 0x3F000000 of 0.5 and not a NaN. -/
def PinValue.gt_half : PinValue → Bool
  | PinValue.ofEnumerated n => decide (1 ≤ n)
  | PinValue.ofReal bits => decide (0x3F000000 < bits ∧ bits ≤ 0x7F800000)

/-- The hardware operations of `gpio_write_pin` of gpio_objects.c on `gpio_pin`, in the order
they are attempted: `gpioset`, then the gpiozero script through `popen` (taken as succeeded
when its first output line contains "GPIO_SUCCESS"), then sysfs (export when the pin
directory is missing, direction, value) with `echo` as the fallback when the value file
does not open.  Instance 2021 only computes a PWM value ("TODO: Add actual PWM write"). -/
def GpioObjects.pin_commands (hardware : HwCommand → Bool) (inst gpio_pin : Nat)
    (value : PinValue) : List HwCommand :=
  if inst = 4018 ∨ inst = 4026 then
    let digital_value := value.ne_zero
    if hardware (HwCommand.system_gpioset gpio_pin digital_value) then
      [HwCommand.system_gpioset gpio_pin digital_value]
    else if hardware (HwCommand.popen_gpiozero gpio_pin digital_value) then
      [HwCommand.system_gpioset gpio_pin digital_value,
       HwCommand.popen_gpiozero gpio_pin digital_value]
    else
      [HwCommand.system_gpioset gpio_pin digital_value,
       HwCommand.popen_gpiozero gpio_pin digital_value, HwCommand.access_sysfs gpio_pin]
      ++ (if hardware (HwCommand.access_sysfs gpio_pin) then []
          else [HwCommand.export_sysfs gpio_pin])
      ++ [HwCommand.direction_sysfs gpio_pin, HwCommand.value_sysfs gpio_pin digital_value]
      ++ (if hardware (HwCommand.value_sysfs gpio_pin digital_value) then []
          else [HwCommand.system_echo gpio_pin digital_value])
  else []

/-- `gpio_write_pin` of gpio_objects.c.  It is `void` and writes no program variable: the call
is recorded in `pin_writes` and the hardware operations it attempts in `hw_log`. -/
def GpioObjects.gpio_write_pin (w : World) (inst : Nat) (value : PinValue) : World :=
  { w with pin_writes := w.pin_writes ++ [{ in_gpio_objects := true, inst := inst,
                                             value := value, gpio_pin := gpio_pin_of inst }]
           hw_log := w.hw_log ++
             (match gpio_pin_of inst with
              | none => []
              | some gpio_pin => GpioObjects.pin_commands w.hardware inst gpio_pin value) }

/-- `gpio_get_object_index`: -1 is `none`. -/
def gpio_get_object_index (inst : Nat) : Option (Fin 5) :=
  if inst = 4018 then some 0
  else if inst = 3019 then some 1
  else if inst = 1020 then some 2
  else if inst = 2021 then some 3
  else if inst = 4026 then some 4
  else none

/-- The loop of `gpio_get_effective_value` over the bits of `priorities_set`. -/
def first_set (prio : gpio_priority_array) : List (Fin 16) → ObjectValue
  | [] => prio.relinquish_default
  | i :: rest =>
      if prio.priorities_set &&& (1 <<< i.val) ≠ 0 then prio.values i else first_set prio rest

/-- `gpio_get_effective_value`. -/
def gpio_get_effective_value (w : World) (inst : Nat) : ObjectValue :=
  match gpio_get_object_index inst with
  | none => { bits := 0 }
  | some index =>
      let prio := w.gpio_priorities index
      let held : Option ObjectRef :=
        if prio.out_of_service ≠ 0 then
          object_find w.objects
            (if inst ≥ 4000 then OBJECT_BINARY_OUTPUT
             else if inst ≥ 3000 then OBJECT_BINARY_INPUT
             else if inst ≥ 2000 then OBJECT_ANALOG_OUTPUT else OBJECT_ANALOG_INPUT) inst
        else none
      match held with
      | some obj => obj.value
      | none => first_set prio (List.finRange 16)

/-- `gpio_objects_write_property`; `value` is the 32-bit word that the `void *value`
points to (the pointer is not dereferenced unless the tag is Enumerated or Real). -/
def gpio_objects_write_property (w : World) (object_type inst property tag value
    priority : Nat) : World × Int :=
  match object_find w.objects object_type inst with
  | none => (w, -2)
  | some _ =>
    if property = PROP_PRESENT_VALUE then
      if object_type = OBJECT_BINARY_OUTPUT then
        if tag = BACNET_APPLICATION_TAG_ENUMERATED then
          let stored : Nat := if value ≠ 0 then 1 else 0
          let w1 := { w with objects := object_assign w.objects object_type inst { bits := stored } }
          (GpioObjects.gpio_write_pin w1 inst (PinValue.ofEnumerated stored), 0)
        else (w, -3)
      else if object_type = OBJECT_ANALOG_OUTPUT then
        if tag = BACNET_APPLICATION_TAG_REAL then
          let w1 := { w with objects := object_assign w.objects object_type inst { bits := value } }
          (GpioObjects.gpio_write_pin w1 inst (PinValue.ofReal value), 0)
        else (w, -3)
      else (w, -3)
    else if property = PROP_RELINQUISH_DEFAULT then
      if object_type = OBJECT_BINARY_OUTPUT ∨ object_type = OBJECT_ANALOG_OUTPUT then
        match gpio_get_object_index inst with
        | none => (w, -3)
        | some obj_index =>
          if object_type = OBJECT_BINARY_OUTPUT then
            if tag = BACNET_APPLICATION_TAG_ENUMERATED then
              let stored : Nat := if value ≠ 0 then 1 else 0
              let prio : gpio_priority_array :=
                { (w.gpio_priorities obj_index) with relinquish_default := { bits := stored } }
              let w1 := { w with gpio_priorities := Function.update w.gpio_priorities obj_index prio }
              let effective := gpio_get_effective_value w1 inst
              let w2 := { w1 with objects := object_assign w1.objects object_type inst effective }
              (GpioObjects.gpio_write_pin w2 inst (PinValue.ofEnumerated effective.enumerated), 0)
            else (w, -3)
          else if object_type = OBJECT_ANALOG_OUTPUT then
            if tag = BACNET_APPLICATION_TAG_REAL then
              let prio : gpio_priority_array :=
                { (w.gpio_priorities obj_index) with relinquish_default := { bits := value } }
              let w1 := { w with gpio_priorities := Function.update w.gpio_priorities obj_index prio }
              let effective := gpio_get_effective_value w1 inst
              let w2 := { w1 with objects := object_assign w1.objects object_type inst effective }
              (GpioObjects.gpio_write_pin w2 inst (PinValue.ofReal effective.real), 0)
            else (w, -3)
          else (w, 0)
      else (w, -3)
    else (w, -3)

/-! ## receive_writeproperty.c: write_object_property_value -/

/-- The shell commands of `gpio_write_pin` of receive_writeproperty.c on `gpio_pin`, in the
order they are attempted: the gpiozero script, and the RPi.GPIO script when the first
`system` call did not return 0. -/
def pin_commands (hardware : HwCommand → Bool) (gpio_pin : Nat) (value : PinValue) :
    List HwCommand :=
  let digital_value := value.gt_half
  if hardware (HwCommand.system_gpiozero gpio_pin digital_value) then
    [HwCommand.system_gpiozero gpio_pin digital_value]
  else
    [HwCommand.system_gpiozero gpio_pin digital_value,
     HwCommand.system_rpi_gpio gpio_pin digital_value]

/-- `gpio_write_pin` of receive_writeproperty.c.  It is `void` and writes no program
variable: the call is recorded in `pin_writes` and the shell commands it runs in `hw_log`. -/
def gpio_write_pin (w : World) (inst : Nat) (value : PinValue) : World :=
  { w with pin_writes := w.pin_writes ++ [{ in_gpio_objects := false, inst := inst,
                                             value := value, gpio_pin := gpio_pin_of inst }]
           hw_log := w.hw_log ++
             (match gpio_pin_of inst with
              | none => []
              | some gpio_pin => pin_commands w.hardware gpio_pin value) }

/-- Lines 180-211 of `write_object_property_value`: the slot `priority - 1` of `pri_idx` is
relinquished or takes the value; `none` stands for the `return -3` of a wrong data type. -/
def store_priority (w : World) (pri_idx : Fin 3) (object_type tag value priority : Nat) :
    Option World :=
  if tag = BACNET_APPLICATION_TAG_NULL then
    some { w with priority_null := Function.update w.priority_null pri_idx
                    (Function.update (w.priority_null pri_idx) (slot priority) true) }
  else if object_type = OBJECT_BINARY_OUTPUT then
    if tag = BACNET_APPLICATION_TAG_ENUMERATED then
      let stored : Nat := if value ≠ 0 then 1 else 0
      some { w with
        priority_arrays := Function.update w.priority_arrays pri_idx
          (Function.update (w.priority_arrays pri_idx) (slot priority) { bits := stored })
        priority_null := Function.update w.priority_null pri_idx
          (Function.update (w.priority_null pri_idx) (slot priority) false) }
    else none
  else if object_type = OBJECT_ANALOG_OUTPUT then
    if tag = BACNET_APPLICATION_TAG_REAL then
      some { w with
        priority_arrays := Function.update w.priority_arrays pri_idx
          (Function.update (w.priority_arrays pri_idx) (slot priority) { bits := value })
        priority_null := Function.update w.priority_null pri_idx
          (Function.update (w.priority_null pri_idx) (slot priority) false) }
    else none
  else some w

/-- `write_object_property_value(object_type, instance, property, tag, value, priority)`;
`value` is the 32-bit word that the `void *value` points to (not dereferenced unless the
tag is Enumerated or Real).  Returns the new world and the C status. -/
def write_object_property_value (w : World) (object_type inst property tag value
    priority : Nat) : World × Int :=
  match object_find w.objects object_type inst with
  | none => (w, -2)
  | some _ =>
    let w := initialize_priority_arrays w
    if property = PROP_PRESENT_VALUE then
      if is_gpio_output object_type inst then
        match get_priority_index inst with
        | none => (w, -3)
        | some pri_idx =>
          if priority < 1 ∨ priority > 16 then (w, -3)
          else
            match store_priority w pri_idx object_type tag value priority with
            | none => (w, -3)
            | some w1 =>
              let effective := calculate_effective_value w1 object_type inst
              let w2 := { w1 with objects := object_assign w1.objects object_type inst effective }
              if object_type = OBJECT_BINARY_OUTPUT then
                ((gpio_objects_write_property w2 object_type inst PROP_PRESENT_VALUE
                    BACNET_APPLICATION_TAG_ENUMERATED effective.enumerated priority).1, 0)
              else
                ((gpio_objects_write_property w2 object_type inst PROP_PRESENT_VALUE
                    BACNET_APPLICATION_TAG_REAL effective.real priority).1, 0)
      else
        if object_type = OBJECT_BINARY_OUTPUT then
          if tag = BACNET_APPLICATION_TAG_ENUMERATED then
            let stored : Nat := if value ≠ 0 then 1 else 0
            ({ w with objects := object_assign w.objects object_type inst { bits := stored } }, 0)
          else (w, -3)
        else if object_type = OBJECT_ANALOG_OUTPUT then
          if tag = BACNET_APPLICATION_TAG_REAL then
            ({ w with objects := object_assign w.objects object_type inst { bits := value } }, 0)
          else (w, -3)
        else (w, -3)
    else if property = PROP_RELINQUISH_DEFAULT then
      if is_gpio_output object_type inst then
        if object_type = OBJECT_BINARY_OUTPUT then
          if tag = BACNET_APPLICATION_TAG_ENUMERATED then
            let stored : Nat := if value ≠ 0 then 1 else 0
            let w1 :=
              if inst = 4018 then
                { w with relinquish_defaults := Function.update w.relinquish_defaults 0 { bits := stored } }
              else if inst = 4026 then
                { w with relinquish_defaults := Function.update w.relinquish_defaults 1 { bits := stored } }
              else w
            let effective := calculate_effective_value w1 object_type inst
            let w2 := { w1 with objects := object_assign w1.objects object_type inst effective }
            (gpio_write_pin w2 inst (PinValue.ofEnumerated effective.enumerated), 0)
          else (w, -3)
        else if object_type = OBJECT_ANALOG_OUTPUT then
          if tag = BACNET_APPLICATION_TAG_REAL then
            let w1 := { w with relinquish_defaults := Function.update w.relinquish_defaults 2 { bits := value } }
            let effective := calculate_effective_value w1 object_type inst
            let w2 := { w1 with objects := object_assign w1.objects object_type inst effective }
            (gpio_write_pin w2 inst (PinValue.ofReal effective.real), 0)
          else (w, -3)
        else (w, -1)
      else (w, -3)
    else (w, -3)

/-! ## Program start -/

/-- The state when the server loop starts.  C zero-initialises static storage, and the
initialiser `priority_null[3][16] = {{true}}` sets only element `[0][0]`.
`gpio_objects_init` has created the objects (from the configuration file or the defaults),
cleared `gpio_priorities` and set its relinquish defaults (20.0f = 0x41A00000 for the
analog input at index 2, zero elsewhere).  The environment starts with a hardware on which
every operation fails and a zero clock; `Reachable.environment` lets it be anything. -/
def boot (config : Config) (objects : List ObjectRef) (pdu_pool : Nat) : World :=
  { objects := objects
    priority_arrays := fun _ _ => { bits := 0 }
    priority_null := fun i j => decide (i = 0 ∧ j = 0)
    relinquish_defaults := fun _ => { bits := 0 }
    arrays_initialized := false
    gpio_priorities := fun i =>
      { values := fun _ => { bits := 0 }, priorities_set := 0,
        relinquish_default := if i = 2 then { bits := 0x41A00000 } else { bits := 0 },
        out_of_service := 0 }
    pdu_pool := pdu_pool
    sent := []
    pin_writes := []
    config := config
    clock := { tm_sec := 0, tm_min := 0, tm_hour := 0, tm_mday := 0, tm_mon := 0, tm_year := 0,
               tm_wday := 0 }
    hardware := fun _ => false
    hw_log := []
    last_update := 0 }

/-- The object store that `gpio_create_default_objects` builds: BO 4018 and BI 3019. -/
def default_objects : List ObjectRef :=
  [ { type := OBJECT_BINARY_OUTPUT, inst := 4018, name := some "Test LED",
      value := { bits := 0 }, active := some "ON", inactive := some "OFF" },
    { type := OBJECT_BINARY_INPUT, inst := 3019, name := some "Motion Sensor",
      value := { bits := 0 }, active := some "Motion", inactive := some "No Motion" } ]

/-! ## Tag codec (bacdcode.c) -/

/-- Byte `apdu[i]` of a buffer; the model reads 0 past the end of the list. -/
def byte (apdu : List Nat) (i : Nat) : Nat := apdu.getD i 0

/-- The big-endian number held in the first `len` bytes of `apdu`, as a `uint32_t`. -/
def big_endian (apdu : List Nat) (len : Nat) : Nat :=
  ((List.range len).foldl (fun acc i => acc * 256 + byte apdu i) 0) % 2 ^ 32

/-- Modelled from the spec: `decode_tag_number` (bacdcode.c is not under src).  Spec section
4.1: the high nibble of the tag byte is the tag number, 15 announces an extended tag number
in the next byte.  Returns (bytes consumed, tag number). -/
def decode_tag_number (apdu : List Nat) : Nat × Nat :=
  if byte apdu 0 / 16 = 15 then (2, byte apdu 1) else (1, byte apdu 0 / 16)

/-- Modelled from the spec: `decode_tag_number_and_value` (bacdcode.c is not under src).  Spec
section 4.1: the low three bits are the length/value/type; 5 announces a one-byte extended
length, which announces a 2-byte length when 254 and a 4-byte length when 255; opening (6)
and closing (7) tags carry no payload.  Returns (bytes consumed, tag number,
length/value/type). -/
def decode_tag_number_and_value (apdu : List Nat) : Nat × Nat × Nat :=
  let len := (decode_tag_number apdu).1
  let tag_number := (decode_tag_number apdu).2
  let lvt := byte apdu 0 % 8
  if lvt = 5 then
    if byte apdu len = 255 then (len + 5, tag_number, big_endian (apdu.drop (len + 1)) 4)
    else if byte apdu len = 254 then (len + 3, tag_number, big_endian (apdu.drop (len + 1)) 2)
    else (len + 1, tag_number, byte apdu len)
  else if lvt = 6 ∨ lvt = 7 then (len, tag_number, 0)
  else (len, tag_number, lvt)

/-- Modelled from the spec: `decode_is_context_tag` (bacdcode.c is not under src).  Spec section
4.1: bit 3 of the tag byte is the class (1 = context); the tag number must match. -/
def decode_is_context_tag (apdu : List Nat) (tag_number : Nat) : Bool :=
  (byte apdu 0 / 8 % 2 == 1) && ((decode_tag_number apdu).2 == tag_number)

/-- Modelled from the spec: `decode_is_opening_tag_number` (bacdcode.c is not under src).  Spec
section 4.1: an opening tag has low three bits 6. -/
def decode_is_opening_tag_number (apdu : List Nat) (tag_number : Nat) : Bool :=
  (byte apdu 0 % 8 == 6) && ((decode_tag_number apdu).2 == tag_number)

/-- Modelled from the spec: `decode_is_closing_tag_number` (bacdcode.c is not under src).  Spec
section 4.1: a closing tag has low three bits 7. -/
def decode_is_closing_tag_number (apdu : List Nat) (tag_number : Nat) : Bool :=
  (byte apdu 0 % 8 == 7) && ((decode_tag_number apdu).2 == tag_number)

/-- Modelled from the spec: `decode_object_id` (bacdcode.c is not under src).  Spec section 4.1:
one 32-bit big-endian word, top 10 bits the object type, bottom 22 bits the instance.
Returns (bytes consumed, object type, instance). -/
def decode_object_id (apdu : List Nat) : Nat × Nat × Nat :=
  (4, big_endian apdu 4 / 2 ^ 22, big_endian apdu 4 % 2 ^ 22)

/-- Modelled from the spec: `decode_unsigned` (bacdcode.c is not under src).  Spec sections 4.1
and 6: `len_value` content bytes, big-endian.  Returns (bytes consumed, value). -/
def decode_unsigned (apdu : List Nat) (len_value : Nat) : Nat × Nat :=
  (len_value, big_endian apdu len_value)

/-- Modelled from the spec: `decode_enumerated` (bacdcode.c is not under src): encoded as an
unsigned.  Returns (bytes consumed, value). -/
def decode_enumerated (apdu : List Nat) (len_value : Nat) : Nat × Nat :=
  (len_value, big_endian apdu len_value)

/-- Modelled from the spec: `decode_real` (bacdcode.c is not under src): four content bytes,
big-endian, giving the bit pattern of the float.  Returns (bytes consumed, bits). -/
def decode_real (apdu : List Nat) : Nat × Nat :=
  (4, big_endian apdu 4)

/-- The content bytes of an unsigned or enumerated value: the fewest of 1..4 bytes,
big-endian. -/
def unsigned_content (value : Nat) : List Nat :=
  if value < 256 then [value]
  else if value < 65536 then [value / 256, value % 256]
  else if value < 16777216 then [value / 65536, value / 256 % 256, value % 256]
  else [value / 16777216 % 256, value / 65536 % 256, value / 256 % 256, value % 256]

/-- Modelled from the spec: `encode_tagged_enumerated` (bacdcode.c is not under src).  Spec section
4.1: application tag 9 with the content length in the low bits (spec section 8: ACTIVE is
`91 01`).  The bytes written; the C return value is their number. -/
def encode_tagged_enumerated (value : Nat) : List Nat :=
  (9 * 16 + (unsigned_content value).length) :: unsigned_content value

/-- Modelled from the spec: `encode_tagged_unsigned` (bacdcode.c is not under src): application
tag 2. -/
def encode_tagged_unsigned (value : Nat) : List Nat :=
  (2 * 16 + (unsigned_content value).length) :: unsigned_content value

/-- Modelled from the spec: `encode_tagged_real` (bacdcode.c is not under src).  Spec section 4.1:
application tag 4 and four big-endian content bytes (spec section 8: 42.5 is
`44 42 2A 00 00`). -/
def encode_tagged_real (bits : Nat) : List Nat :=
  [4 * 16 + 4, bits / 16777216 % 256, bits / 65536 % 256, bits / 256 % 256, bits % 256]

/-- Modelled from the spec: `encode_context_unsigned` (bacdcode.c is not under src).  Spec section
4.1: a context tag has the class bit (8) set and the content length in the low bits; the
content is the unsigned value. -/
def encode_context_unsigned (tag_number value : Nat) : List Nat :=
  (tag_number * 16 + 8 + (unsigned_content value).length) :: unsigned_content value

/-- Modelled from the spec: `encode_context_enumerated` (bacdcode.c is not under src): as
`encode_context_unsigned`. -/
def encode_context_enumerated (tag_number value : Nat) : List Nat :=
  (tag_number * 16 + 8 + (unsigned_content value).length) :: unsigned_content value

/-- Modelled from the spec: `encode_context_object_id` (bacdcode.c is not under src).  Spec
sections 4.1 and 6: a context tag of length 4 and the big-endian word
`(object_type << 22) | (instance & 0x3FFFFF)`. -/
def encode_context_object_id (tag_number object_type inst : Nat) : List Nat :=
  (tag_number * 16 + 8 + 4) ::
    [ (object_type % 1024 * 4194304 + inst % 4194304) / 16777216 % 256,
      (object_type % 1024 * 4194304 + inst % 4194304) / 65536 % 256,
      (object_type % 1024 * 4194304 + inst % 4194304) / 256 % 256,
      (object_type % 1024 * 4194304 + inst % 4194304) % 256 ]

/-- Modelled from the spec: `encode_opening_tag` (bacdcode.c is not under src).  Spec section 4.1:
class bit set, low three bits 6, no payload. -/
def encode_opening_tag (tag_number : Nat) : List Nat := [tag_number * 16 + 8 + 6]

/-- Modelled from the spec: `encode_closing_tag` (bacdcode.c is not under src).  Spec section 4.1:
class bit set, low three bits 7, no payload. -/
def encode_closing_tag (tag_number : Nat) : List Nat := [tag_number * 16 + 8 + 7]

/-! ## PDU constants and the link-layer boundary -/

/-- Modelled from the spec: section 6, SimpleACK PDU type 0x20. -/
def PDU_TYPE_SIMPLE_ACK : Nat := 0x20
/-- Modelled from the spec: section 6, ComplexACK PDU type 0x30. -/
def PDU_TYPE_COMPLEX_ACK : Nat := 0x30
/-- Modelled from the spec: section 6, Error PDU type 0x50. -/
def PDU_TYPE_ERROR : Nat := 0x50
/-- Modelled from the spec: section 6, Abort PDU type 0x70. -/
def PDU_TYPE_ABORT : Nat := 0x70
/-- Modelled from the spec: section 6, ReadProperty service choice 0x0C. -/
def SERVICE_CONFIRMED_READ_PROPERTY : Nat := 0x0C
/-- Modelled from the spec: section 6, WriteProperty service choice 0x0F. -/
def SERVICE_CONFIRMED_WRITE_PROPERTY : Nat := 0x0F

/-- Modelled from the spec: ASHRAE 135 error class `object`. -/
def ERROR_CLASS_OBJECT : Nat := 1
/-- Modelled from the spec: ASHRAE 135 error class `property`. -/
def ERROR_CLASS_PROPERTY : Nat := 2
/-- Modelled from the spec: ASHRAE 135 error class `services`. -/
def ERROR_CLASS_SERVICES : Nat := 5
/-- Modelled from the spec: ASHRAE 135 error code `other`. -/
def ERROR_CODE_OTHER : Nat := 0
/-- Modelled from the spec: ASHRAE 135 error code `invalid-data-type`. -/
def ERROR_CODE_INVALID_DATA_TYPE : Nat := 9
/-- Modelled from the spec: ASHRAE 135 error code `missing-required-parameter`. -/
def ERROR_CODE_MISSING_REQUIRED_PARAMETER : Nat := 16
/-- Modelled from the spec: ASHRAE 135 error code `property-is-not-a-list`. -/
def ERROR_CODE_PROPERTY_IS_NOT_A_LIST : Nat := 22
/-- Modelled from the spec: ASHRAE 135 error code `unknown-object`. -/
def ERROR_CODE_UNKNOWN_OBJECT : Nat := 31
/-- Modelled from the spec: ASHRAE 135 error code `unknown-property`. -/
def ERROR_CODE_UNKNOWN_PROPERTY : Nat := 32
/-- Modelled from the spec: ASHRAE 135 error code `value-out-of-range`. -/
def ERROR_CODE_VALUE_OUT_OF_RANGE : Nat := 37
/-- Modelled from the spec: ASHRAE 135 error code `write-access-denied`. -/
def ERROR_CODE_WRITE_ACCESS_DENIED : Nat := 40
/-- Modelled from the spec: ASHRAE 135 error code `invalid-array-index`. -/
def ERROR_CODE_INVALID_ARRAY_INDEX : Nat := 42

/-- Modelled from the spec: `pdu_alloc` (pdu.c is not under src).  Spec section 5: APDU buffers
come from a bounded pool; `none` is the NULL of an exhausted pool. -/
def pdu_alloc (w : World) : Option World :=
  if w.pdu_pool = 0 then none else some { w with pdu_pool := w.pdu_pool - 1 }

/-- Modelled from the spec: `pdu_free` (pdu.c is not under src) returns the buffer to the pool. -/
def pdu_free (w : World) : World := { w with pdu_pool := w.pdu_pool + 1 }

/-- Modelled from the spec: `send_npdu_address` (not under src) hands `apdu[0..len)` to the link
layer (spec section 6); the destination is always the requester and is not recorded. -/
def send_npdu_address (w : World) (apdu : List Nat) : World :=
  { w with sent := w.sent ++ [apdu] }

/-! ## receive_writeproperty.c: the service handler -/

/-- `send_simple_ack`. -/
def send_simple_ack (w : World) (invoke_id service_choice : Nat) : World :=
  match pdu_alloc w with
  | none => w
  | some w1 => pdu_free (send_npdu_address w1 [PDU_TYPE_SIMPLE_ACK, invoke_id, service_choice])

/-- `send_error_response`. -/
def send_error_response (w : World) (invoke_id service_choice error_class error_code : Nat) :
    World :=
  match pdu_alloc w with
  | none => w
  | some w1 =>
      pdu_free (send_npdu_address w1
        ([PDU_TYPE_ERROR, invoke_id, service_choice] ++ encode_tagged_enumerated error_class
          ++ encode_tagged_enumerated error_code))

/-- The locals of `receive_writeproperty` after the property value has been decoded
(lines 503-534). -/
structure DecodedValue where
  is_null_write : Bool
  enum_value : Nat
  real_value : Nat
  offset : Nat
deriving DecidableEq, Repr

/-- Lines 496-534 of `receive_writeproperty`, entered with `offset` on the first byte after the
opening tag.  `len_value_type` receives the RETURN value of `decode_tag_number_and_value`
(the out-parameter of the same name is overwritten by the assignment), is added to
`offset`, and is then used as the content length.  `none` is the unsupported-type branch. -/
def decode_property_value (service_request : List Nat) (offset : Nat) :
    Nat × Option DecodedValue :=
  let tag_number := (decode_tag_number_and_value (service_request.drop offset)).2.1
  let len_value_type := (decode_tag_number_and_value (service_request.drop offset)).1
  let offset := offset + len_value_type
  if tag_number = BACNET_APPLICATION_TAG_NULL then
    (tag_number, some { is_null_write := true, enum_value := 0, real_value := 0,
                        offset := offset + len_value_type })
  else if tag_number = BACNET_APPLICATION_TAG_ENUMERATED then
    let r := decode_enumerated (service_request.drop offset) len_value_type
    (tag_number, some { is_null_write := false, enum_value := r.2, real_value := 0,
                        offset := offset + r.1 })
  else if tag_number = BACNET_APPLICATION_TAG_REAL then
    let r := decode_real (service_request.drop offset)
    (tag_number, some { is_null_write := false, enum_value := 0, real_value := r.2,
                        offset := offset + r.1 })
  else (tag_number, none)

/-- Lines 541-557 of `receive_writeproperty`: the optional `[4]` priority, default 16. -/
def decode_priority (service_request : List Nat) (service_len offset : Nat) : Nat :=
  if offset < service_len ∧ decode_is_context_tag (service_request.drop offset) 4 = true then
    let t := decode_tag_number_and_value (service_request.drop offset)
    let priority_value := (decode_unsigned (service_request.drop (offset + t.1)) t.2.2).2
    if priority_value ≥ 1 ∧ priority_value ≤ 16 then priority_value else 16
  else 16

/-- Lines 559-577 of `receive_writeproperty`: the call of `write_object_property_value` with
the decoded value (the pointer passed with a Null is `NULL`, never dereferenced; its word
is 0 here).  `status` stays 0 when no branch is taken. -/
def execute_write (w : World) (object_type inst property value_tag : Nat) (d : DecodedValue)
    (priority : Nat) : World × Int :=
  if d.is_null_write then
    write_object_property_value w object_type inst property BACNET_APPLICATION_TAG_NULL 0 priority
  else if value_tag = BACNET_APPLICATION_TAG_ENUMERATED then
    write_object_property_value w object_type inst property BACNET_APPLICATION_TAG_ENUMERATED
      d.enum_value priority
  else if value_tag = BACNET_APPLICATION_TAG_REAL then
    write_object_property_value w object_type inst property BACNET_APPLICATION_TAG_REAL
      d.real_value priority
  else (w, 0)

/-- Lines 579-596 of `receive_writeproperty`: the response chosen from the write status. -/
def send_write_response (w : World) (status : Int) (invoke_id : Nat) : World :=
  if status = 0 then send_simple_ack w invoke_id SERVICE_CONFIRMED_WRITE_PROPERTY
  else if status = -2 then
    send_error_response w invoke_id SERVICE_CONFIRMED_WRITE_PROPERTY
      ERROR_CLASS_OBJECT ERROR_CODE_UNKNOWN_OBJECT
  else if status = -3 then
    send_error_response w invoke_id SERVICE_CONFIRMED_WRITE_PROPERTY
      ERROR_CLASS_PROPERTY ERROR_CODE_WRITE_ACCESS_DENIED
  else
    send_error_response w invoke_id SERVICE_CONFIRMED_WRITE_PROPERTY
      ERROR_CLASS_SERVICES ERROR_CODE_OTHER

/-- `receive_writeproperty(service_request, service_len, src, src_max_apdu, invoke_id)`.
`service_request` is the receive buffer from the first byte of the service request on (it
may extend beyond `service_len`).  Returns the new world and the C return value. -/
def receive_writeproperty (w : World) (service_request : List Nat) (service_len : Nat)
    (invoke_id : Nat) : World × Int :=
  if decode_is_context_tag service_request 0 then
    let offset := (decode_tag_number_and_value service_request).1
    let oid := decode_object_id (service_request.drop offset)
    let object_type := oid.2.1
    let inst := oid.2.2
    let offset := offset + oid.1
    if decode_is_context_tag (service_request.drop offset) 1 then
      let t := decode_tag_number_and_value (service_request.drop offset)
      let offset := offset + t.1
      let e := decode_enumerated (service_request.drop offset) t.2.2
      let property := e.2
      let offset := offset + e.1
      if decode_is_context_tag (service_request.drop offset) 2 then
        (send_error_response w invoke_id SERVICE_CONFIRMED_WRITE_PROPERTY
          ERROR_CLASS_SERVICES ERROR_CODE_PROPERTY_IS_NOT_A_LIST, -1)
      else if decode_is_opening_tag_number (service_request.drop offset) 3 then
        let offset := offset + 1
        match decode_property_value service_request offset with
        | (_, none) =>
            (send_error_response w invoke_id SERVICE_CONFIRMED_WRITE_PROPERTY
              ERROR_CLASS_PROPERTY ERROR_CODE_INVALID_DATA_TYPE, -1)
        | (value_tag, some d) =>
            let offset :=
              if decode_is_closing_tag_number (service_request.drop d.offset) 3 then d.offset + 1
              else d.offset
            let priority := decode_priority service_request service_len offset
            let r := execute_write w object_type inst property value_tag d priority
            (send_write_response r.1 r.2 invoke_id, 0)
      else
        (send_error_response w invoke_id SERVICE_CONFIRMED_WRITE_PROPERTY
          ERROR_CLASS_SERVICES ERROR_CODE_MISSING_REQUIRED_PARAMETER, -1)
    else
      (send_error_response w invoke_id SERVICE_CONFIRMED_WRITE_PROPERTY
        ERROR_CLASS_SERVICES ERROR_CODE_MISSING_REQUIRED_PARAMETER, -1)
  else
    (send_error_response w invoke_id SERVICE_CONFIRMED_WRITE_PROPERTY
      ERROR_CLASS_SERVICES ERROR_CODE_MISSING_REQUIRED_PARAMETER, -1)

/-! ## gpio_objects.c and receive_readproperty.c: reading back -/

/-- Modelled from the spec: `BACNET_ARRAY_ALL` (bacnet_const.h is not under src), the
`uint32_t` value that stands for an absent array index. -/
def BACNET_ARRAY_ALL : Nat := 0xFFFFFFFF

/-- Modelled from the spec: ASHRAE 135 property identifiers used by the read handlers
(bacnet_enum.h is not under src). -/
def PROP_ACTIVE_TEXT : Nat := 4
/-- Modelled from the spec: ASHRAE 135 property identifier inactive-text. -/
def PROP_INACTIVE_TEXT : Nat := 46
/-- Modelled from the spec: ASHRAE 135 property identifier object-identifier. -/
def PROP_OBJECT_IDENTIFIER : Nat := 75
/-- Modelled from the spec: ASHRAE 135 property identifier object-name. -/
def PROP_OBJECT_NAME : Nat := 77
/-- Modelled from the spec: ASHRAE 135 property identifier object-type. -/
def PROP_OBJECT_TYPE : Nat := 79
/-- Modelled from the spec: ASHRAE 135 property identifier out-of-service. -/
def PROP_OUT_OF_SERVICE : Nat := 81
/-- Modelled from the spec: ASHRAE 135 property identifier status-flags. -/
def PROP_STATUS_FLAGS : Nat := 111
/-- Modelled from the spec: ASHRAE 135 property identifier units. -/
def PROP_UNITS : Nat := 117

/-- The four big-endian bytes of a 32-bit word. -/
def word_bytes (x : Nat) : List Nat :=
  [x / 16777216 % 256, x / 65536 % 256, x / 256 % 256, x % 256]

/-- Modelled from the spec: `encode_tagged_object_id` (bacdcode.c is not under src).  Spec
sections 4.1 and 6: application tag 12, content the word
`(object_type << 22) | (instance & 0x3FFFFF)`, big-endian. -/
def encode_tagged_object_id (object_type inst : Nat) : List Nat :=
  (12 * 16 + 4) :: word_bytes (object_type % 1024 * 4194304 + inst % 4194304)

/-- Modelled from the spec: the tag byte(s) of an application tag with content length `len`
(spec section 4.1: lengths above 4 use the extended-length forms). -/
def application_tag (tag_number len : Nat) : List Nat :=
  if len ≤ 4 then [tag_number * 16 + len]
  else if len ≤ 253 then [tag_number * 16 + 5, len]
  else if len ≤ 65535 then [tag_number * 16 + 5, 254, len / 256, len % 256]
  else (tag_number * 16 + 5) :: 255 :: word_bytes len

/-- Modelled from the spec: `encode_tagged_character_string` (bacdcode.c is not under src).  Spec
section 4.1: application tag 7, one leading character-set byte 0, then the characters. -/
def encode_tagged_character_string (str : String) : List Nat :=
  application_tag 7 (str.toList.length + 1) ++ 0 :: str.toList.map Char.toNat

/-- The content bytes of a bit string: bit 0 is the most significant bit of the first byte. -/
def pack_bits : List Bool → List Nat
  | [] => []
  | bits =>
      ((bits.take 8 ++ List.replicate (8 - (bits.take 8).length) false).foldl
          (fun acc b => 2 * acc + (if b then 1 else 0)) 0) ::
        (if h : bits.length ≤ 8 then [] else pack_bits (bits.drop 8))
termination_by bits => bits.length
decreasing_by simp only [List.length_drop]; omega

/-- Modelled from the spec: `encode_tagged_bitstring` (bacdcode.c is not under src).  Spec section
4.1: application tag 8, one leading byte with the number of unused bits in the last
byte, then the bits. -/
def encode_tagged_bitstring (bits : List Bool) : List Nat :=
  application_tag 8 ((bits.length + 7) / 8 + 1) ++
    ((8 - bits.length % 8) % 8) :: pack_bits bits

/-- `gpio_encode_relinquish_default`: the bytes written to `apdu`; the C return value is
their number. -/
def gpio_encode_relinquish_default (w : World) (object_type inst : Nat) : List Nat :=
  if object_type = OBJECT_BINARY_OUTPUT then
    let stored_value : Nat :=
      if inst = 4018 then (w.relinquish_defaults 0).enumerated
      else if inst = 4026 then (w.relinquish_defaults 1).enumerated
      else 0
    encode_tagged_enumerated stored_value
  else if object_type = OBJECT_ANALOG_OUTPUT then
    encode_tagged_real (w.relinquish_defaults 2).real
  else
    if object_type = OBJECT_BINARY_OUTPUT then encode_tagged_enumerated 0
    else encode_tagged_real 0

/-- The loop of lines 90-103 of `encode_object_property_value` over the priorities still to
encode; every `get_priority_value` call may initialise the arrays. -/
def encode_priority_levels (object_type inst : Nat) : World → List Nat → World × List Nat
  | w, [] => (w, [])
  | w, i :: rest =>
      let r := get_priority_value w inst i { bits := 0 }
      let element : List Nat :=
        if r.2.1 then [0x00]
        else if object_type = OBJECT_BINARY_OUTPUT then encode_tagged_enumerated r.2.2.enumerated
        else encode_tagged_real r.2.2.real
      let tl := encode_priority_levels object_type inst r.1 rest
      (tl.1, element ++ tl.2)

/-- `encode_object_property_value(apdu, object_type, instance, property, array_index)`:
the new world and the bytes written to `apdu`; the C return value is their number. -/
def encode_object_property_value (w : World) (object_type inst property array_index : Nat) :
    World × List Nat :=
  match object_find w.objects object_type inst with
  | none => (w, [])
  | some obj =>
    if is_gpio_output object_type inst = true ∧
        (property = PROP_PRIORITY_ARRAY ∨ property = PROP_RELINQUISH_DEFAULT) then
      if property = PROP_PRIORITY_ARRAY then
        if array_index = BACNET_ARRAY_ALL then
          let r := encode_priority_levels object_type inst w (List.range' 1 16)
          (r.1, encode_tagged_unsigned 16 ++ r.2)
        else if array_index = 0 then (w, encode_tagged_unsigned 16)
        else if array_index ≥ 1 ∧ array_index ≤ 16 then
          let r := get_priority_value w inst array_index { bits := 0 }
          if r.2.1 then (r.1, [0x00])
          else if object_type = OBJECT_BINARY_OUTPUT then
            (r.1, encode_tagged_enumerated r.2.2.enumerated)
          else (r.1, encode_tagged_real r.2.2.real)
        else (w, [])
      else
        if object_type = OBJECT_BINARY_OUTPUT then (w, encode_tagged_enumerated 0)
        else (w, encode_tagged_real 0)
    else if property = PROP_OBJECT_IDENTIFIER then (w, encode_tagged_object_id object_type inst)
    else if property = PROP_OBJECT_NAME then
      (w, encode_tagged_character_string (obj.name.getD "Unnamed Object"))
    else if property = PROP_OBJECT_TYPE then (w, encode_tagged_enumerated object_type)
    else if property = PROP_PRESENT_VALUE then
      if object_type = OBJECT_BINARY_INPUT ∨ object_type = OBJECT_BINARY_OUTPUT then
        (w, encode_tagged_enumerated obj.value.enumerated)
      else if object_type = OBJECT_ANALOG_INPUT ∨ object_type = OBJECT_ANALOG_OUTPUT then
        (w, encode_tagged_real obj.value.real)
      else (w, [])
    else if property = PROP_STATUS_FLAGS then
      (w, encode_tagged_bitstring [false, false, false, false])
    else if property = PROP_OUT_OF_SERVICE then (w, encode_tagged_enumerated 0)
    else if property = PROP_UNITS then
      if object_type = OBJECT_BINARY_INPUT ∨ object_type = OBJECT_BINARY_OUTPUT then
        (w, encode_tagged_enumerated 95)
      else (w, encode_tagged_enumerated 62)
    else if property = PROP_ACTIVE_TEXT then
      if object_type = OBJECT_BINARY_INPUT ∨ object_type = OBJECT_BINARY_OUTPUT then
        (w, encode_tagged_character_string (obj.active.getD "Active"))
      else (w, [])
    else if property = PROP_INACTIVE_TEXT then
      if object_type = OBJECT_BINARY_INPUT ∨ object_type = OBJECT_BINARY_OUTPUT then
        (w, encode_tagged_character_string (obj.inactive.getD "Inactive"))
      else (w, [])
    else (w, [])

/-! ## receive_readproperty.c: the Device object -/

/-- Modelled from the spec: property identifiers of the Device object (bacnet_enum.h is not
under src; ASHRAE 135 numbering). -/
def PROP_APDU_TIMEOUT : Nat := 11
/-- Property application-software-version. -/
def PROP_APPLICATION_SOFTWARE_VERSION : Nat := 12
/-- Property description. -/
def PROP_DESCRIPTION : Nat := 28
/-- Property firmware-revision. -/
def PROP_FIRMWARE_REVISION : Nat := 44
/-- Property local-date. -/
def PROP_LOCAL_DATE : Nat := 56
/-- Property local-time. -/
def PROP_LOCAL_TIME : Nat := 57
/-- Property max-apdu-length-accepted. -/
def PROP_MAX_APDU_LENGTH_ACCEPTED : Nat := 62
/-- Property model-name. -/
def PROP_MODEL_NAME : Nat := 70
/-- Property number-of-APDU-retries. -/
def PROP_NUMBER_OF_APDU_RETRIES : Nat := 73
/-- Property object-list. -/
def PROP_OBJECT_LIST : Nat := 76
/-- Property protocol-conformance-class. -/
def PROP_PROTOCOL_CONFORMANCE_CLASS : Nat := 95
/-- Property protocol-object-types-supported. -/
def PROP_PROTOCOL_OBJECT_TYPES_SUPPORTED : Nat := 96
/-- Property protocol-services-supported. -/
def PROP_PROTOCOL_SERVICES_SUPPORTED : Nat := 97
/-- Property protocol-version. -/
def PROP_PROTOCOL_VERSION : Nat := 98
/-- Property segmentation-supported. -/
def PROP_SEGMENTATION_SUPPORTED : Nat := 107
/-- Property system-status. -/
def PROP_SYSTEM_STATUS : Nat := 112
/-- Property vendor-identifier. -/
def PROP_VENDOR_IDENTIFIER : Nat := 120
/-- Property vendor-name. -/
def PROP_VENDOR_NAME : Nat := 121

/-- Modelled from the spec: enumerated values and bit positions of bacnet_enum.h (not under
src; ASHRAE 135 numbering). -/
def STATUS_OPERATIONAL_READ_ONLY : Nat := 1
/-- Segmentation: none. -/
def SEGMENTATION_NONE : Nat := 3
/-- Bit of confirmed-COV-notification in protocol-services-supported. -/
def SERVICE_SUPPORTED_CONFIRMED_COV_NOTIFICATION : Nat := 1
/-- Bit of read-property. -/
def SERVICE_SUPPORTED_READ_PROPERTY : Nat := 12
/-- Bit of write-property. -/
def SERVICE_SUPPORTED_WRITE_PROPERTY : Nat := 15
/-- Bit of i-am. -/
def SERVICE_SUPPORTED_I_AM : Nat := 26
/-- Bit of time-synchronization. -/
def SERVICE_SUPPORTED_TIME_SYNCHRONIZATION : Nat := 32
/-- Bit of who-is. -/
def SERVICE_SUPPORTED_WHO_IS : Nat := 34
/-- Number of bits of protocol-services-supported. -/
def MAX_BACNET_SERVICES_SUPPORTED : Nat := 40
/-- Abort reason other. -/
def ABORT_REASON_OTHER : Nat := 0
/-- Abort reason segmentation-not-supported. -/
def ABORT_REASON_SEGMENTATION_NOT_SUPPORTED : Nat := 4

/-- Modelled from the spec: `bitstring_set_bit` (bacdcode.c is not under src) sets one bit of a
bit string, which grows to hold it; `bitstring_init` gives the empty bit string. -/
def bitstring_set_bit (bits : List Bool) (bit : Nat) (value : Bool) : List Bool :=
  (bits ++ List.replicate (bit + 1 - bits.length) false).set bit value

/-- Modelled from the spec: `encode_tagged_time` (bacdcode.c is not under src).  Spec section
4.1: application tag 11, content hour, minute, second, hundredths. -/
def encode_tagged_time (hour min sec hundredths : Nat) : List Nat :=
  [11 * 16 + 4, hour % 256, min % 256, sec % 256, hundredths % 256]

/-- Modelled from the spec: `encode_tagged_date` (bacdcode.c is not under src).  Spec section
4.1: application tag 10, content year, month, day, day of week. -/
def encode_tagged_date (year month day wday : Nat) : List Nat :=
  [10 * 16 + 4, year % 256, month % 256, day % 256, wday % 256]

/-- The bit string built under `case PROP_PROTOCOL_SERVICES_SUPPORTED`. -/
def services_supported (config : Config) : List Bool :=
  let b := (List.range MAX_BACNET_SERVICES_SUPPORTED).foldl
    (fun b i => bitstring_set_bit b i false) []
  let b := bitstring_set_bit b SERVICE_SUPPORTED_WHO_IS true
  let b := bitstring_set_bit b SERVICE_SUPPORTED_I_AM true
  let b := bitstring_set_bit b SERVICE_SUPPORTED_READ_PROPERTY true
  let b := if config.BACnet_Time_Sync_Seconds ≠ 0 then
      bitstring_set_bit b SERVICE_SUPPORTED_TIME_SYNCHRONIZATION true else b
  if config.BACnet_COV_Support ≠ 0 then
    bitstring_set_bit b SERVICE_SUPPORTED_CONFIRMED_COV_NOTIFICATION true else b

/-- The bit string built under `case PROP_PROTOCOL_OBJECT_TYPES_SUPPORTED`: bits 0..22 in
the order of the `bitstring_set_bit` calls (the object types 0..22 of bacnet_enum.h), true
for analog input (0), analog output (1), binary input (3), binary output (4), device (8). -/
def object_types_supported : List Bool :=
  [(OBJECT_ANALOG_INPUT, true), (OBJECT_ANALOG_OUTPUT, true), (2, false),
   (OBJECT_BINARY_INPUT, true), (OBJECT_BINARY_OUTPUT, true), (5, false), (6, false),
   (7, false), (OBJECT_DEVICE, true), (9, false), (10, false), (11, false), (12, false),
   (13, false), (14, false), (15, false), (16, false), (17, false), (18, false), (19, false),
   (20, false), (21, false), (22, false)].foldl
    (fun b (x : Nat × Bool) => bitstring_set_bit b x.1 x.2) []

/-- `encode_device_property(apdu, property, array_index)`: the bytes written to `apdu`; the C
return value is their number.  `array_index` arrives as an `int`, so ALL is -1 there; the
comparisons with 0..6 have the same outcome on the unsigned value. -/
def encode_device_property (w : World) (property array_index : Nat) : List Nat :=
  if property = PROP_OBJECT_IDENTIFIER then
    encode_tagged_object_id OBJECT_DEVICE w.config.BACnet_Device_Instance
  else if property = PROP_OBJECT_NAME then encode_tagged_character_string "BACnet4Linux"
  else if property = PROP_OBJECT_TYPE then encode_tagged_enumerated OBJECT_DEVICE
  else if property = PROP_DESCRIPTION then
    encode_tagged_character_string "BACnet Stack for Linux"
  else if property = PROP_SYSTEM_STATUS then
    encode_tagged_enumerated STATUS_OPERATIONAL_READ_ONLY
  else if property = PROP_VENDOR_NAME then encode_tagged_character_string "GNU"
  else if property = PROP_VENDOR_IDENTIFIER then
    encode_tagged_unsigned w.config.BACnet_Vendor_Identifier
  else if property = PROP_MODEL_NAME then encode_tagged_character_string "BACnet4Linux"
  else if property = PROP_FIRMWARE_REVISION then
    encode_tagged_character_string w.config.Program_Version
  else if property = PROP_APPLICATION_SOFTWARE_VERSION then
    encode_tagged_character_string w.config.Program_Version
  else if property = PROP_LOCAL_TIME then
    encode_tagged_time w.clock.tm_hour w.clock.tm_min w.clock.tm_sec 0
  else if property = PROP_LOCAL_DATE then
    encode_tagged_date w.clock.tm_year (w.clock.tm_mon + 1) w.clock.tm_mday
      (if w.clock.tm_wday = 0 then 7 else w.clock.tm_wday)
  else if property = PROP_PROTOCOL_VERSION then encode_tagged_unsigned 1
  else if property = PROP_PROTOCOL_CONFORMANCE_CLASS then encode_tagged_unsigned 1
  else if property = PROP_PROTOCOL_SERVICES_SUPPORTED then
    encode_tagged_bitstring (services_supported w.config)
  else if property = PROP_PROTOCOL_OBJECT_TYPES_SUPPORTED then
    encode_tagged_bitstring object_types_supported
  else if property = PROP_OBJECT_LIST then
    if array_index = 0 then encode_tagged_unsigned 6
    else if array_index = 1 then
      encode_tagged_object_id OBJECT_DEVICE w.config.BACnet_Device_Instance
    else if array_index = 2 then encode_tagged_object_id OBJECT_BINARY_OUTPUT 4018
    else if array_index = 3 then encode_tagged_object_id OBJECT_BINARY_INPUT 3019
    else if array_index = 4 then encode_tagged_object_id OBJECT_ANALOG_INPUT 1020
    else if array_index = 5 then encode_tagged_object_id OBJECT_ANALOG_OUTPUT 2021
    else if array_index = 6 then encode_tagged_object_id OBJECT_BINARY_OUTPUT 4026
    else []
  else if property = PROP_MAX_APDU_LENGTH_ACCEPTED then encode_tagged_unsigned w.config.MAX_APDU
  else if property = PROP_SEGMENTATION_SUPPORTED then encode_tagged_enumerated SEGMENTATION_NONE
  else if property = PROP_APDU_TIMEOUT then
    encode_tagged_unsigned (w.config.BACnet_APDU_Timeout * 1000)
  else if property = PROP_NUMBER_OF_APDU_RETRIES then encode_tagged_unsigned 1
  else []

/-! ## receive_readproperty.c: the service handler -/

/-- Modelled from the spec: `send_error_address` (reject.c is not under src) sends a BACnet-Error
APDU that echoes the invoke-id and the service choice and carries the error class and the
error code (spec sections 4.5 and 6), framed as `send_error_response` of
receive_writeproperty.c frames it. -/
def send_error_address (w : World) (invoke_id service_choice error_class error_code : Nat) :
    World :=
  send_npdu_address w
    ([PDU_TYPE_ERROR, invoke_id, service_choice] ++ encode_tagged_enumerated error_class
      ++ encode_tagged_enumerated error_code)

/-- Modelled from the spec: `send_abort_address` (reject.c is not under src) sends an Abort
APDU with the invoke-id and the reason (spec sections 4.5 and 6).  It is the report of an
exhausted buffer pool (spec section 5), so it takes no buffer from the pool. -/
def send_abort_address (w : World) (invoke_id reason : Nat) : World :=
  send_npdu_address w [PDU_TYPE_ABORT, invoke_id, reason]

/-- Lines 397-421 of `receive_readproperty`: the optional `[2]` array index, ALL when the
request ends at `offset` or another tag follows. -/
def decode_array_index (service_request : List Nat) (service_len offset : Nat) : Nat :=
  if offset < service_len then
    let t := decode_tag_number_and_value (service_request.drop offset)
    if t.2.1 = 2 then (decode_unsigned (service_request.drop (offset + t.1)) t.2.2).2
    else BACNET_ARRAY_ALL
  else BACNET_ARRAY_ALL

/-- The encoder that `receive_readproperty` calls for the property value (lines 446-447 and
473-484): `encode_device_property` for the Device object of this server, and for every
other key `gpio_encode_relinquish_default` when relinquish-default of an output type is
asked (with `encode_object_property_value` as the fallback when it wrote nothing), else
`encode_object_property_value`.  The new world and the bytes written. -/
def encode_requested_property (w : World) (object inst property array_index : Nat) :
    World × List Nat :=
  if object = OBJECT_DEVICE ∧ inst = w.config.BACnet_Device_Instance then
    (w, encode_device_property w property array_index)
  else if property = PROP_RELINQUISH_DEFAULT ∧
      (object = OBJECT_BINARY_OUTPUT ∨ object = OBJECT_ANALOG_OUTPUT) then
    if gpio_encode_relinquish_default w object inst = [] then
      encode_object_property_value w object inst property array_index
    else (w, gpio_encode_relinquish_default w object inst)
  else encode_object_property_value w object inst property array_index

/-- The bytes that both branches of `receive_readproperty` write before the property value
(lines 428-445 and 460-471): the ComplexACK header, `[0]` object id, `[1]` property id, the
`[2]` array index unless it is ALL, and the opening tag `[3]`. -/
def complex_ack_header (invoke_id object inst property array_index : Nat) : List Nat :=
  [PDU_TYPE_COMPLEX_ACK, invoke_id, SERVICE_CONFIRMED_READ_PROPERTY] ++
    encode_context_object_id 0 object inst ++ encode_context_enumerated 1 property ++
    (if array_index ≠ BACNET_ARRAY_ALL then encode_context_unsigned 2 array_index else []) ++
    encode_opening_tag 3

/-- Lines 448-457, 485-494 and 497-506 of `receive_readproperty`: an Error (property,
unknown-property) when the encoder wrote nothing (`offset == 0`); else the closing tag is
appended and the APDU is sent, or an Abort when it is longer than `src_max_apdu`. -/
def send_read_response (w : World) (header value : List Nat) (src_max_apdu invoke_id : Nat) :
    World :=
  if value.length = 0 then
    send_error_address w invoke_id SERVICE_CONFIRMED_READ_PROPERTY ERROR_CLASS_PROPERTY
      ERROR_CODE_UNKNOWN_PROPERTY
  else if (header ++ value ++ encode_closing_tag 3).length > src_max_apdu then
    send_abort_address w invoke_id ABORT_REASON_SEGMENTATION_NOT_SUPPORTED
  else send_npdu_address w (header ++ value ++ encode_closing_tag 3)

/-- `receive_readproperty(service_request, service_len, src, src_max_apdu, invoke_id)`.
`service_request` is the receive buffer from the first byte of the service request on.
The two branches of lines 425-495 differ only in the encoder called
(`encode_requested_property`).  Returns the new world and the C return value. -/
def receive_readproperty (w : World) (service_request : List Nat) (service_len src_max_apdu
    invoke_id : Nat) : World × Int :=
  if decode_is_context_tag service_request 0 then
    let offset := 1
    let oid := decode_object_id (service_request.drop offset)
    let object := oid.2.1
    let inst := oid.2.2
    let offset := offset + oid.1
    let t := decode_tag_number_and_value (service_request.drop offset)
    let offset := offset + t.1
    if t.2.1 ≠ 1 then (send_abort_address w invoke_id ABORT_REASON_OTHER, 1)
    else
      let e := decode_enumerated (service_request.drop offset) t.2.2
      let property := e.2
      let offset := offset + e.1
      let array_index := decode_array_index service_request service_len offset
      match pdu_alloc w with
      | none => (send_abort_address w invoke_id ABORT_REASON_OTHER, 1)
      | some w1 =>
          let r := encode_requested_property w1 object inst property array_index
          (pdu_free (send_read_response r.1
            (complex_ack_header invoke_id object inst property array_index) r.2
            src_max_apdu invoke_id), 1)
  else (send_abort_address w invoke_id ABORT_REASON_OTHER, 1)

/-! ## gpio_objects.c: the periodic input updates -/

/-- `gpio_update_inputs(device_id)`.  `current_time` is what `time(NULL)` returns and
`gpio_value` what `gpio_read_pin(3019)` returns (the number printed by gpioget or by the
RPi.GPIO script, or read from sysfs; 0 when every method fails). -/
def gpio_update_inputs (w : World) (current_time : Nat) (gpio_value : Int) : World :=
  if (current_time : Int) - (w.last_update : Int) < 1 then w
  else
    match object_find w.objects OBJECT_BINARY_INPUT 3019 with
    | none => { w with last_update := current_time }
    | some obj =>
        if obj.value.enumerated ≠ (if gpio_value ≠ 0 then 1 else 0) then
          { w with last_update := current_time
                   objects := object_assign w.objects OBJECT_BINARY_INPUT 3019
                     { bits := if gpio_value ≠ 0 then 1 else 0 } }
        else { w with last_update := current_time }

/-- `gpio_objects_update_values(device_id)`.  `temp` is the bit pattern of the float
`20.0 + (rand() % 50) / 10.0` of the first `rand()` call and `motion` the value of the
`rand()` call of the motion sensor. -/
def gpio_objects_update_values (w : World) (temp motion : Nat) : World :=
  let objects1 :=
    match object_find w.objects OBJECT_ANALOG_INPUT 1020 with
    | none => w.objects
    | some _ => object_assign w.objects OBJECT_ANALOG_INPUT 1020 { bits := temp }
  match object_find objects1 OBJECT_BINARY_INPUT 3019 with
  | none => { w with objects := objects1 }
  | some _ =>
      { w with objects := object_assign objects1 OBJECT_BINARY_INPUT 3019
                 { bits := if motion % 10 = 0 then 1 else 0 } }

/-! ## receive_readproperty.c: the request as decoded and the response as assembled -/

/-- Lines 383-421 of `receive_readproperty`: the object type, the instance, the property and
the array index that the handler decodes from a request that passes its two tag checks. -/
def decoded_read_request (service_request : List Nat) (service_len : Nat) :
    Nat × Nat × Nat × Nat :=
  let oid := decode_object_id (service_request.drop 1)
  let t := decode_tag_number_and_value (service_request.drop (1 + oid.1))
  let e := decode_enumerated (service_request.drop (1 + oid.1 + t.1)) t.2.2
  (oid.2.1, oid.2.2, e.2,
    decode_array_index service_request service_len (1 + oid.1 + t.1 + e.1))

/-- The bytes of the property value that `receive_readproperty` has its encoder write for a
request that passes the two tag checks while a buffer is free (lines 446-447 and
473-484). -/
def read_response_value (w : World) (service_request : List Nat) (service_len : Nat) :
    List Nat :=
  let d := decoded_read_request service_request service_len
  (encode_requested_property { w with pdu_pool := w.pdu_pool - 1 } d.1 d.2.1 d.2.2.1 d.2.2.2).2

/-- The APDU that lines 428-495 of `receive_readproperty` assemble for such a request: the
bytes of `complex_ack_header`, the property value and the closing tag `[3]`. -/
def read_response_apdu (w : World) (service_request : List Nat) (service_len invoke_id : Nat) :
    List Nat :=
  let d := decoded_read_request service_request service_len
  complex_ack_header invoke_id d.1 d.2.1 d.2.2.1 d.2.2.2 ++
    read_response_value w service_request service_len ++ encode_closing_tag 3

/-! ## gpio_objects.c: gpio_handle_read_property -/

/-- The ComplexACK that every case of `gpio_handle_read_property` assembles around its
property value: header, `[0]` object id, `[1]` property id, opening tag `[3]`, the value,
closing tag `[3]` (an array index is never echoed). -/
def gpio_read_ack (invoke_id object_type inst property : Nat) (value : List Nat) : List Nat :=
  [PDU_TYPE_COMPLEX_ACK, invoke_id, SERVICE_CONFIRMED_READ_PROPERTY] ++
    encode_context_object_id 0 object_type inst ++ encode_context_enumerated 1 property ++
    encode_opening_tag 3 ++ value ++ encode_closing_tag 3

/-- The pattern that the cases object-identifier to inactive-text of
`gpio_handle_read_property` repeat (for example lines 163-184): the assembled APDU is sent
when a buffer is free and it fits `src_max_apdu`; otherwise the case ends in `break` and
the function sends the Error (object, unknown-object) of its last lines.  Returns 0. -/
def gpio_read_reply (w : World) (invoke_id src_max_apdu : Nat) (apdu : List Nat) : World × Int :=
  match pdu_alloc w with
  | none =>
      (send_error_address w invoke_id SERVICE_CONFIRMED_READ_PROPERTY ERROR_CLASS_OBJECT
        ERROR_CODE_UNKNOWN_OBJECT, 0)
  | some w1 =>
      if apdu.length ≤ src_max_apdu then (pdu_free (send_npdu_address w1 apdu), 0)
      else
        (send_error_address (pdu_free w1) invoke_id SERVICE_CONFIRMED_READ_PROPERTY
          ERROR_CLASS_OBJECT ERROR_CODE_UNKNOWN_OBJECT, 0)

/-- Lines 412-443 of `gpio_handle_read_property`: the value of the priority-array case, read
from `gpio_priorities`; `none` is the invalid array index. -/
def gpio_priority_array_value (w : World) (object_type inst array_index : Nat) :
    Option (List Nat) :=
  match gpio_get_object_index inst with
  | none => some [0x00]
  | some obj_index =>
      let prio := w.gpio_priorities obj_index
      if array_index = 0 then some (encode_tagged_unsigned 16)
      else if array_index ≥ 1 ∧ array_index ≤ 16 then
        if prio.priorities_set &&& (1 <<< (array_index - 1)) ≠ 0 then
          if object_type = OBJECT_BINARY_OUTPUT then
            some (encode_tagged_enumerated (prio.values (slot array_index)).enumerated)
          else some (encode_tagged_real (prio.values (slot array_index)).real)
        else some [0x00]
      else none

/-- Lines 401-453 of `gpio_handle_read_property`, the priority-array case of an output
object: an invalid index ends in the Error (property, invalid-array-index) and 0; an APDU
that fits is sent, 0; otherwise the buffer is freed and the case returns -1.  The
`pdu_free(apdu)` of line 453 also runs with the NULL of an exhausted pool, taken to do
nothing then. -/
def gpio_read_priority_array (w : World) (invoke_id object_type inst property array_index
    src_max_apdu : Nat) : World × Int :=
  match pdu_alloc w with
  | none => (w, -1)
  | some w1 =>
      match gpio_priority_array_value w1 object_type inst array_index with
      | none =>
          (send_error_address (pdu_free w1) invoke_id SERVICE_CONFIRMED_READ_PROPERTY
            ERROR_CLASS_PROPERTY ERROR_CODE_INVALID_ARRAY_INDEX, 0)
      | some value =>
          if (gpio_read_ack invoke_id object_type inst property value).length
              ≤ src_max_apdu then
            (pdu_free (send_npdu_address w1
              (gpio_read_ack invoke_id object_type inst property value)), 0)
          else (pdu_free w1, -1)

/-- Lines 461-517 of `gpio_handle_read_property`, the relinquish-default case of an output
object; lines 480-507 repeat the body of `gpio_encode_relinquish_default`. -/
def gpio_read_relinquish_default (w : World) (invoke_id object_type inst property
    src_max_apdu : Nat) : World × Int :=
  match pdu_alloc w with
  | none => (w, -1)
  | some w1 =>
      if (gpio_read_ack invoke_id object_type inst property
          (gpio_encode_relinquish_default w1 object_type inst)).length ≤ src_max_apdu then
        (pdu_free (send_npdu_address w1
          (gpio_read_ack invoke_id object_type inst property
            (gpio_encode_relinquish_default w1 object_type inst))), 0)
      else (pdu_free w1, -1)

/-- `gpio_handle_read_property(src, invoke_id, object_type, instance, property, array_index,
src_max_apdu)`.  The cases of lines 161-395 go through `gpio_read_reply`, the last two
through `gpio_read_priority_array` and `gpio_read_relinquish_default`.  Returns the new
world and the C return value. -/
def gpio_handle_read_property (w : World) (invoke_id object_type inst property array_index
    src_max_apdu : Nat) : World × Int :=
  match object_find w.objects object_type inst with
  | none => (w, -1)
  | some obj =>
    if property = PROP_OBJECT_IDENTIFIER then
      gpio_read_reply w invoke_id src_max_apdu
        (gpio_read_ack invoke_id object_type inst property
          (encode_tagged_object_id object_type inst))
    else if property = PROP_OBJECT_NAME then
      gpio_read_reply w invoke_id src_max_apdu
        (gpio_read_ack invoke_id object_type inst property
          (encode_tagged_character_string (obj.name.getD "GPIO Object")))
    else if property = PROP_OBJECT_TYPE then
      gpio_read_reply w invoke_id src_max_apdu
        (gpio_read_ack invoke_id object_type inst property (encode_tagged_enumerated object_type))
    else if property = PROP_PRESENT_VALUE then
      gpio_read_reply w invoke_id src_max_apdu
        (gpio_read_ack invoke_id object_type inst property
          (if object_type = OBJECT_BINARY_INPUT ∨ object_type = OBJECT_BINARY_OUTPUT then
            encode_tagged_enumerated obj.value.enumerated
           else encode_tagged_real obj.value.real))
    else if property = PROP_STATUS_FLAGS then
      gpio_read_reply w invoke_id src_max_apdu
        (gpio_read_ack invoke_id object_type inst property
          (encode_tagged_bitstring [false, false, false, false]))
    else if property = PROP_OUT_OF_SERVICE then
      gpio_read_reply w invoke_id src_max_apdu
        (gpio_read_ack invoke_id object_type inst property (encode_tagged_enumerated 0))
    else if property = PROP_UNITS then
      gpio_read_reply w invoke_id src_max_apdu
        (gpio_read_ack invoke_id object_type inst property
          (if object_type = OBJECT_BINARY_INPUT ∨ object_type = OBJECT_BINARY_OUTPUT then
            encode_tagged_enumerated 95
           else encode_tagged_enumerated 62))
    else if property = PROP_ACTIVE_TEXT then
      if object_type = OBJECT_BINARY_INPUT ∨ object_type = OBJECT_BINARY_OUTPUT then
        gpio_read_reply w invoke_id src_max_apdu
          (gpio_read_ack invoke_id object_type inst property
            (encode_tagged_character_string (obj.active.getD "Active")))
      else
        (send_error_address w invoke_id SERVICE_CONFIRMED_READ_PROPERTY ERROR_CLASS_OBJECT
          ERROR_CODE_UNKNOWN_OBJECT, 0)
    else if property = PROP_INACTIVE_TEXT then
      if object_type = OBJECT_BINARY_INPUT ∨ object_type = OBJECT_BINARY_OUTPUT then
        gpio_read_reply w invoke_id src_max_apdu
          (gpio_read_ack invoke_id object_type inst property
            (encode_tagged_character_string (obj.inactive.getD "Inactive")))
      else
        (send_error_address w invoke_id SERVICE_CONFIRMED_READ_PROPERTY ERROR_CLASS_OBJECT
          ERROR_CODE_UNKNOWN_OBJECT, 0)
    else if property = PROP_PRIORITY_ARRAY then
      if object_type = OBJECT_BINARY_OUTPUT ∨ object_type = OBJECT_ANALOG_OUTPUT then
        gpio_read_priority_array w invoke_id object_type inst property array_index src_max_apdu
      else (w, -1)
    else if property = PROP_RELINQUISH_DEFAULT then
      if object_type = OBJECT_BINARY_OUTPUT ∨ object_type = OBJECT_ANALOG_OUTPUT then
        gpio_read_relinquish_default w invoke_id object_type inst property src_max_apdu
      else (w, -1)
    else
      (send_error_address w invoke_id SERVICE_CONFIRMED_READ_PROPERTY ERROR_CLASS_PROPERTY
        ERROR_CODE_UNKNOWN_PROPERTY, 0)

/-! ## gpio_objects.c: gpio_create_objects_from_config -/

/-- The C library's `strstr` on the text up to its terminating NUL: the rest of `s` from
the first occurrence of `needle` on, `none` for NULL. -/
def strstr : List Char → List Char → Option (List Char)
  | [], needle => if needle = [] then some [] else none
  | c :: s, needle =>
      if needle.isPrefixOf (c :: s) = true then some (c :: s) else strstr s needle

/-- The C library's `strchr` for a character other than NUL: the rest of `s` from the first
occurrence of `ch` on, `none` for NULL. -/
def strchr : List Char → Char → Option (List Char)
  | [], _ => none
  | c :: s, ch => if c = ch then some (c :: s) else strchr s ch

/-- The loops `while (*p == ' ' || *p == '\t') p++`. -/
def skip_blanks : List Char → List Char
  | [] => []
  | c :: s => if c = ' ' ∨ c = '\t' then skip_blanks s else c :: s

/-- The digits of `atoi`, accumulated in base 10 until the first character that is none. -/
def atoi_digits : List Char → Int → Int
  | [], acc => acc
  | c :: s, acc =>
      if c.isDigit = true then atoi_digits s (acc * 10 + ((c.toNat - 48 : Nat) : Int)) else acc

/-- The C library's `atoi`: white space is skipped, an optional sign is read, then the
digits; the result is taken as the integer they denote (the C result is undefined when it
does not fit an `int`). -/
def atoi (s : List Char) : Int :=
  match s.dropWhile (fun c => c = ' ' ∨ (9 ≤ c.toNat ∧ c.toNat ≤ 13)) with
  | '-' :: r => - atoi_digits r 0
  | '+' :: r => atoi_digits r 0
  | r => atoi_digits r 0

/-- The block that `gpio_create_objects_from_config` repeats for "name", "direction",
"high_unit" and "low_unit" (lines 1005-1100): `strstr` finds the key, `strchr` the first
double quote from there on, the pointer steps over it, `strchr` finds the next double
quote, and the characters between the two are copied when they are fewer than the size of
the buffer; every failure gives the default. -/
def quoted_after (pin_config key : List Char) (size : Nat) (dflt : List Char) : List Char :=
  match strstr pin_config key with
  | none => dflt
  | some p =>
      match strchr p '"' with
      | none => dflt
      | some p1 =>
          match strchr (p1.drop 1) '"' with
          | none => dflt
          | some p_end =>
              if (p1.drop 1).length - p_end.length < size then
                (p1.drop 1).take ((p1.drop 1).length - p_end.length)
              else dflt

/-- An `object_new(device_id, type, instance)` call of `gpio_create_objects_from_config`
together with the name and the two state texts that it stores in the new record (the
present value stored is 0). -/
structure NewObject where
  type : Nat
  inst : Int
  name : String
  active : String
  inactive : String
deriving DecidableEq, Repr

/-- One round of the loop `for (gpio_pin = 0; gpio_pin <= 23; gpio_pin++)` of
`gpio_create_objects_from_config`: `none` for `continue`, else the object requested. -/
def gpio_create_object_for_pin (json_config : List Char) (gpio_pin : Nat) : Option NewObject :=
  match strstr json_config (('"' :: (toString gpio_pin).toList) ++ ['"']) with
  | none => none
  | some pin_config =>
      match strstr pin_config "\"enabled\":".toList with
      | none => none
      | some enabled_ptr =>
          match strstr enabled_ptr ":".toList with
          | none => none
          | some colon =>
              if "true".toList.isPrefixOf (skip_blanks (colon.drop 1)) = true then
                let name := quoted_after pin_config "\"name\":".toList 64
                  ("GPIO ".toList ++ (toString gpio_pin).toList)
                let direction := quoted_after pin_config "\"direction\":".toList 16
                  "input".toList
                let high_unit := quoted_after pin_config "\"high_unit\":".toList 32 "High".toList
                let low_unit := quoted_after pin_config "\"low_unit\":".toList 32 "Low".toList
                let inst : Int :=
                  match strstr pin_config "\"instance\":".toList with
                  | none => if gpio_pin = 0 then 24 else gpio_pin
                  | some inst_ptr =>
                      match strchr inst_ptr ':' with
                      | none => if gpio_pin = 0 then 24 else gpio_pin
                      | some c => atoi (skip_blanks (c.drop 1))
                if direction = "output".toList then
                  some { type := OBJECT_BINARY_OUTPUT, inst := 4000 + inst,
                         name := String.mk name, active := String.mk high_unit,
                         inactive := String.mk low_unit }
                else
                  some { type := OBJECT_BINARY_INPUT, inst := 3000 + inst,
                         name := String.mk name, active := String.mk high_unit,
                         inactive := String.mk low_unit }
              else none

/-- `gpio_create_objects_from_config(device_id, json_config)`: the objects that it asks
`object_new` to create, in the order of the pins 0..23. -/
def gpio_create_objects_from_config (json_config : String) : List NewObject :=
  (List.range 24).filterMap (gpio_create_object_for_pin json_config.toList)

/-! ## Reachable states -/

/-- The states the process can be in: the start state, in which every binary object has
the present value 0 that `gpio_create_default_objects` and
`gpio_create_objects_from_config` give it, and whatever the entry points of
receive_writeproperty.c, gpio_objects.c and receive_readproperty.c modelled here, or a
change of the environment, make of a reachable state, on any arguments. -/
inductive Reachable : World → Prop
  | start (config : Config) (objects : List ObjectRef) (pdu_pool : Nat)
      (hcreated : ∀ o ∈ objects,
        o.type = OBJECT_BINARY_INPUT ∨ o.type = OBJECT_BINARY_OUTPUT → o.value = { bits := 0 }) :
      Reachable (boot config objects pdu_pool)
  | environment (w : World) (hardware : HwCommand → Bool) (clock : tm) :
      Reachable w → Reachable { w with hardware := hardware, clock := clock }
  | update_inputs (w : World) (current_time : Nat) (gpio_value : Int) :
      Reachable w → Reachable (gpio_update_inputs w current_time gpio_value)
  | update_values (w : World) (temp motion : Nat) :
      Reachable w → Reachable (gpio_objects_update_values w temp motion)
  | read_request (w : World) (service_request : List Nat)
      (service_len src_max_apdu invoke_id : Nat) :
      Reachable w →
      Reachable (receive_readproperty w service_request service_len src_max_apdu invoke_id).1
  | write (w : World) (object_type inst property tag value priority : Nat) :
      Reachable w →
      Reachable (write_object_property_value w object_type inst property tag value priority).1
  | read_slot (w : World) (inst priority : Nat) (value : ObjectValue) :
      Reachable w → Reachable (get_priority_value w inst priority value).1
  | gpio_write (w : World) (object_type inst property tag value priority : Nat) :
      Reachable w →
      Reachable (gpio_objects_write_property w object_type inst property tag value priority).1
  | request (w : World) (service_request : List Nat) (service_len invoke_id : Nat) :
      Reachable w → Reachable (receive_writeproperty w service_request service_len invoke_id).1
  | read_property (w : World) (object_type inst property array_index : Nat) :
      Reachable w →
      Reachable (encode_object_property_value w object_type inst property array_index).1
  | gpio_read (w : World) (invoke_id object_type inst property array_index src_max_apdu : Nat) :
      Reachable w →
      Reachable (gpio_handle_read_property w invoke_id object_type inst property array_index
        src_max_apdu).1

/-- What every reachable state satisfies (theorem `reachable_binary_values`): the slots and
relinquish-defaults of the two binary outputs hold 0 or 1, and before the first
initialisation the relinquish-defaults are still the zeros of static storage. -/
def binary_values_ok (w : World) : Prop :=
  (∀ j, (w.priority_arrays 0 j).bits ≤ 1) ∧ (∀ j, (w.priority_arrays 1 j).bits ≤ 1) ∧
  (w.relinquish_defaults 0).bits ≤ 1 ∧ (w.relinquish_defaults 1).bits ≤ 1 ∧
  (w.arrays_initialized = false → ∀ i, w.relinquish_defaults i = { bits := 0 })

/-- What every reachable state satisfies beside `binary_values_ok` (theorem
`reachable_present_values`): the present value of every binary object is 0 or 1, and the
fields `priorities_set` and `out_of_service` of `gpio_priorities` are still the zeros of
`gpio_objects_init`. -/
def present_values_ok (w : World) : Prop :=
  (∀ o ∈ w.objects,
    o.type = OBJECT_BINARY_INPUT ∨ o.type = OBJECT_BINARY_OUTPUT → o.value.bits ≤ 1) ∧
  (∀ i, (w.gpio_priorities i).priorities_set = 0 ∧ (w.gpio_priorities i).out_of_service = 0)

/-- Two states that differ at most in the APDU pool and the trace of sent APDUs. -/
def same_engine (w1 w2 : World) : Prop :=
  w1.objects = w2.objects ∧ w1.priority_arrays = w2.priority_arrays ∧
  w1.priority_null = w2.priority_null ∧ w1.relinquish_defaults = w2.relinquish_defaults ∧
  w1.arrays_initialized = w2.arrays_initialized ∧ w1.gpio_priorities = w2.gpio_priorities ∧
  w1.pin_writes = w2.pin_writes

/-! ## WriteProperty requests as the peer sends them -/

/-- Spec section 9, "sum types for values": the property value a WriteProperty request
carries, for the three kinds that `receive_writeproperty` decodes. -/
inductive PropertyValue where
  | null
  | enumerated (v : Nat)
  | real (bits : Nat)
deriving DecidableEq, Repr

/-- The application-tagged encoding of a property value (spec section 4.1; Null is the
single byte 00). -/
def PropertyValue.encode : PropertyValue → List Nat
  | PropertyValue.null => [0x00]
  | PropertyValue.enumerated v => encode_tagged_enumerated v
  | PropertyValue.real bits => encode_tagged_real bits

/-- The application tag number of a property value. -/
def PropertyValue.tag : PropertyValue → Nat
  | PropertyValue.null => BACNET_APPLICATION_TAG_NULL
  | PropertyValue.enumerated _ => BACNET_APPLICATION_TAG_ENUMERATED
  | PropertyValue.real _ => BACNET_APPLICATION_TAG_REAL

/-- The 32-bit word of a property value (0 for Null, which has none). -/
def PropertyValue.word : PropertyValue → Nat
  | PropertyValue.null => 0
  | PropertyValue.enumerated v => v
  | PropertyValue.real bits => bits

/-- Spec section 3: a Null, or a value of the object's value class, `Enumerated(0|1)` for a
Binary-Output and `Real` (32 bits) for an Analog-Output. -/
def PropertyValue.of_class (object_type : Nat) : PropertyValue → Prop
  | PropertyValue.null => True
  | PropertyValue.enumerated v => object_type = OBJECT_BINARY_OUTPUT ∧ v ≤ 1
  | PropertyValue.real bits => object_type = OBJECT_ANALOG_OUTPUT ∧ bits < 2 ^ 32

/-- Spec section 4.5, WriteProperty request shape: `[0]` object-id, `[1]` property-id, `[3]`
opening, value, `[3]` closing, then `priority`, which is either empty or an encoded `[4]`
priority. -/
def write_request (object_type inst property : Nat) (value priority : List Nat) : List Nat :=
  encode_context_object_id 0 object_type inst ++ encode_context_enumerated 1 property ++
    encode_opening_tag 3 ++ value ++ encode_closing_tag 3 ++ priority

/-! ## ReadProperty requests and the responses of the spec -/

/-- Spec section 4.5, ReadProperty request shape: `[0]` object-id, `[1]` property-id, then
`array_index`, which is either empty or an encoded `[2]` array index. -/
def read_request (object_type inst property : Nat) (array_index : List Nat) : List Nat :=
  encode_context_object_id 0 object_type inst ++ encode_context_enumerated 1 property ++
    array_index

/-- Spec sections 4.5 and 6: the BACnet-Error APDU of a typed error, echoing the invoke-id
and the service choice (PDU type 0x50, then the error class and the error code as
enumerated values). -/
def error_pdu (invoke_id service_choice error_class error_code : Nat) : List Nat :=
  [0x50, invoke_id, service_choice] ++ encode_tagged_enumerated error_class ++
    encode_tagged_enumerated error_code

/-- Spec section 4.3, read semantics for Priority-Array: the element of slot `i`, the
encoding of the slot's value if it is occupied and the Null tag otherwise. -/
def spec_priority_element (w : World) (object_type inst i : Nat) : List Nat :=
  if (get_priority_value w inst i { bits := 0 }).2.1 then [0x00]
  else if object_type = OBJECT_BINARY_OUTPUT then
    encode_tagged_enumerated (get_priority_value w inst i { bits := 0 }).2.2.enumerated
  else encode_tagged_real (get_priority_value w inst i { bits := 0 }).2.2.real

/-- Spec section 4.4, the property table, column "Writable": present-value and
relinquish-default of the two output types, nothing else. -/
def spec_writable (object_type property : Nat) : Bool :=
  (object_type == OBJECT_ANALOG_OUTPUT || object_type == OBJECT_BINARY_OUTPUT) &&
  (property == PROP_PRESENT_VALUE || property == PROP_RELINQUISH_DEFAULT)

/-! ## Scenario states -/

/-- An object store with the Binary-Outputs 4017 and 4018: the records that the output
branch of `gpio_create_objects_from_config` (gpio_objects.c lines 1122-1131, instance
4000 + k, default name "GPIO k" and default texts "High" and "Low") is written to create
for pins 17 and 18.  The parser itself never takes that branch (theorem
`config_creates_inputs_only`); the store takes its records from whatever bootstrap runs. -/
def configured_objects : List ObjectRef :=
  [ { type := OBJECT_BINARY_OUTPUT, inst := 4017, name := some "GPIO 17",
      value := { bits := 0 }, active := some "High", inactive := some "Low" },
    { type := OBJECT_BINARY_OUTPUT, inst := 4018, name := some "GPIO 18",
      value := { bits := 0 }, active := some "High", inactive := some "Low" } ]

/-- A configuration with the device instance 260 of spec section 8, scenario 1 (the other
settings are one possible choice). -/
def scenario_config : Config :=
  { BACnet_Device_Instance := 260, BACnet_Vendor_Identifier := 0, BACnet_Time_Sync_Seconds := 0,
    BACnet_COV_Support := 0, BACnet_APDU_Timeout := 3, MAX_APDU := 480,
    Program_Version := "0.0" }

/-- The server after start-up with the configured objects and four free APDU buffers. -/
def scenario_configured : World := boot scenario_config configured_objects 4

/-- The server after start-up with the default objects and four free APDU buffers. -/
def scenario_start : World := boot scenario_config default_objects 4

/-- Spec section 8, scenario 2: BO 4018 written ACTIVE at priority 8. -/
def scenario_active8 : World :=
  (write_object_property_value scenario_start OBJECT_BINARY_OUTPUT 4018 PROP_PRESENT_VALUE
    BACNET_APPLICATION_TAG_ENUMERATED 1 8).1

/-! # Theorems -/

/-! ## Lemmas on the resolver loop -/

theorem first_non_null_all_null (nulls : Fin 16 → Bool) (vals : Fin 16 → ObjectValue)
    (dflt : ObjectValue) (l : List (Fin 16)) (h : ∀ i ∈ l, nulls i = true) :
    first_non_null nulls vals dflt l = dflt := by
  induction l with
  | nil => rfl
  | cons a t ih =>
      have ha : nulls a = true := h a (List.mem_cons_self a t)
      simp only [first_non_null, ha, Bool.not_true]
      exact ih (fun i hi => h i (List.mem_cons_of_mem a hi))

theorem first_non_null_sorted (nulls : Fin 16 → Bool) (vals : Fin 16 → ObjectValue)
    (dflt : ObjectValue) (i : Fin 16) (hi : nulls i = false)
    (hlt : ∀ j : Fin 16, j < i → nulls j = true) (l : List (Fin 16))
    (hl : l.Pairwise (· < ·)) (hmem : i ∈ l) :
    first_non_null nulls vals dflt l = vals i := by
  induction l with
  | nil => cases hmem
  | cons a t ih =>
      rcases List.mem_cons.mp hmem with rfl | ht
      · simp [first_non_null, hi]
      · have hai : a < i := (List.pairwise_cons.mp hl).1 i ht
        simp only [first_non_null, hlt a hai, Bool.not_true]
        exact ih (List.pairwise_cons.mp hl).2 ht

/-- The resolver returns the value of the least occupied slot, if there is one. -/
theorem first_non_null_least (nulls : Fin 16 → Bool) (vals : Fin 16 → ObjectValue)
    (dflt : ObjectValue) (i : Fin 16) (hi : nulls i = false)
    (hlt : ∀ j : Fin 16, j < i → nulls j = true) :
    first_non_null nulls vals dflt (List.finRange 16) = vals i :=
  first_non_null_sorted nulls vals dflt i hi hlt _ (List.pairwise_lt_finRange 16)
    (List.mem_finRange i)

theorem exists_least_occupied (nulls : Fin 16 → Bool) (h : ∃ i, nulls i = false) :
    ∃ i, nulls i = false ∧ ∀ j : Fin 16, j < i → nulls j = true := by
  by_contra hno
  push_neg at hno
  have hall : ∀ i, nulls i = true := by
    intro i
    induction i using WellFoundedLT.induction with
    | ind i ih =>
        by_contra hi
        have hi' : nulls i = false := by simpa using hi
        obtain ⟨j, hj, hjn⟩ := hno i hi'
        exact absurd (ih j hj) (by simp [hjn])
  obtain ⟨i, hi⟩ := h
  exact absurd (hall i) (by simp [hi])


theorem object_find_assign_same (objs : List ObjectRef) (t i : Nat) (v : ObjectValue)
    (o : ObjectRef) (h : object_find objs t i = some o) :
    object_find (object_assign objs t i v) t i = some { o with value := v } := by
  induction objs with
  | nil => simp [object_find] at h
  | cons a rest ih =>
      by_cases hk : a.type = t ∧ a.inst = i
      · simp only [object_find, hk, and_self, if_true, Option.some.injEq] at h
        subst h
        simp [object_assign, object_find, hk]
      · simp only [object_find, hk, if_false] at h
        simp [object_assign, object_find, hk, ih h]

theorem object_find_assign_other (objs : List ObjectRef) (t i t2 i2 : Nat) (v : ObjectValue)
    (hne : ¬ (t2 = t ∧ i2 = i)) :
    object_find (object_assign objs t i v) t2 i2 = object_find objs t2 i2 := by
  induction objs with
  | nil => simp [object_find, object_assign]
  | cons a rest ih =>
      by_cases hk : a.type = t ∧ a.inst = i
      · have hk2 : ¬ (a.type = t2 ∧ a.inst = i2) := by
          rintro ⟨h1, h2⟩; exact hne ⟨h1 ▸ hk.1, h2 ▸ hk.2⟩
        simp only [object_assign, object_find, if_pos hk, if_neg hk2]
      · by_cases hk2 : a.type = t2 ∧ a.inst = i2
        · simp only [object_assign, object_find, if_neg hk, if_pos hk2]
        · simp only [object_assign, object_find, if_neg hk, if_neg hk2, ih]

theorem initialize_objects (w : World) : (initialize_priority_arrays w).objects = w.objects := by
  unfold initialize_priority_arrays; split <;> rfl

theorem initialize_initialized (w : World) :
    (initialize_priority_arrays w).arrays_initialized = true := by
  unfold initialize_priority_arrays; split <;> simp_all

theorem initialize_idem (w : World) (h : w.arrays_initialized = true) :
    initialize_priority_arrays w = w := by
  unfold initialize_priority_arrays; simp [h]

theorem gowp_pv_frame (w : World) (ot inst tag v p : Nat) :
    (gpio_objects_write_property w ot inst PROP_PRESENT_VALUE tag v p).1.priority_null = w.priority_null ∧
    (gpio_objects_write_property w ot inst PROP_PRESENT_VALUE tag v p).1.priority_arrays = w.priority_arrays ∧
    (gpio_objects_write_property w ot inst PROP_PRESENT_VALUE tag v p).1.relinquish_defaults = w.relinquish_defaults ∧
    (gpio_objects_write_property w ot inst PROP_PRESENT_VALUE tag v p).1.arrays_initialized = w.arrays_initialized := by
  unfold gpio_objects_write_property
  cases object_find w.objects ot inst with
  | none => simp
  | some o =>
    simp only [if_true]
    split_ifs <;> simp [GpioObjects.gpio_write_pin]

theorem is_gpio_output_cases (ot inst : Nat) (h : is_gpio_output ot inst = true) :
    (ot = OBJECT_BINARY_OUTPUT ∧ inst = 4018 ∧ get_priority_index inst = some 0) ∨
    (ot = OBJECT_BINARY_OUTPUT ∧ inst = 4026 ∧ get_priority_index inst = some 1) ∨
    (ot = OBJECT_ANALOG_OUTPUT ∧ inst = 2021 ∧ get_priority_index inst = some 2) := by
  simp only [is_gpio_output, Bool.or_eq_true, Bool.and_eq_true, beq_iff_eq] at h
  rcases h with ⟨h1, h2 | h2⟩ | ⟨h1, h2⟩ <;> subst h2 <;> simp [h1, get_priority_index]

theorem slot_val (P : Nat) (h : 1 ≤ P ∧ P ≤ 16) : (slot P).val = P - 1 := by
  simp only [slot, Fin.ofNat]
  omega

theorem slot_ne (P Q : Nat) (hP : 1 ≤ P ∧ P ≤ 16) (hQ : 1 ≤ Q ∧ Q ≤ 16) (h : Q ≠ P) :
    slot Q ≠ slot P := by
  intro heq
  have := congrArg Fin.val heq
  rw [slot_val P hP, slot_val Q hQ] at this
  omega


theorem write_pv_gpio_eq (w : World) (ot inst tag v P : Nat) (o : ObjectRef) (idx : Fin 3)
    (w1 : World) (hfind : object_find w.objects ot inst = some o)
    (hobj : is_gpio_output ot inst = true) (hidx : get_priority_index inst = some idx)
    (hP : 1 ≤ P ∧ P ≤ 16)
    (hst : store_priority (initialize_priority_arrays w) idx ot tag v P = some w1) :
    write_object_property_value w ot inst PROP_PRESENT_VALUE tag v P =
      ((gpio_objects_write_property
          { w1 with objects := object_assign w1.objects ot inst (calculate_effective_value w1 ot inst) }
          ot inst PROP_PRESENT_VALUE
          (if ot = OBJECT_BINARY_OUTPUT then BACNET_APPLICATION_TAG_ENUMERATED
           else BACNET_APPLICATION_TAG_REAL)
          (calculate_effective_value w1 ot inst).bits P).1, 0) := by
  have hP2 : ¬ (P < 1 ∨ P > 16) := by omega
  unfold write_object_property_value
  simp only [hfind, hobj, hidx, hst, if_true, if_neg hP2]
  split_ifs <;> rfl

theorem write_status_found (w : World) (ot inst prop tag v P : Nat)
    (h : (write_object_property_value w ot inst prop tag v P).2 = 0) :
    ∃ o, object_find w.objects ot inst = some o := by
  cases hf : object_find w.objects ot inst with
  | some o => exact ⟨o, rfl⟩
  | none =>
      unfold write_object_property_value at h
      simp [hf] at h


theorem store_priority_typed (w : World) (idx : Fin 3) (ot tag v P : Nat)
    (hclass : (ot = OBJECT_BINARY_OUTPUT ∧ tag = BACNET_APPLICATION_TAG_ENUMERATED ∧ v ≤ 1) ∨
              (ot = OBJECT_ANALOG_OUTPUT ∧ tag = BACNET_APPLICATION_TAG_REAL)) :
    store_priority w idx ot tag v P = some { w with
        priority_arrays := Function.update w.priority_arrays idx
          (Function.update (w.priority_arrays idx) (slot P) { bits := v })
        priority_null := Function.update w.priority_null idx
          (Function.update (w.priority_null idx) (slot P) false) } := by
  rcases hclass with ⟨h1, h2, hv⟩ | ⟨h1, h2⟩
  · subst h1 h2
    have hv2 : (if v ≠ 0 then 1 else 0 : Nat) = v := by split_ifs <;> omega
    show some _ = some _
    rw [hv2]
  · subst h1 h2
    rfl

theorem store_priority_null (w : World) (idx : Fin 3) (ot v P : Nat) :
    store_priority w idx ot BACNET_APPLICATION_TAG_NULL v P = some { w with
        priority_null := Function.update w.priority_null idx
          (Function.update (w.priority_null idx) (slot P) true) } := rfl

/-- The effect of an accepted Present-Value write on a GPIO output. -/
theorem write_pv_gpio_fields (w : World) (ot inst tag v P : Nat) (o : ObjectRef) (idx : Fin 3)
    (w1 : World) (hfind : object_find w.objects ot inst = some o)
    (hobj : is_gpio_output ot inst = true) (hidx : get_priority_index inst = some idx)
    (hP : 1 ≤ P ∧ P ≤ 16)
    (hst : store_priority (initialize_priority_arrays w) idx ot tag v P = some w1)
    (hobjs : w1.objects = w.objects) :
    ∃ w2, write_object_property_value w ot inst PROP_PRESENT_VALUE tag v P = (w2, 0) ∧
      w2.priority_null = w1.priority_null ∧ w2.priority_arrays = w1.priority_arrays ∧
      w2.relinquish_defaults = w1.relinquish_defaults ∧
      w2.arrays_initialized = w1.arrays_initialized ∧
      object_find w2.objects ot inst = some { o with value := (
        if ot = OBJECT_BINARY_OUTPUT then
          { bits := if (calculate_effective_value w1 ot inst).bits ≠ 0 then 1 else 0 }
        else calculate_effective_value w1 ot inst) } := by
  refine ⟨_, write_pv_gpio_eq w ot inst tag v P o idx w1 hfind hobj hidx hP hst, ?_⟩
  obtain ⟨f1, f2, f3, f4⟩ := gowp_pv_frame
    { w1 with objects := object_assign w1.objects ot inst (calculate_effective_value w1 ot inst) }
    ot inst
    (if ot = OBJECT_BINARY_OUTPUT then BACNET_APPLICATION_TAG_ENUMERATED
           else BACNET_APPLICATION_TAG_REAL)
    (calculate_effective_value w1 ot inst).bits P
  refine ⟨f1, f2, f3, f4, ?_⟩
  have hfind1 : object_find
      (object_assign w1.objects ot inst (calculate_effective_value w1 ot inst)) ot inst
      = some { o with value := calculate_effective_value w1 ot inst } :=
    object_find_assign_same _ _ _ _ _ (by rw [hobjs]; exact hfind)
  unfold gpio_objects_write_property
  simp only [hfind1, if_true]
  rcases is_gpio_output_cases _ _ hobj with ⟨h, _, _⟩ | ⟨h, _, _⟩ | ⟨h, _, _⟩
  · subst h
    simp only [if_true, GpioObjects.gpio_write_pin]
    exact (object_find_assign_same _ _ _ _ _ hfind1).trans rfl
  · subst h
    simp only [if_true, GpioObjects.gpio_write_pin]
    exact (object_find_assign_same _ _ _ _ _ hfind1).trans rfl
  · subst h
    have hne : ¬ (OBJECT_ANALOG_OUTPUT = OBJECT_BINARY_OUTPUT) := by decide
    simp only [if_neg hne, if_true, GpioObjects.gpio_write_pin]
    exact (object_find_assign_same _ _ _ _ _ hfind1).trans rfl

theorem get_priority_value_init (w : World) (inst Q : Nat) (x : ObjectValue) :
    (get_priority_value w inst Q x).2 = (get_priority_value (initialize_priority_arrays w) inst Q x).2 := by
  simp only [get_priority_value, initialize_idem _ (initialize_initialized w)]

theorem get_priority_value_slot (w : World) (inst Q : Nat) (x : ObjectValue) (idx : Fin 3)
    (hinit : w.arrays_initialized = true) (hidx : get_priority_index inst = some idx)
    (hQ : 1 ≤ Q ∧ Q ≤ 16) :
    (get_priority_value w inst Q x).2 =
      if w.priority_null idx (slot Q) = true then (true, x)
      else (false, w.priority_arrays idx (slot Q)) := by
  have hQ2 : ¬ (Q < 1 ∨ Q > 16) := by omega
  simp only [get_priority_value, hidx, initialize_idem w hinit, if_neg hQ2]
  split_ifs <;> rfl

theorem get_priority_value_range (w : World) (inst Q : Nat) (x : ObjectValue)
    (hQ : Q < 1 ∨ Q > 16) : (get_priority_value w inst Q x).2 = (true, x) := by
  simp only [get_priority_value]
  cases get_priority_index inst with
  | none => rfl
  | some idx => simp only [if_pos hQ]

/-- C2: after a Present-Value write of a value v of the object's class (Enumerated 0 or 1 on
a Binary-Output, Real on an Analog-Output) at priority P in 1..16 on a GPIO output has
returned 0, `get_priority_value` reports slot P as not Null with value v, and reports
every other slot exactly as before the call. -/
theorem write_present_value_sets_slot (w : World) (object_type inst tag v P : Nat)
    (hobj : is_gpio_output object_type inst = true) (hP : 1 ≤ P ∧ P ≤ 16)
    (hclass : (object_type = OBJECT_BINARY_OUTPUT ∧ tag = BACNET_APPLICATION_TAG_ENUMERATED ∧ v ≤ 1) ∨
              (object_type = OBJECT_ANALOG_OUTPUT ∧ tag = BACNET_APPLICATION_TAG_REAL))
    (hret : (write_object_property_value w object_type inst PROP_PRESENT_VALUE tag v P).2 = 0) :
    (∀ x, (get_priority_value
            (write_object_property_value w object_type inst PROP_PRESENT_VALUE tag v P).1
            inst P x).2 = (false, { bits := v })) ∧
    (∀ Q x, Q ≠ P →
        (get_priority_value
            (write_object_property_value w object_type inst PROP_PRESENT_VALUE tag v P).1
            inst Q x).2 = (get_priority_value w inst Q x).2) := by
  obtain ⟨o, hfind⟩ := write_status_found _ _ _ _ _ _ _ hret
  have hidx : ∃ idx, get_priority_index inst = some idx := by
    rcases is_gpio_output_cases _ _ hobj with ⟨_, _, h⟩ | ⟨_, _, h⟩ | ⟨_, _, h⟩ <;> exact ⟨_, h⟩
  obtain ⟨idx, hidx⟩ := hidx
  obtain ⟨w2, hw2, hnull, harr, _, hinit, _⟩ :=
    write_pv_gpio_fields w object_type inst tag v P o idx _ hfind hobj hidx hP
      (store_priority_typed _ idx object_type tag v P hclass) (initialize_objects w)
  rw [hw2]
  have hinit2 : w2.arrays_initialized = true := by rw [hinit]; exact initialize_initialized w
  constructor
  · intro x
    rw [get_priority_value_slot w2 inst P x idx hinit2 hidx hP, hnull, harr]
    simp
  · intro Q x hQ
    by_cases hQ2 : Q < 1 ∨ Q > 16
    · rw [get_priority_value_range _ _ _ _ hQ2, get_priority_value_range _ _ _ _ hQ2]
    · have hQ3 : 1 ≤ Q ∧ Q ≤ 16 := by omega
      have hne : slot Q ≠ slot P := slot_ne P Q hP hQ3 hQ
      rw [get_priority_value_slot w2 inst Q x idx hinit2 hidx hQ3, hnull, harr,
        get_priority_value_init w,
        get_priority_value_slot _ inst Q x idx (initialize_initialized w) hidx hQ3]
      simp [Function.update_noteq hne]

/-- C1: for each of the three GPIO outputs, `calculate_effective_value` returns the value of
the occupied slot with the least index when some slot is occupied, and the object's
relinquish-default when all sixteen slots are Null. -/
theorem calculate_effective_value_first_occupied (w : World) (object_type inst : Nat)
    (hobj : is_gpio_output object_type inst = true) :
    ∃ pri_idx, get_priority_index inst = some pri_idx ∧
      ((∃ i, w.priority_null pri_idx i = false) →
        ∃ i, w.priority_null pri_idx i = false ∧
          (∀ j, j < i → w.priority_null pri_idx j = true) ∧
          calculate_effective_value w object_type inst = w.priority_arrays pri_idx i) ∧
      ((∀ i, w.priority_null pri_idx i = true) →
        calculate_effective_value w object_type inst =
          w.relinquish_defaults (Fin.castLE (by decide) pri_idx)) := by
  have hidx : ∃ idx, get_priority_index inst = some idx := by
    rcases is_gpio_output_cases _ _ hobj with ⟨_, _, h⟩ | ⟨_, _, h⟩ | ⟨_, _, h⟩ <;> exact ⟨_, h⟩
  obtain ⟨idx, hidx⟩ := hidx
  refine ⟨idx, hidx, ?_, ?_⟩
  · intro hex
    obtain ⟨i, hi, hlt⟩ := exists_least_occupied _ hex
    refine ⟨i, hi, hlt, ?_⟩
    simp only [calculate_effective_value, hidx]
    exact first_non_null_least _ _ _ i hi hlt
  · intro hall
    simp only [calculate_effective_value, hidx]
    exact first_non_null_all_null _ _ _ _ (fun i _ => hall i)

/-- Witness for C1: BO 4018 after ACTIVE was written at priority 8. -/
theorem calculate_effective_value_first_occupied_witness :
    is_gpio_output OBJECT_BINARY_OUTPUT 4018 = true ∧
    ∃ pri_idx, get_priority_index 4018 = some pri_idx ∧
      ((∃ i, scenario_active8.priority_null pri_idx i = false) →
        ∃ i, scenario_active8.priority_null pri_idx i = false ∧
          (∀ j, j < i → scenario_active8.priority_null pri_idx j = true) ∧
          calculate_effective_value scenario_active8 OBJECT_BINARY_OUTPUT 4018 =
            scenario_active8.priority_arrays pri_idx i) ∧
      ((∀ i, scenario_active8.priority_null pri_idx i = true) →
        calculate_effective_value scenario_active8 OBJECT_BINARY_OUTPUT 4018 =
          scenario_active8.relinquish_defaults (Fin.castLE (by decide) pri_idx)) :=
  ⟨by decide, calculate_effective_value_first_occupied scenario_active8 OBJECT_BINARY_OUTPUT 4018
    (by decide)⟩

/-- Witness for C2: ACTIVE written to BO 4018 at priority 8 right after start-up. -/
theorem write_present_value_sets_slot_witness :
    is_gpio_output OBJECT_BINARY_OUTPUT 4018 = true ∧ (1 ≤ 8 ∧ 8 ≤ 16) ∧
    (write_object_property_value scenario_start OBJECT_BINARY_OUTPUT 4018 PROP_PRESENT_VALUE
        BACNET_APPLICATION_TAG_ENUMERATED 1 8).2 = 0 ∧
    (∀ x, (get_priority_value
            (write_object_property_value scenario_start OBJECT_BINARY_OUTPUT 4018
              PROP_PRESENT_VALUE BACNET_APPLICATION_TAG_ENUMERATED 1 8).1
            4018 8 x).2 = (false, { bits := 1 })) ∧
    (∀ Q x, Q ≠ 8 →
        (get_priority_value
            (write_object_property_value scenario_start OBJECT_BINARY_OUTPUT 4018
              PROP_PRESENT_VALUE BACNET_APPLICATION_TAG_ENUMERATED 1 8).1
            4018 Q x).2 = (get_priority_value scenario_start 4018 Q x).2) :=
  ⟨by decide, by decide, by decide,
    write_present_value_sets_slot scenario_start OBJECT_BINARY_OUTPUT 4018
      BACNET_APPLICATION_TAG_ENUMERATED 1 8 (by decide) (by decide)
      (Or.inl ⟨rfl, rfl, by decide⟩) (by decide)⟩

theorem binary_values_ok_congr (w w2 : World) (h1 : w2.priority_arrays = w.priority_arrays)
    (h2 : w2.relinquish_defaults = w.relinquish_defaults)
    (h3 : w2.arrays_initialized = w.arrays_initialized) (h : binary_values_ok w) :
    binary_values_ok w2 := by
  unfold binary_values_ok at *
  rw [h1, h2, h3]
  exact h

theorem binary_values_ok_boot (config : Config) (objects : List ObjectRef) (pdu_pool : Nat) :
    binary_values_ok (boot config objects pdu_pool) := by
  simp [binary_values_ok, boot]

theorem binary_values_ok_init (w : World) (h : binary_values_ok w) :
    binary_values_ok (initialize_priority_arrays w) := by
  unfold initialize_priority_arrays
  by_cases hi : w.arrays_initialized = true
  · simp only [hi, if_true]; exact h
  · simp only [hi]
    obtain ⟨_, _, _, _, h5⟩ := h
    have hz := h5 (by simpa using hi)
    simp [binary_values_ok]

theorem gowp_frame (w : World) (ot inst prop tag v p : Nat) :
    (gpio_objects_write_property w ot inst prop tag v p).1.priority_null = w.priority_null ∧
    (gpio_objects_write_property w ot inst prop tag v p).1.priority_arrays = w.priority_arrays ∧
    (gpio_objects_write_property w ot inst prop tag v p).1.relinquish_defaults = w.relinquish_defaults ∧
    (gpio_objects_write_property w ot inst prop tag v p).1.arrays_initialized = w.arrays_initialized := by
  unfold gpio_objects_write_property
  cases object_find w.objects ot inst with
  | none => simp
  | some o =>
    cases gpio_get_object_index inst with
    | none => simp only []; split_ifs <;> simp [GpioObjects.gpio_write_pin]
    | some k => simp only []; split_ifs <;> simp [GpioObjects.gpio_write_pin]

theorem update_bits_le (f : Fin 16 → ObjectValue) (s : Fin 16) (x : ObjectValue)
    (hx : x.bits ≤ 1) (hf : ∀ j, (f j).bits ≤ 1) (j : Fin 16) :
    (Function.update f s x j).bits ≤ 1 := by
  by_cases h : j = s
  · subst h; rw [Function.update_same]; exact hx
  · rw [Function.update_noteq h]; exact hf j

theorem norm_le_one (v : Nat) : (if v ≠ 0 then 1 else 0 : Nat) ≤ 1 := by
  split_ifs <;> omega

theorem store_priority_ok (w w1 : World) (idx : Fin 3) (ot inst tag v P : Nat)
    (hobj : is_gpio_output ot inst = true) (hidx : get_priority_index inst = some idx)
    (hst : store_priority w idx ot tag v P = some w1) (h : binary_values_ok w) :
    binary_values_ok w1 ∧ w1.arrays_initialized = w.arrays_initialized ∧
      w1.relinquish_defaults = w.relinquish_defaults ∧ w1.objects = w.objects := by
  obtain ⟨h1, h2, h3, h4, h5⟩ := h
  unfold store_priority at hst
  have h01 : (1 : Fin 3) ≠ 0 := by decide
  have h10 : (0 : Fin 3) ≠ 1 := by decide
  have h02 : (0 : Fin 3) ≠ 2 := by decide
  have h12 : (1 : Fin 3) ≠ 2 := by decide
  rcases is_gpio_output_cases _ _ hobj with ⟨ho, hi, hx⟩ | ⟨ho, hi, hx⟩ | ⟨ho, hi, hx⟩
  · rw [hx] at hidx; cases hidx; subst ho
    simp only [eq_self_iff_true, if_true] at hst
    split_ifs at hst <;> cases hst <;>
      first
      | exact ⟨⟨h1, h2, h3, h4, h5⟩, rfl, rfl, rfl⟩
      | (refine ⟨⟨?_, ?_, h3, h4, h5⟩, rfl, rfl, rfl⟩
         · intro j; simp only [Function.update_same]
           exact update_bits_le _ _ _ (by decide) h1 j
         · intro j; simp only [Function.update_noteq h01]; exact h2 j)
  · rw [hx] at hidx; cases hidx; subst ho
    simp only [eq_self_iff_true, if_true] at hst
    split_ifs at hst <;> cases hst <;>
      first
      | exact ⟨⟨h1, h2, h3, h4, h5⟩, rfl, rfl, rfl⟩
      | (refine ⟨⟨?_, ?_, h3, h4, h5⟩, rfl, rfl, rfl⟩
         · intro j; simp only [Function.update_noteq h10]; exact h1 j
         · intro j; simp only [Function.update_same]
           exact update_bits_le _ _ _ (by decide) h2 j)
  · rw [hx] at hidx; cases hidx; subst ho
    have hne : ¬ (OBJECT_ANALOG_OUTPUT = OBJECT_BINARY_OUTPUT) := by decide
    simp only [if_neg hne, if_true] at hst
    split_ifs at hst <;> cases hst
    · exact ⟨⟨h1, h2, h3, h4, h5⟩, rfl, rfl, rfl⟩
    · refine ⟨⟨?_, ?_, h3, h4, h5⟩, rfl, rfl, rfl⟩
      · intro j; simp only [Function.update_noteq h02]; exact h1 j
      · intro j; simp only [Function.update_noteq h12]; exact h2 j

theorem binary_values_ok_write (w : World) (ot inst prop tag v P : Nat)
    (h : binary_values_ok w) :
    binary_values_ok (write_object_property_value w ot inst prop tag v P).1 := by
  have hI := binary_values_ok_init w h
  have hinit := initialize_initialized w
  unfold write_object_property_value
  cases hf : object_find w.objects ot inst with
  | none => exact h
  | some o =>
    simp only []
    by_cases hpv : prop = PROP_PRESENT_VALUE
    · simp only [if_pos hpv]
      by_cases hobj : is_gpio_output ot inst = true
      · simp only [hobj, if_true]
        obtain ⟨idx, hidx⟩ : ∃ idx, get_priority_index inst = some idx := by
          rcases is_gpio_output_cases _ _ hobj with ⟨_, _, h⟩ | ⟨_, _, h⟩ | ⟨_, _, h⟩ <;>
            exact ⟨_, h⟩
        simp only [hidx]
        by_cases hP : P < 1 ∨ P > 16
        · simp only [if_pos hP]; exact hI
        · simp only [if_neg hP]
          cases hst : store_priority (initialize_priority_arrays w) idx ot tag v P with
          | none => exact hI
          | some w1 =>
            obtain ⟨hok, _, _, _⟩ := store_priority_ok _ _ _ _ _ _ _ _ hobj hidx hst hI
            simp only []
            split_ifs
            · obtain ⟨_, f2, f3, f4⟩ := gowp_frame
                { w1 with objects := object_assign w1.objects ot inst (calculate_effective_value w1 ot inst) }
                ot inst PROP_PRESENT_VALUE BACNET_APPLICATION_TAG_ENUMERATED
                (calculate_effective_value w1 ot inst).enumerated P
              exact binary_values_ok_congr w1 _ f2 f3 f4 hok
            · obtain ⟨_, f2, f3, f4⟩ := gowp_frame
                { w1 with objects := object_assign w1.objects ot inst (calculate_effective_value w1 ot inst) }
                ot inst PROP_PRESENT_VALUE BACNET_APPLICATION_TAG_REAL
                (calculate_effective_value w1 ot inst).real P
              exact binary_values_ok_congr w1 _ f2 f3 f4 hok
      · simp only [if_neg hobj]
        split_ifs <;> exact hI
    · simp only [if_neg hpv]
      by_cases hrd : prop = PROP_RELINQUISH_DEFAULT
      · simp only [if_pos hrd]
        by_cases hobj : is_gpio_output ot inst = true
        · simp only [hobj, if_true]
          obtain ⟨h1, h2, h3, h4, h5⟩ := hI
          have h0n : (1 : Fin 5) ≠ 0 := by decide
          have h1n : (0 : Fin 5) ≠ 1 := by decide
          have h2a : (0 : Fin 5) ≠ 2 := by decide
          have h2b : (1 : Fin 5) ≠ 2 := by decide
          split_ifs <;>
            first
            | exact ⟨h1, h2, h3, h4, h5⟩
            | (refine ⟨h1, h2, ?_, ?_, fun hc => ?_⟩
               · simp [gpio_write_pin, Function.update_apply]
                 try omega
               · simp [gpio_write_pin, Function.update_apply]
                 try omega
               · simp [gpio_write_pin, hinit] at hc)
        · simp only [if_neg hobj]; exact hI
      · simp only [if_neg hrd]; exact hI

theorem send_simple_ack_engine (w : World) (invoke_id service_choice : Nat) :
    same_engine (send_simple_ack w invoke_id service_choice) w := by
  unfold send_simple_ack pdu_alloc
  split_ifs <;> exact ⟨rfl, rfl, rfl, rfl, rfl, rfl, rfl⟩

theorem send_error_response_engine (w : World) (invoke_id service_choice c e : Nat) :
    same_engine (send_error_response w invoke_id service_choice c e) w := by
  unfold send_error_response pdu_alloc
  split_ifs <;> exact ⟨rfl, rfl, rfl, rfl, rfl, rfl, rfl⟩

theorem binary_values_ok_engine (w w2 : World) (h : same_engine w2 w)
    (hok : binary_values_ok w) : binary_values_ok w2 :=
  binary_values_ok_congr w w2 h.2.1 h.2.2.2.1 h.2.2.2.2.1 hok

/-- The state after a WriteProperty request is the state after at most one call of
`write_object_property_value`, up to the APDU pool and the sent trace. -/
theorem send_write_response_engine (w : World) (status : Int) (invoke_id : Nat) :
    same_engine (send_write_response w status invoke_id) w := by
  unfold send_write_response
  split_ifs
  · exact send_simple_ack_engine _ _ _
  · exact send_error_response_engine _ _ _ _ _
  · exact send_error_response_engine _ _ _ _ _
  · exact send_error_response_engine _ _ _ _ _

theorem execute_write_cases (w : World) (ot inst prop value_tag : Nat) (d : DecodedValue)
    (priority : Nat) :
    execute_write w ot inst prop value_tag d priority = (w, 0) ∨
    ∃ tag v, execute_write w ot inst prop value_tag d priority =
      write_object_property_value w ot inst prop tag v priority := by
  unfold execute_write
  split_ifs
  · exact Or.inr ⟨_, _, rfl⟩
  · exact Or.inr ⟨_, _, rfl⟩
  · exact Or.inr ⟨_, _, rfl⟩
  · exact Or.inl rfl

theorem receive_writeproperty_cases (P : World → Prop) (w : World) (req : List Nat)
    (len invoke_id : Nat) (h1 : ∀ w2, same_engine w2 w → P w2)
    (h2 : ∀ ot inst prop tag v pr w2,
      same_engine w2 (write_object_property_value w ot inst prop tag v pr).1 → P w2) :
    P (receive_writeproperty w req len invoke_id).1 := by
  unfold receive_writeproperty
  simp only []
  split
  · split
    · split
      · exact h1 _ (send_error_response_engine _ _ _ _ _)
      · split
        · split
          · exact h1 _ (send_error_response_engine _ _ _ _ _)
          · rename_i value_tag d heq
            generalize decode_priority req len _ = priority
            generalize (decode_enumerated _ _).2 = property
            generalize (decode_object_id _).2.1 = object_type
            generalize (decode_object_id _).2.2 = inst
            rcases execute_write_cases w object_type inst property value_tag d priority with
              h | ⟨tag, v, h⟩
            · rw [h]; exact h1 _ (send_write_response_engine _ _ _)
            · rw [h]; exact h2 _ _ _ _ _ _ _ (send_write_response_engine _ _ _)
        · exact h1 _ (send_error_response_engine _ _ _ _ _)
    · exact h1 _ (send_error_response_engine _ _ _ _ _)
  · exact h1 _ (send_error_response_engine _ _ _ _ _)

theorem get_priority_value_world (w : World) (inst Q : Nat) (x : ObjectValue) :
    (get_priority_value w inst Q x).1 = initialize_priority_arrays w := by
  unfold get_priority_value
  cases get_priority_index inst with
  | none => rfl
  | some idx => simp only []; split_ifs <;> rfl

theorem encode_priority_levels_world (ot inst : Nat) (l : List Nat) (w : World) :
    (encode_priority_levels ot inst w l).1 = w ∨
    (encode_priority_levels ot inst w l).1 = initialize_priority_arrays w := by
  induction l generalizing w with
  | nil => left; rfl
  | cons a t ih =>
      simp only [encode_priority_levels, get_priority_value_world]
      rcases ih (initialize_priority_arrays w) with h | h
      · right; exact h
      · right; rw [h, initialize_idem _ (initialize_initialized w)]

theorem encode_object_property_value_world (w : World) (ot inst prop idx : Nat) :
    (encode_object_property_value w ot inst prop idx).1 = w ∨
    (encode_object_property_value w ot inst prop idx).1 = initialize_priority_arrays w := by
  unfold encode_object_property_value
  cases object_find w.objects ot inst with
  | none => left; rfl
  | some o =>
    simp only []
    by_cases h1 : is_gpio_output ot inst = true ∧
        (prop = PROP_PRIORITY_ARRAY ∨ prop = PROP_RELINQUISH_DEFAULT)
    · rw [if_pos h1]
      by_cases h2 : prop = PROP_PRIORITY_ARRAY
      · rw [if_pos h2]
        by_cases h3 : idx = BACNET_ARRAY_ALL
        · rw [if_pos h3]; exact encode_priority_levels_world _ _ _ _
        · rw [if_neg h3]
          by_cases h4 : idx = 0
          · rw [if_pos h4]; left; rfl
          · rw [if_neg h4]
            by_cases h5 : idx ≥ 1 ∧ idx ≤ 16
            · rw [if_pos h5]
              right
              split_ifs <;> exact get_priority_value_world _ _ _ _
            · rw [if_neg h5]; left; rfl
      · rw [if_neg h2]; left
        simp only [apply_ite Prod.fst, ite_self]
    · rw [if_neg h1]; left
      simp only [apply_ite Prod.fst, ite_self]

theorem same_engine_trans (w1 w2 w3 : World) (h1 : same_engine w1 w2) (h2 : same_engine w2 w3) :
    same_engine w1 w3 :=
  ⟨h1.1.trans h2.1, h1.2.1.trans h2.2.1, h1.2.2.1.trans h2.2.2.1,
   h1.2.2.2.1.trans h2.2.2.2.1, h1.2.2.2.2.1.trans h2.2.2.2.2.1,
   h1.2.2.2.2.2.1.trans h2.2.2.2.2.2.1, h1.2.2.2.2.2.2.trans h2.2.2.2.2.2.2⟩

theorem initialize_engine (w w2 : World) (h : same_engine w2 w) :
    same_engine (initialize_priority_arrays w2) (initialize_priority_arrays w) := by
  obtain ⟨h1, h2, h3, h4, h5, h6, h7⟩ := h
  unfold initialize_priority_arrays
  rw [h5]
  split_ifs
  · exact ⟨h1, h2, h3, h4, h5, h6, h7⟩
  · exact ⟨h1, rfl, rfl, by simp only [h4], rfl, h6, h7⟩

theorem send_abort_address_engine (w : World) (invoke_id reason : Nat) :
    same_engine (send_abort_address w invoke_id reason) w :=
  ⟨rfl, rfl, rfl, rfl, rfl, rfl, rfl⟩

theorem send_error_address_engine (w : World) (invoke_id service_choice c e : Nat) :
    same_engine (send_error_address w invoke_id service_choice c e) w :=
  ⟨rfl, rfl, rfl, rfl, rfl, rfl, rfl⟩

theorem send_read_response_engine (w : World) (header value : List Nat)
    (src_max_apdu invoke_id : Nat) :
    same_engine (send_read_response w header value src_max_apdu invoke_id) w := by
  unfold send_read_response
  split_ifs <;> exact ⟨rfl, rfl, rfl, rfl, rfl, rfl, rfl⟩

theorem encode_requested_property_world (w : World) (ot inst prop idx : Nat) :
    (encode_requested_property w ot inst prop idx).1 = w ∨
    (encode_requested_property w ot inst prop idx).1 = initialize_priority_arrays w := by
  unfold encode_requested_property
  split_ifs
  · left; rfl
  · exact encode_object_property_value_world w ot inst prop idx
  · left; rfl
  · exact encode_object_property_value_world w ot inst prop idx

/-- The state after a ReadProperty request is the state before it, or that state with the
priority arrays initialised, up to the APDU pool and the sent trace. -/
theorem receive_readproperty_engine (w : World) (req : List Nat) (len max_apdu invoke_id : Nat) :
    same_engine (receive_readproperty w req len max_apdu invoke_id).1 w ∨
    same_engine (receive_readproperty w req len max_apdu invoke_id).1
      (initialize_priority_arrays w) := by
  unfold receive_readproperty
  simp only []
  split
  · split
    · left; exact send_abort_address_engine _ _ _
    · by_cases hp : w.pdu_pool = 0
      · simp only [pdu_alloc, if_pos hp]
        left; exact send_abort_address_engine _ _ _
      · simp only [pdu_alloc, if_neg hp]
        generalize (decode_object_id _).2.1 = ot
        generalize (decode_object_id _).2.2 = inst
        generalize (decode_enumerated _ _).2 = prop
        generalize decode_array_index _ _ _ = idx
        have hw1 : same_engine { w with pdu_pool := w.pdu_pool - 1 } w :=
          ⟨rfl, rfl, rfl, rfl, rfl, rfl, rfl⟩
        have hfree : ∀ x : World, same_engine (pdu_free x) x :=
          fun x => ⟨rfl, rfl, rfl, rfl, rfl, rfl, rfl⟩
        rcases encode_requested_property_world { w with pdu_pool := w.pdu_pool - 1 }
          ot inst prop idx with h | h
        · left
          rw [h]
          exact same_engine_trans _ _ _ (hfree _)
            (same_engine_trans _ _ _ (send_read_response_engine _ _ _ _ _) hw1)
        · right
          rw [h]
          exact same_engine_trans _ _ _ (hfree _)
            (same_engine_trans _ _ _ (send_read_response_engine _ _ _ _ _)
              (initialize_engine _ _ hw1))
  · left; exact send_abort_address_engine _ _ _

theorem gpio_update_inputs_frame (w : World) (t : Nat) (g : Int) :
    (gpio_update_inputs w t g).priority_arrays = w.priority_arrays ∧
    (gpio_update_inputs w t g).priority_null = w.priority_null ∧
    (gpio_update_inputs w t g).relinquish_defaults = w.relinquish_defaults ∧
    (gpio_update_inputs w t g).arrays_initialized = w.arrays_initialized ∧
    (gpio_update_inputs w t g).gpio_priorities = w.gpio_priorities := by
  unfold gpio_update_inputs
  split
  · exact ⟨rfl, rfl, rfl, rfl, rfl⟩
  · split
    · exact ⟨rfl, rfl, rfl, rfl, rfl⟩
    · split_ifs <;> exact ⟨rfl, rfl, rfl, rfl, rfl⟩

theorem gpio_objects_update_values_frame (w : World) (t m : Nat) :
    (gpio_objects_update_values w t m).priority_arrays = w.priority_arrays ∧
    (gpio_objects_update_values w t m).priority_null = w.priority_null ∧
    (gpio_objects_update_values w t m).relinquish_defaults = w.relinquish_defaults ∧
    (gpio_objects_update_values w t m).arrays_initialized = w.arrays_initialized ∧
    (gpio_objects_update_values w t m).gpio_priorities = w.gpio_priorities := by
  unfold gpio_objects_update_values
  simp only []
  split <;> exact ⟨rfl, rfl, rfl, rfl, rfl⟩

theorem gpio_read_reply_engine (w : World) (invoke_id src_max_apdu : Nat) (apdu : List Nat) :
    same_engine (gpio_read_reply w invoke_id src_max_apdu apdu).1 w := by
  unfold gpio_read_reply pdu_alloc
  split_ifs <;> exact ⟨rfl, rfl, rfl, rfl, rfl, rfl, rfl⟩

theorem pdu_alloc_engine (w w1 : World) (h : pdu_alloc w = some w1) : same_engine w1 w := by
  unfold pdu_alloc at h
  split_ifs at h
  cases h
  exact ⟨rfl, rfl, rfl, rfl, rfl, rfl, rfl⟩

theorem same_engine_ite (w : World) (c : Prop) [Decidable c] (a b : World × Int)
    (ha : same_engine a.1 w) (hb : same_engine b.1 w) :
    same_engine (if c then a else b).1 w := by
  split_ifs
  · exact ha
  · exact hb

theorem gpio_read_priority_array_engine (w : World)
    (invoke_id ot inst prop idx max_apdu : Nat) :
    same_engine (gpio_read_priority_array w invoke_id ot inst prop idx max_apdu).1 w := by
  unfold gpio_read_priority_array
  cases hp : pdu_alloc w with
  | none => exact ⟨rfl, rfl, rfl, rfl, rfl, rfl, rfl⟩
  | some w1 =>
    have h1 := pdu_alloc_engine w w1 hp
    simp only []
    cases gpio_priority_array_value w1 ot inst idx with
    | none => exact same_engine_trans _ w1 _ ⟨rfl, rfl, rfl, rfl, rfl, rfl, rfl⟩ h1
    | some value =>
      simp only []
      refine same_engine_ite _ _ _ _ ?_ ?_
      · exact same_engine_trans _ w1 _ ⟨rfl, rfl, rfl, rfl, rfl, rfl, rfl⟩ h1
      · exact same_engine_trans _ w1 _ ⟨rfl, rfl, rfl, rfl, rfl, rfl, rfl⟩ h1

theorem gpio_read_relinquish_default_engine (w : World)
    (invoke_id ot inst prop max_apdu : Nat) :
    same_engine (gpio_read_relinquish_default w invoke_id ot inst prop max_apdu).1 w := by
  unfold gpio_read_relinquish_default
  cases hp : pdu_alloc w with
  | none => exact ⟨rfl, rfl, rfl, rfl, rfl, rfl, rfl⟩
  | some w1 =>
    have h1 := pdu_alloc_engine w w1 hp
    simp only []
    refine same_engine_ite _ _ _ _ ?_ ?_
    · exact same_engine_trans _ w1 _ ⟨rfl, rfl, rfl, rfl, rfl, rfl, rfl⟩ h1
    · exact same_engine_trans _ w1 _ ⟨rfl, rfl, rfl, rfl, rfl, rfl, rfl⟩ h1

/-- The read handler of gpio_objects.c changes at most the APDU pool and the sent trace. -/
theorem gpio_handle_read_property_engine (w : World) (invoke_id ot inst prop idx max_apdu : Nat) :
    same_engine (gpio_handle_read_property w invoke_id ot inst prop idx max_apdu).1 w := by
  have hrefl : same_engine w w := ⟨rfl, rfl, rfl, rfl, rfl, rfl, rfl⟩
  have herr : ∀ c e, same_engine
      (send_error_address w invoke_id SERVICE_CONFIRMED_READ_PROPERTY c e) w :=
    fun _ _ => ⟨rfl, rfl, rfl, rfl, rfl, rfl, rfl⟩
  unfold gpio_handle_read_property
  cases object_find w.objects ot inst with
  | none => exact hrefl
  | some obj =>
    repeat' refine same_engine_ite _ _ _ _ ?_ ?_
    all_goals
      first
      | exact hrefl
      | exact gpio_read_reply_engine _ _ _ _
      | exact herr _ _
      | exact gpio_read_priority_array_engine _ _ _ _ _ _ _
      | exact gpio_read_relinquish_default_engine _ _ _ _ _ _

/-- In every reachable state the binary outputs hold 0 or 1 in their slots and
relinquish-defaults. -/
theorem reachable_binary_values (w : World) (h : Reachable w) : binary_values_ok w := by
  induction h with
  | gpio_read w invoke_id ot inst prop idx max_apdu _ ih =>
      exact binary_values_ok_engine _ _
        (gpio_handle_read_property_engine w invoke_id ot inst prop idx max_apdu) ih
  | start config objects pdu_pool _ => exact binary_values_ok_boot config objects pdu_pool
  | environment w hw clock _ ih => exact binary_values_ok_congr w _ rfl rfl rfl ih
  | update_inputs w t g _ ih =>
      obtain ⟨f1, _, f3, f4, _⟩ := gpio_update_inputs_frame w t g
      exact binary_values_ok_congr w _ f1 f3 f4 ih
  | update_values w t m _ ih =>
      obtain ⟨f1, _, f3, f4, _⟩ := gpio_objects_update_values_frame w t m
      exact binary_values_ok_congr w _ f1 f3 f4 ih
  | read_request w req len max_apdu invoke_id _ ih =>
      rcases receive_readproperty_engine w req len max_apdu invoke_id with h | h
      · exact binary_values_ok_engine _ _ h ih
      · exact binary_values_ok_engine _ _ h (binary_values_ok_init w ih)
  | write w ot inst prop tag v P _ ih => exact binary_values_ok_write w ot inst prop tag v P ih
  | read_slot w inst P x _ ih =>
      rw [get_priority_value_world]; exact binary_values_ok_init w ih
  | gpio_write w ot inst prop tag v P _ ih =>
      obtain ⟨_, f2, f3, f4⟩ := gowp_frame w ot inst prop tag v P
      exact binary_values_ok_congr w _ f2 f3 f4 ih
  | request w req len invoke_id _ ih =>
      apply receive_writeproperty_cases binary_values_ok w req len invoke_id
      · exact fun w2 h2 => binary_values_ok_engine w w2 h2 ih
      · exact fun ot inst prop tag v pr w2 h2 =>
          binary_values_ok_engine _ w2 h2 (binary_values_ok_write w ot inst prop tag v pr ih)
  | read_property w ot inst prop idx _ ih =>
      rcases encode_object_property_value_world w ot inst prop idx with h | h
      · rw [h]; exact ih
      · rw [h]; exact binary_values_ok_init w ih

theorem gpio_index (ot inst : Nat) (hobj : is_gpio_output ot inst = true) :
    ∃ idx, get_priority_index inst = some idx := by
  rcases is_gpio_output_cases _ _ hobj with ⟨_, _, h⟩ | ⟨_, _, h⟩ | ⟨_, _, h⟩ <;> exact ⟨_, h⟩

theorem initialize_relinquish_defaults (w : World) (h : binary_values_ok w) :
    (initialize_priority_arrays w).relinquish_defaults = w.relinquish_defaults := by
  unfold initialize_priority_arrays
  by_cases hi : w.arrays_initialized = true
  · simp only [hi, if_true]
  · have hz := h.2.2.2.2 (by simpa using hi)
    simp only [hi]
    funext i
    simp [hz i]

theorem get_priority_value_flag (w : World) (inst Q : Nat) (x : ObjectValue) (idx : Fin 3)
    (hidx : get_priority_index inst = some idx) (hQ : 1 ≤ Q ∧ Q ≤ 16) :
    (get_priority_value w inst Q x).2.1 = (initialize_priority_arrays w).priority_null idx (slot Q) := by
  rw [get_priority_value_init,
    get_priority_value_slot _ inst Q x idx (initialize_initialized w) hidx hQ]
  split_ifs with h
  · simp [h]
  · simp at h; simp [h]

theorem slot_succ (j : Fin 16) : slot (j.val + 1) = j := by
  apply Fin.ext
  rw [slot_val _ ⟨by omega, by omega⟩]
  simp

/-- C3: a Present-Value write with a Null value at priority P on a GPIO output present in the
store returns 0, leaves slot P Null, and leaves every other slot and the relinquish-defaults
as they were. -/
theorem write_null_relinquishes_slot (w : World) (object_type inst value P : Nat)
    (o : ObjectRef) (hreach : Reachable w) (hobj : is_gpio_output object_type inst = true)
    (hP : 1 ≤ P ∧ P ≤ 16) (hfind : object_find w.objects object_type inst = some o) :
    (write_object_property_value w object_type inst PROP_PRESENT_VALUE
        BACNET_APPLICATION_TAG_NULL value P).2 = 0 ∧
    (∀ x, (get_priority_value
            (write_object_property_value w object_type inst PROP_PRESENT_VALUE
              BACNET_APPLICATION_TAG_NULL value P).1 inst P x).2 = (true, x)) ∧
    (∀ Q x, Q ≠ P →
        (get_priority_value
            (write_object_property_value w object_type inst PROP_PRESENT_VALUE
              BACNET_APPLICATION_TAG_NULL value P).1 inst Q x).2 =
          (get_priority_value w inst Q x).2) ∧
    (write_object_property_value w object_type inst PROP_PRESENT_VALUE
        BACNET_APPLICATION_TAG_NULL value P).1.relinquish_defaults = w.relinquish_defaults := by
  obtain ⟨idx, hidx⟩ := gpio_index _ _ hobj
  obtain ⟨w2, hw2, hnull, harr, hrd, hinit, _⟩ :=
    write_pv_gpio_fields w object_type inst BACNET_APPLICATION_TAG_NULL value P o idx _ hfind
      hobj hidx hP (store_priority_null _ idx object_type value P) (initialize_objects w)
  rw [hw2]
  have hinit2 : w2.arrays_initialized = true := by rw [hinit]; exact initialize_initialized w
  refine ⟨rfl, ?_, ?_, ?_⟩
  · intro x
    rw [get_priority_value_slot w2 inst P x idx hinit2 hidx hP, hnull]
    simp
  · intro Q x hQ
    by_cases hQ2 : Q < 1 ∨ Q > 16
    · rw [get_priority_value_range _ _ _ _ hQ2, get_priority_value_range _ _ _ _ hQ2]
    · have hQ3 : 1 ≤ Q ∧ Q ≤ 16 := by omega
      have hne : slot Q ≠ slot P := slot_ne P Q hP hQ3 hQ
      rw [get_priority_value_slot w2 inst Q x idx hinit2 hidx hQ3, hnull, harr,
        get_priority_value_init w,
        get_priority_value_slot _ inst Q x idx (initialize_initialized w) hidx hQ3]
      simp [Function.update_noteq hne]
  · show w2.relinquish_defaults = _
    rw [hrd]
    exact initialize_relinquish_defaults w (reachable_binary_values w hreach)

/-- Witness for C3: priority 8 of BO 4018 relinquished after ACTIVE was written there. -/
theorem write_null_relinquishes_slot_witness :
    Reachable scenario_active8 ∧ is_gpio_output OBJECT_BINARY_OUTPUT 4018 = true ∧
    (1 ≤ 8 ∧ 8 ≤ 16) ∧
    (write_object_property_value scenario_active8 OBJECT_BINARY_OUTPUT 4018 PROP_PRESENT_VALUE
        BACNET_APPLICATION_TAG_NULL 0 8).2 = 0 ∧
    (∀ x, (get_priority_value
            (write_object_property_value scenario_active8 OBJECT_BINARY_OUTPUT 4018
              PROP_PRESENT_VALUE BACNET_APPLICATION_TAG_NULL 0 8).1 4018 8 x).2 = (true, x)) ∧
    (∀ Q x, Q ≠ 8 →
        (get_priority_value
            (write_object_property_value scenario_active8 OBJECT_BINARY_OUTPUT 4018
              PROP_PRESENT_VALUE BACNET_APPLICATION_TAG_NULL 0 8).1 4018 Q x).2 =
          (get_priority_value scenario_active8 4018 Q x).2) ∧
    (write_object_property_value scenario_active8 OBJECT_BINARY_OUTPUT 4018 PROP_PRESENT_VALUE
        BACNET_APPLICATION_TAG_NULL 0 8).1.relinquish_defaults =
      scenario_active8.relinquish_defaults :=
  ⟨Reachable.write _ _ _ _ _ _ _ (Reachable.start _ _ _ (by decide)), by decide, by decide,
    write_null_relinquishes_slot scenario_active8 OBJECT_BINARY_OUTPUT 4018 0 8
      { type := OBJECT_BINARY_OUTPUT, inst := 4018, name := some "Test LED",
        value := { bits := 1 }, active := some "ON", inactive := some "OFF" }
      (Reachable.write _ _ _ _ _ _ _ (Reachable.start _ _ _ (by decide))) (by decide) (by decide) (by decide)⟩

theorem lt_slot (P : Nat) (hP : 1 ≤ P ∧ P ≤ 16) (j : Fin 16) (h : j < slot P) :
    1 ≤ j.val + 1 ∧ j.val + 1 < P := by
  have := slot_val P hP
  have hlt : j.val < (slot P).val := h
  omega

/-- C4: after a successful Present-Value write of a value v of the object's class at
priority P, the resolver returns v when no slot below P was occupied, and otherwise what
it returned before the write. -/
theorem resolver_after_write (w : World) (object_type inst tag v P : Nat)
    (hobj : is_gpio_output object_type inst = true) (hP : 1 ≤ P ∧ P ≤ 16)
    (hclass : (object_type = OBJECT_BINARY_OUTPUT ∧ tag = BACNET_APPLICATION_TAG_ENUMERATED ∧ v ≤ 1) ∨
              (object_type = OBJECT_ANALOG_OUTPUT ∧ tag = BACNET_APPLICATION_TAG_REAL))
    (hret : (write_object_property_value w object_type inst PROP_PRESENT_VALUE tag v P).2 = 0) :
    ((∀ Q x, 1 ≤ Q → Q < P → (get_priority_value w inst Q x).2.1 = true) →
      calculate_effective_value
        (write_object_property_value w object_type inst PROP_PRESENT_VALUE tag v P).1
        object_type inst = { bits := v }) ∧
    ((∃ Q x, 1 ≤ Q ∧ Q < P ∧ (get_priority_value w inst Q x).2.1 = false) →
      calculate_effective_value
        (write_object_property_value w object_type inst PROP_PRESENT_VALUE tag v P).1
        object_type inst = calculate_effective_value w object_type inst) := by
  obtain ⟨o, hfind⟩ := write_status_found _ _ _ _ _ _ _ hret
  obtain ⟨idx, hidx⟩ := gpio_index _ _ hobj
  obtain ⟨w2, hw2, hnull, harr, hrd, hinit, _⟩ :=
    write_pv_gpio_fields w object_type inst tag v P o idx _ hfind hobj hidx hP
      (store_priority_typed _ idx object_type tag v P hclass) (initialize_objects w)
  rw [hw2]
  simp only [calculate_effective_value, hidx, hnull, harr, hrd, Function.update_same]
  constructor
  · intro hbelow
    have hlt : ∀ j : Fin 16, j < slot P →
        Function.update ((initialize_priority_arrays w).priority_null idx) (slot P) false j
          = true := by
      intro j hj
      obtain ⟨h1, h2⟩ := lt_slot P hP j hj
      rw [Function.update_noteq (ne_of_lt hj)]
      have := hbelow (j.val + 1) { bits := 0 } h1 h2
      rw [get_priority_value_flag w inst _ _ idx hidx ⟨h1, by omega⟩, slot_succ] at this
      exact this
    rw [first_non_null_least _ _ _ (slot P) (by simp) hlt]
    simp
  · rintro ⟨Q, x, hQ1, hQ2, hocc⟩
    rw [get_priority_value_flag w inst Q x idx hidx ⟨hQ1, by omega⟩] at hocc
    have hi : w.arrays_initialized = true := by
      by_contra hn
      have hn2 : w.arrays_initialized = false := by simpa using hn
      simp [initialize_priority_arrays, hn2] at hocc
    rw [initialize_idem w hi] at hocc ⊢
    obtain ⟨i, hi1, hi2⟩ := exists_least_occupied (w.priority_null idx) ⟨_, hocc⟩
    have hiQ : i ≤ slot Q := by
      by_contra hc
      have := hi2 (slot Q) (lt_of_not_le hc)
      rw [hocc] at this; cases this
    have hQP : slot Q < slot P := by
      show (slot Q).val < (slot P).val
      rw [slot_val P hP, slot_val Q ⟨hQ1, by omega⟩]; omega
    have hiP : i < slot P := lt_of_le_of_lt hiQ hQP
    rw [first_non_null_least (w.priority_null idx) _ _ i hi1 hi2,
      first_non_null_least _ _ _ i
        (by rw [Function.update_noteq (ne_of_lt hiP)]; exact hi1)
        (fun j hj => by
          rw [Function.update_noteq (ne_of_lt (lt_trans hj hiP))]; exact hi2 j hj),
      Function.update_noteq (ne_of_lt hiP)]

/-- Witness for C4: INACTIVE written to BO 4018 at priority 10 while priority 8 holds ACTIVE. -/
theorem resolver_after_write_witness :
    is_gpio_output OBJECT_BINARY_OUTPUT 4018 = true ∧ (1 ≤ 10 ∧ 10 ≤ 16) ∧
    (write_object_property_value scenario_active8 OBJECT_BINARY_OUTPUT 4018 PROP_PRESENT_VALUE
        BACNET_APPLICATION_TAG_ENUMERATED 0 10).2 = 0 ∧
    ((∀ Q x, 1 ≤ Q → Q < 10 → (get_priority_value scenario_active8 4018 Q x).2.1 = true) →
      calculate_effective_value
        (write_object_property_value scenario_active8 OBJECT_BINARY_OUTPUT 4018
          PROP_PRESENT_VALUE BACNET_APPLICATION_TAG_ENUMERATED 0 10).1
        OBJECT_BINARY_OUTPUT 4018 = { bits := 0 }) ∧
    ((∃ Q x, 1 ≤ Q ∧ Q < 10 ∧ (get_priority_value scenario_active8 4018 Q x).2.1 = false) →
      calculate_effective_value
        (write_object_property_value scenario_active8 OBJECT_BINARY_OUTPUT 4018
          PROP_PRESENT_VALUE BACNET_APPLICATION_TAG_ENUMERATED 0 10).1
        OBJECT_BINARY_OUTPUT 4018 =
      calculate_effective_value scenario_active8 OBJECT_BINARY_OUTPUT 4018) :=
  ⟨by decide, by decide, by decide,
    resolver_after_write scenario_active8 OBJECT_BINARY_OUTPUT 4018
      BACNET_APPLICATION_TAG_ENUMERATED 0 10 (by decide) (by decide)
      (Or.inl ⟨rfl, rfl, by decide⟩) (by decide)⟩

theorem first_non_null_bits_le (nulls : Fin 16 → Bool) (vals : Fin 16 → ObjectValue)
    (dflt : ObjectValue) (hv : ∀ j, (vals j).bits ≤ 1) (hd : dflt.bits ≤ 1)
    (l : List (Fin 16)) : (first_non_null nulls vals dflt l).bits ≤ 1 := by
  induction l with
  | nil => exact hd
  | cons a t ih =>
      simp only [first_non_null]
      split_ifs
      · exact hv a
      · exact ih

/-- In a reachable state the resolver of a binary GPIO output yields 0 or 1. -/
theorem binary_effective_le (w : World) (inst : Nat) (h : binary_values_ok w)
    (hobj : is_gpio_output OBJECT_BINARY_OUTPUT inst = true) :
    (calculate_effective_value w OBJECT_BINARY_OUTPUT inst).bits ≤ 1 := by
  obtain ⟨h1, h2, h3, h4, _⟩ := h
  rcases is_gpio_output_cases _ _ hobj with ⟨_, _, hx⟩ | ⟨_, _, hx⟩ | ⟨ho, _, _⟩
  · simp only [calculate_effective_value, hx]
    exact first_non_null_bits_le _ _ _ h1 h3 _
  · simp only [calculate_effective_value, hx]
    exact first_non_null_bits_le _ _ _ h2 h4 _
  · exact absurd ho (by decide)

theorem norm_of_le (n : Nat) (h : n ≤ 1) : (if n ≠ 0 then 1 else 0 : Nat) = n := by
  split_ifs <;> omega

theorem calculate_effective_value_congr (w w2 : World) (ot inst : Nat)
    (h1 : w2.priority_null = w.priority_null) (h2 : w2.priority_arrays = w.priority_arrays)
    (h3 : w2.relinquish_defaults = w.relinquish_defaults) :
    calculate_effective_value w2 ot inst = calculate_effective_value w ot inst := by
  unfold calculate_effective_value
  rw [h1, h2, h3]

/-- After an accepted Present-Value write on a GPIO output in a reachable state, the object
record holds what the resolver returns. -/
theorem write_pv_record (w : World) (ot inst tag v P : Nat) (o : ObjectRef) (idx : Fin 3)
    (w1 : World) (hok : binary_values_ok w)
    (hfind : object_find w.objects ot inst = some o)
    (hobj : is_gpio_output ot inst = true) (hidx : get_priority_index inst = some idx)
    (hP : 1 ≤ P ∧ P ≤ 16)
    (hst : store_priority (initialize_priority_arrays w) idx ot tag v P = some w1) :
    ∃ w2, write_object_property_value w ot inst PROP_PRESENT_VALUE tag v P = (w2, 0) ∧
      w2.priority_null = w1.priority_null ∧ w2.priority_arrays = w1.priority_arrays ∧
      w2.relinquish_defaults = w1.relinquish_defaults ∧
      w2.arrays_initialized = true ∧
      object_find w2.objects ot inst =
        some { o with value := calculate_effective_value w2 ot inst } := by
  obtain ⟨hok1, hinit1, _, hobjs⟩ :=
    store_priority_ok _ _ _ _ _ _ _ _ hobj hidx hst (binary_values_ok_init w hok)
  obtain ⟨w2, hw2, hnull, harr, hrd, hinit, hrec⟩ :=
    write_pv_gpio_fields w ot inst tag v P o idx w1 hfind hobj hidx hP hst
      (hobjs.trans (initialize_objects w))
  refine ⟨w2, hw2, hnull, harr, hrd, ?_, ?_⟩
  · rw [hinit, hinit1]; exact initialize_initialized w
  · rw [hrec, calculate_effective_value_congr w1 w2 ot inst hnull harr hrd]
    by_cases hbo : ot = OBJECT_BINARY_OUTPUT
    · subst hbo
      simp only [if_true]
      rw [norm_of_le _ (binary_effective_le w1 inst hok1 hobj)]
    · simp only [if_neg hbo]

/-- C5: when no slot other than P of a GPIO output is occupied (so P is the only slot that
can be), a Present-Value write of Null at P makes the resolver return the object's
relinquish-default, and the object's present value is that relinquish-default. -/
theorem relinquish_last_slot (w : World) (object_type inst value P : Nat) (o : ObjectRef)
    (hreach : Reachable w) (hobj : is_gpio_output object_type inst = true)
    (hP : 1 ≤ P ∧ P ≤ 16) (hfind : object_find w.objects object_type inst = some o)
    (honly : ∀ Q x, Q ≠ P → (get_priority_value w inst Q x).2.1 = true) :
    ∃ pri_idx, get_priority_index inst = some pri_idx ∧
      calculate_effective_value
        (write_object_property_value w object_type inst PROP_PRESENT_VALUE
          BACNET_APPLICATION_TAG_NULL value P).1 object_type inst =
        w.relinquish_defaults (Fin.castLE (by decide) pri_idx) ∧
      (write_object_property_value w object_type inst PROP_PRESENT_VALUE
          BACNET_APPLICATION_TAG_NULL value P).1.relinquish_defaults = w.relinquish_defaults ∧
      (object_find
          (write_object_property_value w object_type inst PROP_PRESENT_VALUE
            BACNET_APPLICATION_TAG_NULL value P).1.objects object_type inst).map
          (fun obj => obj.value) =
        some (w.relinquish_defaults (Fin.castLE (by decide) pri_idx)) := by
  obtain ⟨idx, hidx⟩ := gpio_index _ _ hobj
  have hok := reachable_binary_values w hreach
  obtain ⟨w2, hw2, hnull, harr, hrd, hinit, hrec⟩ :=
    write_pv_record w object_type inst BACNET_APPLICATION_TAG_NULL value P o idx _ hok hfind
      hobj hidx hP (store_priority_null _ idx object_type value P)
  have hrd2 : w2.relinquish_defaults = w.relinquish_defaults :=
    hrd.trans (initialize_relinquish_defaults w hok)
  have hall : ∀ i, w2.priority_null idx i = true := by
    intro i
    rw [hnull]
    simp only [Function.update_same]
    by_cases hi : i = slot P
    · rw [hi, Function.update_same]
    · rw [Function.update_noteq hi]
      have hne : i.val + 1 ≠ P := by
        intro hc
        apply hi
        rw [← hc, slot_succ]
      have := honly (i.val + 1) { bits := 0 } hne
      rw [get_priority_value_flag w inst _ _ idx hidx ⟨by omega, by omega⟩, slot_succ] at this
      exact this
  have heff : calculate_effective_value w2 object_type inst =
      w.relinquish_defaults (Fin.castLE (by decide) idx) := by
    simp only [calculate_effective_value, hidx]
    rw [first_non_null_all_null _ _ _ _ (fun i _ => hall i), hrd2]
  rw [hw2]
  refine ⟨idx, hidx, heff, hrd2, ?_⟩
  show (object_find w2.objects object_type inst).map (fun obj => obj.value) = _
  rw [hrec, heff]
  rfl

/-- Witness for C5, spec section 8 scenarios 2 and 3: BO 4018 written ACTIVE at priority 8, then
Null at priority 8; the relinquish-default is INACTIVE. -/
theorem relinquish_last_slot_witness :
    Reachable scenario_active8 ∧ is_gpio_output OBJECT_BINARY_OUTPUT 4018 = true ∧
    (1 ≤ 8 ∧ 8 ≤ 16) ∧
    (∀ x, (get_priority_value scenario_active8 4018 8 x).2.1 = false) ∧
    ∃ pri_idx, get_priority_index 4018 = some pri_idx ∧
      calculate_effective_value
        (write_object_property_value scenario_active8 OBJECT_BINARY_OUTPUT 4018
          PROP_PRESENT_VALUE BACNET_APPLICATION_TAG_NULL 0 8).1 OBJECT_BINARY_OUTPUT 4018 =
        scenario_active8.relinquish_defaults (Fin.castLE (by decide) pri_idx) ∧
      (write_object_property_value scenario_active8 OBJECT_BINARY_OUTPUT 4018
          PROP_PRESENT_VALUE BACNET_APPLICATION_TAG_NULL 0 8).1.relinquish_defaults =
        scenario_active8.relinquish_defaults ∧
      (object_find
          (write_object_property_value scenario_active8 OBJECT_BINARY_OUTPUT 4018
            PROP_PRESENT_VALUE BACNET_APPLICATION_TAG_NULL 0 8).1.objects
          OBJECT_BINARY_OUTPUT 4018).map (fun obj => obj.value) =
        some (scenario_active8.relinquish_defaults (Fin.castLE (by decide) pri_idx)) :=
  ⟨Reachable.write _ _ _ _ _ _ _ (Reachable.start _ _ _ (by decide)), by decide, by decide,
    fun x => by
      rw [get_priority_value_flag scenario_active8 4018 8 x 0 (by decide) (by decide)]
      decide,
    relinquish_last_slot scenario_active8 OBJECT_BINARY_OUTPUT 4018 0 8
      { type := OBJECT_BINARY_OUTPUT, inst := 4018, name := some "Test LED",
        value := { bits := 1 }, active := some "ON", inactive := some "OFF" }
      (Reachable.write _ _ _ _ _ _ _ (Reachable.start _ _ _ (by decide))) (by decide) (by decide) (by decide)
      (fun Q x hQ => by
        by_cases hr : Q < 1 ∨ Q > 16
        · rw [get_priority_value_range _ _ _ _ hr]
        · rw [get_priority_value_flag scenario_active8 4018 Q x 0 (by decide) (by omega)]
          have hs : slot Q ≠ slot 8 := slot_ne 8 Q (by decide) (by omega) hQ
          revert hs
          generalize slot Q = s
          revert s
          decide)⟩

theorem write_pv_status (w : World) (ot inst tag v P : Nat) (o : ObjectRef) (idx : Fin 3)
    (hfind : object_find w.objects ot inst = some o)
    (hobj : is_gpio_output ot inst = true) (hidx : get_priority_index inst = some idx)
    (hret : (write_object_property_value w ot inst PROP_PRESENT_VALUE tag v P).2 = 0) :
    (1 ≤ P ∧ P ≤ 16) ∧
      ∃ w1, store_priority (initialize_priority_arrays w) idx ot tag v P = some w1 := by
  unfold write_object_property_value at hret
  simp only [hfind, hobj, hidx, if_true] at hret
  by_cases hP : P < 1 ∨ P > 16
  · simp only [if_pos hP] at hret; cases hret
  · simp only [if_neg hP] at hret
    refine ⟨by omega, ?_⟩
    cases hst : store_priority (initialize_priority_arrays w) idx ot tag v P with
    | none => rw [hst] at hret; cases hret
    | some w1 => exact ⟨w1, rfl⟩

/-- The effect of an accepted Relinquish-Default write on a GPIO output. -/
theorem write_rd_fields (w : World) (ot inst tag v P : Nat) (o : ObjectRef) (idx : Fin 3)
    (hfind : object_find w.objects ot inst = some o)
    (hobj : is_gpio_output ot inst = true) (hidx : get_priority_index inst = some idx)
    (hret : (write_object_property_value w ot inst PROP_RELINQUISH_DEFAULT tag v P).2 = 0) :
    ((ot = OBJECT_BINARY_OUTPUT ∧ tag = BACNET_APPLICATION_TAG_ENUMERATED) ∨
      (ot = OBJECT_ANALOG_OUTPUT ∧ tag = BACNET_APPLICATION_TAG_REAL)) ∧
    ∃ w2, write_object_property_value w ot inst PROP_RELINQUISH_DEFAULT tag v P = (w2, 0) ∧
      w2.priority_null = (initialize_priority_arrays w).priority_null ∧
      w2.priority_arrays = (initialize_priority_arrays w).priority_arrays ∧
      w2.arrays_initialized = true ∧
      w2.relinquish_defaults =
        Function.update (initialize_priority_arrays w).relinquish_defaults
          (Fin.castLE (by decide) idx)
          { bits := if ot = OBJECT_BINARY_OUTPUT then (if v ≠ 0 then 1 else 0) else v } ∧
      object_find w2.objects ot inst =
        some { o with value := calculate_effective_value w2 ot inst } := by
  have hne : ¬ (PROP_RELINQUISH_DEFAULT = PROP_PRESENT_VALUE) := by decide
  have hfi : object_find (initialize_priority_arrays w).objects ot inst = some o := by
    rw [initialize_objects]; exact hfind
  unfold write_object_property_value at hret ⊢
  simp only [hfind, hobj, if_neg hne, if_true] at hret ⊢
  rcases is_gpio_output_cases _ _ hobj with ⟨ho, hi, hx⟩ | ⟨ho, hi, hx⟩ | ⟨ho, hi, hx⟩
  · rw [hx] at hidx; cases hidx; subst ho hi
    by_cases ht : tag = BACNET_APPLICATION_TAG_ENUMERATED
    · simp only [if_pos ht, if_true] at hret ⊢
      refine ⟨by simp [ht], _, rfl, rfl, rfl, initialize_initialized w, rfl, ?_⟩
      exact (object_find_assign_same _ _ _ _ _ hfi).trans rfl
    · simp only [if_neg ht, if_true] at hret; cases hret
  · rw [hx] at hidx; cases hidx; subst ho hi
    by_cases ht : tag = BACNET_APPLICATION_TAG_ENUMERATED
    · have h1 : ¬ ((4026 : Nat) = 4018) := by decide
      simp only [if_pos ht, if_true, if_neg h1] at hret ⊢
      refine ⟨by simp [ht], _, rfl, rfl, rfl, initialize_initialized w, rfl, ?_⟩
      exact (object_find_assign_same _ _ _ _ _ hfi).trans rfl
    · simp only [if_neg ht, if_true] at hret; cases hret
  · rw [hx] at hidx; cases hidx; subst ho hi
    have h1 : ¬ (OBJECT_ANALOG_OUTPUT = OBJECT_BINARY_OUTPUT) := by decide
    by_cases ht : tag = BACNET_APPLICATION_TAG_REAL
    · simp only [if_pos ht, if_true, if_neg h1] at hret ⊢
      refine ⟨by simp [ht], _, rfl, rfl, rfl, initialize_initialized w, rfl, ?_⟩
      exact (object_find_assign_same _ _ _ _ _ hfi).trans rfl
    · simp only [if_neg ht, if_true, if_neg h1] at hret; cases hret

theorem encode_present_value (w : World) (ot inst array_index : Nat) (o : ObjectRef)
    (hobj : is_gpio_output ot inst = true) (hfind : object_find w.objects ot inst = some o) :
    (encode_object_property_value w ot inst PROP_PRESENT_VALUE array_index).2 =
      if ot = OBJECT_BINARY_OUTPUT then encode_tagged_enumerated o.value.enumerated
      else encode_tagged_real o.value.real := by
  have hc : ¬ (is_gpio_output ot inst = true ∧
      (PROP_PRESENT_VALUE = PROP_PRIORITY_ARRAY ∨ PROP_PRESENT_VALUE = PROP_RELINQUISH_DEFAULT)) := by
    rintro ⟨_, h | h⟩ <;> exact absurd h (by decide)
  unfold encode_object_property_value
  simp only [hfind, if_neg hc]
  rcases is_gpio_output_cases _ _ hobj with ⟨ho, _, _⟩ | ⟨ho, _, _⟩ | ⟨ho, _, _⟩ <;>
    subst ho <;> rfl

/-- C6: after a successful write of Present-Value or Relinquish-Default on a GPIO output, the
present value in the object record equals what the resolver returns for the resulting
slots and relinquish-default, and `encode_object_property_value` encodes exactly that
value for Present-Value. -/
theorem present_value_tracks_resolver (w : World) (object_type inst property tag value P : Nat)
    (hreach : Reachable w) (hobj : is_gpio_output object_type inst = true)
    (hprop : property = PROP_PRESENT_VALUE ∨ property = PROP_RELINQUISH_DEFAULT)
    (hret : (write_object_property_value w object_type inst property tag value P).2 = 0) :
    (object_find (write_object_property_value w object_type inst property tag value P).1.objects
        object_type inst).map (fun obj => obj.value) =
      some (calculate_effective_value
        (write_object_property_value w object_type inst property tag value P).1
        object_type inst) ∧
    ∀ array_index,
      (encode_object_property_value
          (write_object_property_value w object_type inst property tag value P).1
          object_type inst PROP_PRESENT_VALUE array_index).2 =
        if object_type = OBJECT_BINARY_OUTPUT then
          encode_tagged_enumerated (calculate_effective_value
            (write_object_property_value w object_type inst property tag value P).1
            object_type inst).enumerated
        else
          encode_tagged_real (calculate_effective_value
            (write_object_property_value w object_type inst property tag value P).1
            object_type inst).real := by
  obtain ⟨o, hfind⟩ := write_status_found _ _ _ _ _ _ _ hret
  obtain ⟨idx, hidx⟩ := gpio_index _ _ hobj
  have hok := reachable_binary_values w hreach
  have key : ∃ w2, write_object_property_value w object_type inst property tag value P = (w2, 0) ∧
      object_find w2.objects object_type inst =
        some { o with value := calculate_effective_value w2 object_type inst } := by
    rcases hprop with hp | hp
    · subst hp
      obtain ⟨hP, w1, hst⟩ := write_pv_status w object_type inst tag value P o idx hfind hobj hidx hret
      obtain ⟨w2, hw2, _, _, _, _, hrec⟩ :=
        write_pv_record w object_type inst tag value P o idx w1 hok hfind hobj hidx hP hst
      exact ⟨w2, hw2, hrec⟩
    · subst hp
      obtain ⟨_, w2, hw2, _, _, _, _, hrec⟩ :=
        write_rd_fields w object_type inst tag value P o idx hfind hobj hidx hret
      exact ⟨w2, hw2, hrec⟩
  obtain ⟨w2, hw2, hrec⟩ := key
  rw [hw2]
  refine ⟨?_, fun array_index => ?_⟩
  · show (object_find w2.objects object_type inst).map (fun obj => obj.value) = _
    rw [hrec]; rfl
  · exact encode_present_value w2 object_type inst array_index _ hobj hrec

/-- Witness for C6: ACTIVE written to BO 4018 at priority 8 right after start-up. -/
theorem present_value_tracks_resolver_witness :
    Reachable scenario_start ∧ is_gpio_output OBJECT_BINARY_OUTPUT 4018 = true ∧
    (write_object_property_value scenario_start OBJECT_BINARY_OUTPUT 4018 PROP_PRESENT_VALUE
        BACNET_APPLICATION_TAG_ENUMERATED 1 8).2 = 0 ∧
    (object_find (write_object_property_value scenario_start OBJECT_BINARY_OUTPUT 4018
        PROP_PRESENT_VALUE BACNET_APPLICATION_TAG_ENUMERATED 1 8).1.objects
        OBJECT_BINARY_OUTPUT 4018).map (fun obj => obj.value) =
      some (calculate_effective_value
        (write_object_property_value scenario_start OBJECT_BINARY_OUTPUT 4018
          PROP_PRESENT_VALUE BACNET_APPLICATION_TAG_ENUMERATED 1 8).1
        OBJECT_BINARY_OUTPUT 4018) ∧
    ∀ array_index,
      (encode_object_property_value
          (write_object_property_value scenario_start OBJECT_BINARY_OUTPUT 4018
            PROP_PRESENT_VALUE BACNET_APPLICATION_TAG_ENUMERATED 1 8).1
          OBJECT_BINARY_OUTPUT 4018 PROP_PRESENT_VALUE array_index).2 =
        if OBJECT_BINARY_OUTPUT = OBJECT_BINARY_OUTPUT then
          encode_tagged_enumerated (calculate_effective_value
            (write_object_property_value scenario_start OBJECT_BINARY_OUTPUT 4018
              PROP_PRESENT_VALUE BACNET_APPLICATION_TAG_ENUMERATED 1 8).1
            OBJECT_BINARY_OUTPUT 4018).enumerated
        else
          encode_tagged_real (calculate_effective_value
            (write_object_property_value scenario_start OBJECT_BINARY_OUTPUT 4018
              PROP_PRESENT_VALUE BACNET_APPLICATION_TAG_ENUMERATED 1 8).1
            OBJECT_BINARY_OUTPUT 4018).real :=
  ⟨Reachable.start _ _ _ (by decide), by decide, by decide,
    present_value_tracks_resolver scenario_start OBJECT_BINARY_OUTPUT 4018 PROP_PRESENT_VALUE
      BACNET_APPLICATION_TAG_ENUMERATED 1 8 (Reachable.start _ _ _ (by decide)) (by decide) (Or.inl rfl)
      (by decide)⟩

theorem get_priority_value_congr (w w2 : World) (inst Q : Nat) (x : ObjectValue)
    (hi : w.arrays_initialized = true) (hi2 : w2.arrays_initialized = true)
    (h1 : w2.priority_null = w.priority_null) (h2 : w2.priority_arrays = w.priority_arrays) :
    (get_priority_value w2 inst Q x).2 = (get_priority_value w inst Q x).2 := by
  simp only [get_priority_value, initialize_idem w hi, initialize_idem w2 hi2, h1, h2]
  cases get_priority_index inst with
  | none => rfl
  | some idx => simp only []; split_ifs <;> rfl

/-- C7: a successful write of Relinquish-Default with a value v of the object's class on a GPIO
output makes v the relinquish-default that `gpio_encode_relinquish_default` reads back and
that the resolver falls back to, and leaves all sixteen priority slots of every object as
they were. -/
theorem write_relinquish_default_replaces (w : World) (object_type inst tag v P : Nat)
    (hobj : is_gpio_output object_type inst = true)
    (hclass : (object_type = OBJECT_BINARY_OUTPUT ∧ tag = BACNET_APPLICATION_TAG_ENUMERATED ∧ v ≤ 1) ∨
              (object_type = OBJECT_ANALOG_OUTPUT ∧ tag = BACNET_APPLICATION_TAG_REAL))
    (hret : (write_object_property_value w object_type inst PROP_RELINQUISH_DEFAULT tag v P).2 = 0) :
    gpio_encode_relinquish_default
        (write_object_property_value w object_type inst PROP_RELINQUISH_DEFAULT tag v P).1
        object_type inst =
      (if object_type = OBJECT_BINARY_OUTPUT then encode_tagged_enumerated v
       else encode_tagged_real v) ∧
    (∃ pri_idx, get_priority_index inst = some pri_idx ∧
      calculate_effective_value
          (write_object_property_value w object_type inst PROP_RELINQUISH_DEFAULT tag v P).1
          object_type inst =
        first_non_null
          ((write_object_property_value w object_type inst PROP_RELINQUISH_DEFAULT tag v P).1.priority_null pri_idx)
          ((write_object_property_value w object_type inst PROP_RELINQUISH_DEFAULT tag v P).1.priority_arrays pri_idx)
          { bits := v } (List.finRange 16) ∧
      ((∀ i, (write_object_property_value w object_type inst PROP_RELINQUISH_DEFAULT tag v P).1.priority_null
            pri_idx i = true) →
        calculate_effective_value
          (write_object_property_value w object_type inst PROP_RELINQUISH_DEFAULT tag v P).1
          object_type inst = { bits := v })) ∧
    (∀ inst2 Q x,
      (get_priority_value
          (write_object_property_value w object_type inst PROP_RELINQUISH_DEFAULT tag v P).1
          inst2 Q x).2 = (get_priority_value w inst2 Q x).2) ∧
    (w.arrays_initialized = true →
      (write_object_property_value w object_type inst PROP_RELINQUISH_DEFAULT tag v P).1.priority_null
          = w.priority_null ∧
      (write_object_property_value w object_type inst PROP_RELINQUISH_DEFAULT tag v P).1.priority_arrays
          = w.priority_arrays) := by
  obtain ⟨o, hfind⟩ := write_status_found _ _ _ _ _ _ _ hret
  obtain ⟨idx, hidx⟩ := gpio_index _ _ hobj
  obtain ⟨_, w2, hw2, hnull, harr, hinit, hrd, _⟩ :=
    write_rd_fields w object_type inst tag v P o idx hfind hobj hidx hret
  have hv : (if object_type = OBJECT_BINARY_OUTPUT then (if v ≠ 0 then 1 else 0) else v) = v := by
    rcases hclass with ⟨h, _, hv⟩ | ⟨h, _⟩
    · rw [if_pos h]; exact norm_of_le v hv
    · subst h; rfl
  rw [hv] at hrd
  have hdef : w2.relinquish_defaults (Fin.castLE (by decide) idx) = { bits := v } := by
    rw [hrd, Function.update_same]
  have heff : calculate_effective_value w2 object_type inst =
      first_non_null (w2.priority_null idx) (w2.priority_arrays idx) { bits := v }
        (List.finRange 16) := by
    simp only [calculate_effective_value, hidx, hdef]
  rw [hw2]
  refine ⟨?_, ⟨idx, hidx, heff, fun hall => ?_⟩, fun inst2 Q x => ?_, fun hi => ?_⟩
  · show gpio_encode_relinquish_default w2 object_type inst = _
    rcases is_gpio_output_cases _ _ hobj with ⟨ho, hi, hx⟩ | ⟨ho, hi, hx⟩ | ⟨ho, hi, hx⟩ <;>
      (rw [hx] at hidx; cases hidx; subst ho hi) <;>
      simp only [gpio_encode_relinquish_default] <;>
      first
      | (have h0 : w2.relinquish_defaults 0 = { bits := v } := hdef
         rw [h0]; rfl)
      | (have h1 : w2.relinquish_defaults 1 = { bits := v } := hdef
         rw [h1]; rfl)
      | (have h2 : w2.relinquish_defaults 2 = { bits := v } := hdef
         rw [h2]; rfl)
  · rw [heff]
    exact first_non_null_all_null _ _ _ _ (fun i _ => hall i)
  · show (get_priority_value w2 inst2 Q x).2 = _
    rw [get_priority_value_init w]
    exact get_priority_value_congr (initialize_priority_arrays w) w2 inst2 Q x
      (initialize_initialized w) hinit hnull harr
  · show w2.priority_null = _ ∧ w2.priority_arrays = _
    rw [hnull, harr, initialize_idem w hi]
    exact ⟨rfl, rfl⟩

/-- Witness for C7: the relinquish-default of BO 4018 set to ACTIVE while priority 8 is occupied. -/
theorem write_relinquish_default_replaces_witness :
    is_gpio_output OBJECT_BINARY_OUTPUT 4018 = true ∧
    (write_object_property_value scenario_active8 OBJECT_BINARY_OUTPUT 4018
        PROP_RELINQUISH_DEFAULT BACNET_APPLICATION_TAG_ENUMERATED 1 16).2 = 0 ∧
    gpio_encode_relinquish_default
        (write_object_property_value scenario_active8 OBJECT_BINARY_OUTPUT 4018
          PROP_RELINQUISH_DEFAULT BACNET_APPLICATION_TAG_ENUMERATED 1 16).1
        OBJECT_BINARY_OUTPUT 4018 = encode_tagged_enumerated 1 ∧
    (∀ inst2 Q x,
      (get_priority_value
          (write_object_property_value scenario_active8 OBJECT_BINARY_OUTPUT 4018
            PROP_RELINQUISH_DEFAULT BACNET_APPLICATION_TAG_ENUMERATED 1 16).1
          inst2 Q x).2 = (get_priority_value scenario_active8 inst2 Q x).2) :=
  ⟨by decide, by decide,
    (write_relinquish_default_replaces scenario_active8 OBJECT_BINARY_OUTPUT 4018
      BACNET_APPLICATION_TAG_ENUMERATED 1 16 (by decide) (Or.inl ⟨rfl, rfl, by decide⟩)
      (by decide)).1,
    (write_relinquish_default_replaces scenario_active8 OBJECT_BINARY_OUTPUT 4018
      BACNET_APPLICATION_TAG_ENUMERATED 1 16 (by decide) (Or.inl ⟨rfl, rfl, by decide⟩)
      (by decide)).2.2.1⟩

theorem get_priority_index_inj (inst inst2 : Nat) (idx : Fin 3)
    (h1 : get_priority_index inst = some idx) (h2 : get_priority_index inst2 = some idx) :
    inst2 = inst := by
  unfold get_priority_index at h1 h2
  split_ifs at h1 h2 <;> first | omega | (cases h1; cases h2)

/-- Slots other than slot P of `inst` read the same after a store into slot P of `inst`. -/
theorem get_priority_value_frame (w w2 : World) (inst P : Nat) (idx : Fin 3) (b : Bool)
    (val : ObjectValue) (hidx : get_priority_index inst = some idx) (hP : 1 ≤ P ∧ P ≤ 16)
    (hinit : w2.arrays_initialized = true)
    (hnull : w2.priority_null = Function.update (initialize_priority_arrays w).priority_null idx
      (Function.update ((initialize_priority_arrays w).priority_null idx) (slot P) b))
    (harr : w2.priority_arrays = Function.update (initialize_priority_arrays w).priority_arrays idx
      (Function.update ((initialize_priority_arrays w).priority_arrays idx) (slot P) val))
    (inst2 Q : Nat) (x : ObjectValue) (hne : inst2 ≠ inst ∨ Q ≠ P) :
    (get_priority_value w2 inst2 Q x).2 = (get_priority_value w inst2 Q x).2 := by
  by_cases hQ2 : Q < 1 ∨ Q > 16
  · rw [get_priority_value_range _ _ _ _ hQ2, get_priority_value_range _ _ _ _ hQ2]
  · have hQ3 : 1 ≤ Q ∧ Q ≤ 16 := by omega
    cases hidx2 : get_priority_index inst2 with
    | none => simp only [get_priority_value, hidx2]
    | some idx2 =>
      rw [get_priority_value_slot w2 inst2 Q x idx2 hinit hidx2 hQ3, hnull, harr,
        get_priority_value_init w,
        get_priority_value_slot _ inst2 Q x idx2 (initialize_initialized w) hidx2 hQ3]
      by_cases hi : idx2 = idx
      · subst hi
        have hQP : Q ≠ P := by
          rcases hne with h | h
          · exact absurd (get_priority_index_inj inst inst2 idx2 hidx hidx2) h
          · exact h
        have hs : slot Q ≠ slot P := slot_ne P Q hP hQ3 hQP
        simp only [Function.update_same, Function.update_noteq hs]
      · simp only [Function.update_noteq hi]

theorem write_pv_other_fields (w : World) (ot inst tag v P : Nat)
    (hobj : is_gpio_output ot inst = false) :
    ((write_object_property_value w ot inst PROP_PRESENT_VALUE tag v P).1.priority_null =
        w.priority_null ∧
      (write_object_property_value w ot inst PROP_PRESENT_VALUE tag v P).1.priority_arrays =
        w.priority_arrays ∧
      (write_object_property_value w ot inst PROP_PRESENT_VALUE tag v P).1.arrays_initialized =
        w.arrays_initialized) ∨
    ((write_object_property_value w ot inst PROP_PRESENT_VALUE tag v P).1.priority_null =
        (initialize_priority_arrays w).priority_null ∧
      (write_object_property_value w ot inst PROP_PRESENT_VALUE tag v P).1.priority_arrays =
        (initialize_priority_arrays w).priority_arrays ∧
      (write_object_property_value w ot inst PROP_PRESENT_VALUE tag v P).1.arrays_initialized =
        true) := by
  unfold write_object_property_value
  cases object_find w.objects ot inst with
  | none => left; exact ⟨rfl, rfl, rfl⟩
  | some o =>
    right
    have hn : ¬ (is_gpio_output ot inst = true) := by simp [hobj]
    simp only [if_true, if_neg hn]
    split_ifs <;> exact ⟨rfl, rfl, initialize_initialized w⟩

theorem get_priority_value_same (w w2 : World) (inst Q : Nat) (x : ObjectValue)
    (h : (w2.priority_null = w.priority_null ∧ w2.priority_arrays = w.priority_arrays ∧
            w2.arrays_initialized = w.arrays_initialized) ∨
         (w2.priority_null = (initialize_priority_arrays w).priority_null ∧
            w2.priority_arrays = (initialize_priority_arrays w).priority_arrays ∧
            w2.arrays_initialized = true)) :
    (get_priority_value w2 inst Q x).2 = (get_priority_value w inst Q x).2 := by
  rcases h with ⟨h1, h2, h3⟩ | ⟨h1, h2, h3⟩
  · have : (initialize_priority_arrays w2).priority_null = (initialize_priority_arrays w).priority_null ∧
        (initialize_priority_arrays w2).priority_arrays = (initialize_priority_arrays w).priority_arrays := by
      unfold initialize_priority_arrays
      rw [h3]
      split_ifs
      · exact ⟨h1, h2⟩
      · exact ⟨rfl, rfl⟩
    rw [get_priority_value_init w2, get_priority_value_init w]
    exact get_priority_value_congr _ _ inst Q x (initialize_initialized w)
      (initialize_initialized w2) this.1 this.2
  · rw [get_priority_value_init w]
    exact get_priority_value_congr _ _ inst Q x (initialize_initialized w) h3 h1 h2

theorem write_pv_other_null_rejected (w : World) (ot inst v P : Nat)
    (hobj : is_gpio_output ot inst = false) :
    (write_object_property_value w ot inst PROP_PRESENT_VALUE BACNET_APPLICATION_TAG_NULL v P).2
      ≠ 0 := by
  unfold write_object_property_value
  cases object_find w.objects ot inst with
  | none => simp
  | some o =>
    have hn : ¬ (is_gpio_output ot inst = true) := by simp [hobj]
    have h1 : ¬ (BACNET_APPLICATION_TAG_NULL = BACNET_APPLICATION_TAG_ENUMERATED) := by decide
    have h2 : ¬ (BACNET_APPLICATION_TAG_NULL = BACNET_APPLICATION_TAG_REAL) := by decide
    simp only [if_true, if_neg hn, if_neg h1, if_neg h2]
    split_ifs <;> simp

/-- The effect on the priority arrays of an accepted Present-Value write on a GPIO output:
status 0, slot P of the object takes the value (or Null), nothing else changes. -/
theorem write_pv_gpio_effect (w : World) (ot inst tag v P : Nat) (o : ObjectRef)
    (hP : 1 ≤ P ∧ P ≤ 16) (hfind : object_find w.objects ot inst = some o)
    (hobj : is_gpio_output ot inst = true)
    (hval : tag = BACNET_APPLICATION_TAG_NULL ∨
        (ot = OBJECT_BINARY_OUTPUT ∧ tag = BACNET_APPLICATION_TAG_ENUMERATED ∧ v ≤ 1) ∨
        (ot = OBJECT_ANALOG_OUTPUT ∧ tag = BACNET_APPLICATION_TAG_REAL)) :
    (write_object_property_value w ot inst PROP_PRESENT_VALUE tag v P).2 = 0 ∧
    (∀ x, (get_priority_value
            (write_object_property_value w ot inst PROP_PRESENT_VALUE tag v P).1 inst P x).2 =
          if tag = BACNET_APPLICATION_TAG_NULL then (true, x) else (false, { bits := v })) ∧
    (∀ inst2 Q x, inst2 ≠ inst ∨ Q ≠ P →
        (get_priority_value
            (write_object_property_value w ot inst PROP_PRESENT_VALUE tag v P).1 inst2 Q x).2 =
          (get_priority_value w inst2 Q x).2) := by
  obtain ⟨idx, hidx⟩ := gpio_index _ _ hobj
  rcases hval with ht | hclass
  · subst ht
    obtain ⟨w2, hw2, hnull, harr, _, hinit, _⟩ :=
      write_pv_gpio_fields w ot inst BACNET_APPLICATION_TAG_NULL v P o idx _ hfind
        hobj hidx hP (store_priority_null _ idx ot v P) (initialize_objects w)
    have hinit2 : w2.arrays_initialized = true := by rw [hinit]; exact initialize_initialized w
    rw [hw2]
    refine ⟨rfl, fun x => ?_, fun inst2 Q x hne => ?_⟩
    · rw [get_priority_value_slot w2 inst P x idx hinit2 hidx hP, hnull]
      simp
    · refine get_priority_value_frame w w2 inst P idx true
        ((initialize_priority_arrays w).priority_arrays idx (slot P)) hidx hP hinit2 hnull ?_
        inst2 Q x hne
      rw [harr]
      show (initialize_priority_arrays w).priority_arrays = _
      rw [Function.update_eq_self, Function.update_eq_self]
  · obtain ⟨w2, hw2, hnull, harr, _, hinit, _⟩ :=
      write_pv_gpio_fields w ot inst tag v P o idx _ hfind hobj hidx hP
        (store_priority_typed _ idx ot tag v P hclass) (initialize_objects w)
    have hinit2 : w2.arrays_initialized = true := by rw [hinit]; exact initialize_initialized w
    have htag : tag ≠ BACNET_APPLICATION_TAG_NULL := by
      rcases hclass with ⟨_, h, _⟩ | ⟨_, h⟩ <;> (rw [h]; decide)
    rw [hw2]
    refine ⟨rfl, fun x => ?_, fun inst2 Q x hne => ?_⟩
    · rw [get_priority_value_slot w2 inst P x idx hinit2 hidx hP, hnull, harr, if_neg htag]
      simp
    · exact get_priority_value_frame w w2 inst P idx false { bits := v } hidx hP hinit2
        hnull harr inst2 Q x hne

theorem write_pv_other_type_rejected (w : World) (ot inst tag v P : Nat)
    (h1 : ot ≠ OBJECT_BINARY_OUTPUT) (h2 : ot ≠ OBJECT_ANALOG_OUTPUT) :
    (write_object_property_value w ot inst PROP_PRESENT_VALUE tag v P).2 ≠ 0 := by
  have hn : ¬ (is_gpio_output ot inst = true) := by
    intro h
    rcases is_gpio_output_cases _ _ h with ⟨ho, _, _⟩ | ⟨ho, _, _⟩ | ⟨ho, _, _⟩
    · exact h1 ho
    · exact h1 ho
    · exact h2 ho
  unfold write_object_property_value
  cases object_find w.objects ot inst with
  | none => simp
  | some o => simp only [if_true, if_neg hn, if_neg h1, if_neg h2]; simp

/-- C10, as the code has it: commandability is decided by object type AND instance number.
For the GPIO outputs (BO 4018, BO 4026, AO 2021) present in the store, a Present-Value write
at P in 1..16 of Null or of a value of the object's class returns 0 and changes slot P of
that object's priority array only.  For every other object a Present-Value write changes no
priority slot and a Null write is rejected; for an object that is neither a Binary-Output
nor an Analog-Output every Present-Value write is rejected. -/
theorem commandable_by_type_and_instance (w : World) (object_type inst tag v P : Nat)
    (o : ObjectRef) (hP : 1 ≤ P ∧ P ≤ 16)
    (hfind : object_find w.objects object_type inst = some o) :
    (is_gpio_output object_type inst = true →
      (tag = BACNET_APPLICATION_TAG_NULL ∨
        (object_type = OBJECT_BINARY_OUTPUT ∧ tag = BACNET_APPLICATION_TAG_ENUMERATED ∧ v ≤ 1) ∨
        (object_type = OBJECT_ANALOG_OUTPUT ∧ tag = BACNET_APPLICATION_TAG_REAL)) →
      (write_object_property_value w object_type inst PROP_PRESENT_VALUE tag v P).2 = 0 ∧
      (∀ x, (get_priority_value
              (write_object_property_value w object_type inst PROP_PRESENT_VALUE tag v P).1
              inst P x).2 =
            if tag = BACNET_APPLICATION_TAG_NULL then (true, x) else (false, { bits := v })) ∧
      (∀ inst2 Q x, inst2 ≠ inst ∨ Q ≠ P →
          (get_priority_value
              (write_object_property_value w object_type inst PROP_PRESENT_VALUE tag v P).1
              inst2 Q x).2 = (get_priority_value w inst2 Q x).2)) ∧
    (is_gpio_output object_type inst = false →
      (∀ inst2 Q x,
          (get_priority_value
              (write_object_property_value w object_type inst PROP_PRESENT_VALUE tag v P).1
              inst2 Q x).2 = (get_priority_value w inst2 Q x).2) ∧
      (tag = BACNET_APPLICATION_TAG_NULL →
        (write_object_property_value w object_type inst PROP_PRESENT_VALUE tag v P).2 ≠ 0)) ∧
    (object_type ≠ OBJECT_BINARY_OUTPUT → object_type ≠ OBJECT_ANALOG_OUTPUT →
      (write_object_property_value w object_type inst PROP_PRESENT_VALUE tag v P).2 ≠ 0) := by
  refine ⟨fun hobj hval => ?_, fun hobj => ⟨fun inst2 Q x => ?_, fun ht => ?_⟩,
    fun h1 h2 => write_pv_other_type_rejected w object_type inst tag v P h1 h2⟩
  · exact write_pv_gpio_effect w object_type inst tag v P o hP hfind hobj hval
  · exact get_priority_value_same w _ inst2 Q x
      (write_pv_other_fields w object_type inst tag v P hobj)
  · subst ht
    exact write_pv_other_null_rejected w object_type inst v P hobj

/-- Witness for C10: ACTIVE written at priority 8 to BO 4018 of the configured store. -/
theorem commandable_by_type_and_instance_witness :
    (1 ≤ 8 ∧ 8 ≤ 16) ∧
    object_find scenario_configured.objects OBJECT_BINARY_OUTPUT 4018 =
      some { type := OBJECT_BINARY_OUTPUT, inst := 4018, name := some "GPIO 18",
             value := { bits := 0 }, active := some "High", inactive := some "Low" } ∧
    is_gpio_output OBJECT_BINARY_OUTPUT 4018 = true ∧
    (write_object_property_value scenario_configured OBJECT_BINARY_OUTPUT 4018
        PROP_PRESENT_VALUE BACNET_APPLICATION_TAG_ENUMERATED 1 8).2 = 0 ∧
    (∀ x, (get_priority_value
            (write_object_property_value scenario_configured OBJECT_BINARY_OUTPUT 4018
              PROP_PRESENT_VALUE BACNET_APPLICATION_TAG_ENUMERATED 1 8).1 4018 8 x).2 =
          if BACNET_APPLICATION_TAG_ENUMERATED = BACNET_APPLICATION_TAG_NULL then (true, x)
          else (false, { bits := 1 })) ∧
    (∀ inst2 Q x, inst2 ≠ 4018 ∨ Q ≠ 8 →
        (get_priority_value
            (write_object_property_value scenario_configured OBJECT_BINARY_OUTPUT 4018
              PROP_PRESENT_VALUE BACNET_APPLICATION_TAG_ENUMERATED 1 8).1 inst2 Q x).2 =
          (get_priority_value scenario_configured inst2 Q x).2) :=
  ⟨by decide, by decide, by decide,
    (commandable_by_type_and_instance scenario_configured OBJECT_BINARY_OUTPUT 4018
      BACNET_APPLICATION_TAG_ENUMERATED 1 8
      { type := OBJECT_BINARY_OUTPUT, inst := 4018, name := some "GPIO 18",
        value := { bits := 0 }, active := some "High", inactive := some "Low" }
      (by decide) (by decide)).1 (by decide)
      (Or.inr (Or.inl ⟨rfl, rfl, by decide⟩))⟩

/-- C10 fails as stated: Binary-Output 4017 is present in the store, yet a Null write to its
Present-Value at priority 8 is rejected (status -3), and an Enumerated write at priority 8
is accepted without touching any priority array: the slot still reads Null and the value
went straight into the object record. -/
theorem commandable_not_by_type_alone :
    object_find scenario_configured.objects OBJECT_BINARY_OUTPUT 4017 =
      some { type := OBJECT_BINARY_OUTPUT, inst := 4017, name := some "GPIO 17",
             value := { bits := 0 }, active := some "High", inactive := some "Low" } ∧
    (write_object_property_value scenario_configured OBJECT_BINARY_OUTPUT 4017
        PROP_PRESENT_VALUE BACNET_APPLICATION_TAG_NULL 0 8).2 = -3 ∧
    (write_object_property_value scenario_configured OBJECT_BINARY_OUTPUT 4017
        PROP_PRESENT_VALUE BACNET_APPLICATION_TAG_ENUMERATED 1 8).2 = 0 ∧
    (get_priority_value
        (write_object_property_value scenario_configured OBJECT_BINARY_OUTPUT 4017
          PROP_PRESENT_VALUE BACNET_APPLICATION_TAG_ENUMERATED 1 8).1 4017 8 { bits := 0 }).2.1
      = true ∧
    (object_find
        (write_object_property_value scenario_configured OBJECT_BINARY_OUTPUT 4017
          PROP_PRESENT_VALUE BACNET_APPLICATION_TAG_ENUMERATED 1 8).1.objects
        OBJECT_BINARY_OUTPUT 4017).map (fun obj => obj.value) = some { bits := 1 } := by
  decide

theorem big_endian_one (a : Nat) (l : List Nat) : big_endian (a :: l) 1 = a % 2 ^ 32 := by
  simp [big_endian, byte, List.range, List.range.loop]

theorem big_endian_two (a b : Nat) (l : List Nat) :
    big_endian (a :: b :: l) 2 = (a * 256 + b) % 2 ^ 32 := by
  simp [big_endian, byte, List.range, List.range.loop]

theorem big_endian_three (a b c : Nat) (l : List Nat) :
    big_endian (a :: b :: c :: l) 3 = ((a * 256 + b) * 256 + c) % 2 ^ 32 := by
  simp [big_endian, byte, List.range, List.range.loop]

theorem big_endian_four (a b c d : Nat) (l : List Nat) :
    big_endian (a :: b :: c :: d :: l) 4 = (((a * 256 + b) * 256 + c) * 256 + d) % 2 ^ 32 := by
  simp [big_endian, byte, List.range, List.range.loop]

/-- Without bytes left before `service_len`, the priority is the default 16. -/
theorem decode_priority_at_end (buf : List Nat) (len off : Nat) (h : len ≤ off) :
    decode_priority buf len off = 16 := by
  unfold decode_priority
  have hn : ¬ (off < len ∧ decode_is_context_tag (List.drop off buf) 4 = true) := by
    rintro ⟨h1, _⟩; omega
  rw [if_neg hn]

/-- An encoded `[4]` priority decodes to its value when that is in 1..16, else to 16. -/
theorem decode_priority_encoded (buf tail : List Nat) (len off pv : Nat) (hlt : off < len)
    (hpv : pv < 2 ^ 32) (hdrop : buf.drop off = encode_context_unsigned 4 pv ++ tail) :
    decode_priority buf len off = if pv ≥ 1 ∧ pv ≤ 16 then pv else 16 := by
  unfold decode_priority
  simp only [← List.drop_drop, hdrop]
  unfold encode_context_unsigned unsigned_content
  by_cases h1 : pv < 256
  · simp [h1, hlt, decode_is_context_tag, decode_tag_number, byte, decode_tag_number_and_value,
      decode_unsigned, big_endian_one]
    have : pv % 4294967296 = pv := Nat.mod_eq_of_lt (by omega)
    rw [this]
  · by_cases h2 : pv < 65536
    · have e : (pv / 256 * 256 + pv % 256) % 4294967296 = pv := by omega
      simp [h1, h2, hlt, decode_is_context_tag, decode_tag_number, byte,
        decode_tag_number_and_value, decode_unsigned, big_endian_two, e]
    · by_cases h3 : pv < 16777216
      · have e : ((pv / 65536 * 256 + pv / 256 % 256) * 256 + pv % 256) % 4294967296 = pv := by
          omega
        simp [h1, h2, h3, hlt, decode_is_context_tag, decode_tag_number, byte,
          decode_tag_number_and_value, decode_unsigned, big_endian_three, e]
      · have e : (((pv / 16777216 % 256 * 256 + pv / 65536 % 256) * 256 + pv / 256 % 256) * 256
            + pv % 256) % 4294967296 = pv := by
          have : 2 ^ 32 = 4294967296 := by norm_num
          omega
        simp [h1, h2, h3, hlt, decode_is_context_tag, decode_tag_number, byte,
          decode_tag_number_and_value, decode_unsigned, big_endian_four, e]

theorem write_request_append (ot inst prop : Nat) (value rest : List Nat) :
    write_request ot inst prop value rest = write_request ot inst prop value [] ++ rest := by
  simp [write_request]

theorem write_request_drop (ot inst prop : Nat) (value rest : List Nat) :
    (write_request ot inst prop value rest).drop (write_request ot inst prop value []).length
      = rest := by
  rw [write_request_append ot inst prop value rest]
  exact List.drop_left _ _

theorem word_roundtrip (x : Nat) (h : x < 2 ^ 32) :
    (((x / 16777216 % 256 * 256 + x / 65536 % 256) * 256 + x / 256 % 256) * 256 + x % 256)
      % 4294967296 = x := by
  have : 2 ^ 32 = 4294967296 := by norm_num
  omega

/-- How `receive_writeproperty` reads a Present-Value request for a GPIO output that carries a
Null or a value of the object's class: it calls `write_object_property_value` with that
value and with the priority that `decode_priority` finds at the offset reached, which is
the end of the closing tag, or one byte further when a Null is followed by a byte that
looks like a closing tag. -/
theorem receive_writeproperty_eval (w : World) (ot inst : Nat) (val : PropertyValue)
    (rest : List Nat) (len id : Nat) (hobj : is_gpio_output ot inst = true)
    (hval : val.of_class ot) :
    ∃ off,
      receive_writeproperty w (write_request ot inst PROP_PRESENT_VALUE val.encode rest) len id =
        (send_write_response
          (write_object_property_value w ot inst PROP_PRESENT_VALUE val.tag val.word
            (decode_priority (write_request ot inst PROP_PRESENT_VALUE val.encode rest) len off)).1
          (write_object_property_value w ot inst PROP_PRESENT_VALUE val.tag val.word
            (decode_priority (write_request ot inst PROP_PRESENT_VALUE val.encode rest) len off)).2
          id, 0) ∧
      (off = (write_request ot inst PROP_PRESENT_VALUE val.encode []).length ∨
        (off = (write_request ot inst PROP_PRESENT_VALUE val.encode []).length + 1 ∧
          decode_is_closing_tag_number rest 3 = true)) := by
  rcases is_gpio_output_cases _ _ hobj with ⟨ho, hi, _⟩ | ⟨ho, hi, _⟩ | ⟨ho, hi, _⟩ <;>
    subst ho hi <;> cases val with
    | null =>
        by_cases hc : decode_is_closing_tag_number rest 3 = true
        · refine ⟨11, ?_, Or.inr ⟨by decide, hc⟩⟩
          simp [receive_writeproperty, write_request, encode_context_object_id,
            encode_context_enumerated, unsigned_content, encode_opening_tag, encode_closing_tag,
            PropertyValue.encode, PropertyValue.tag, PropertyValue.word,
            decode_is_context_tag, decode_tag_number, byte,
            decode_tag_number_and_value, decode_object_id, decode_enumerated,
            decode_is_opening_tag_number, decode_property_value,
            execute_write, big_endian_one, big_endian_four, hc,
            OBJECT_BINARY_OUTPUT, OBJECT_ANALOG_OUTPUT, PROP_PRESENT_VALUE,
            BACNET_APPLICATION_TAG_NULL, BACNET_APPLICATION_TAG_ENUMERATED,
            BACNET_APPLICATION_TAG_REAL]
        · refine ⟨10, ?_, Or.inl (by decide)⟩
          simp [receive_writeproperty, write_request, encode_context_object_id,
            encode_context_enumerated, unsigned_content, encode_opening_tag, encode_closing_tag,
            PropertyValue.encode, PropertyValue.tag, PropertyValue.word,
            decode_is_context_tag, decode_tag_number, byte,
            decode_tag_number_and_value, decode_object_id, decode_enumerated,
            decode_is_opening_tag_number, decode_property_value,
            execute_write, big_endian_one, big_endian_four, hc,
            OBJECT_BINARY_OUTPUT, OBJECT_ANALOG_OUTPUT, PROP_PRESENT_VALUE,
            BACNET_APPLICATION_TAG_NULL, BACNET_APPLICATION_TAG_ENUMERATED,
            BACNET_APPLICATION_TAG_REAL]
    | enumerated v =>
        first
        | exact absurd hval.1 (by decide)
        | (obtain ⟨_, hv⟩ := hval
           have hv1 : v < 256 := by omega
           have hv2 : v % 4294967296 = v := Nat.mod_eq_of_lt (by omega)
           refine ⟨11, ?_, Or.inl (by simp [write_request, encode_context_object_id,
             encode_context_enumerated, unsigned_content, encode_opening_tag,
             encode_closing_tag, PropertyValue.encode, encode_tagged_enumerated, hv1,
             PROP_PRESENT_VALUE])⟩
           simp [receive_writeproperty, write_request, encode_context_object_id,
             encode_context_enumerated, unsigned_content, encode_opening_tag, encode_closing_tag,
             PropertyValue.encode, PropertyValue.tag, PropertyValue.word,
             encode_tagged_enumerated, hv1, hv2,
             decode_is_context_tag, decode_tag_number, byte,
             decode_tag_number_and_value, decode_object_id, decode_enumerated,
             decode_is_opening_tag_number, decode_property_value, decode_is_closing_tag_number,
             execute_write, big_endian_one, big_endian_four,
             OBJECT_BINARY_OUTPUT, OBJECT_ANALOG_OUTPUT, PROP_PRESENT_VALUE,
             BACNET_APPLICATION_TAG_NULL, BACNET_APPLICATION_TAG_ENUMERATED,
             BACNET_APPLICATION_TAG_REAL])
    | real bits =>
        first
        | exact absurd hval.1 (by decide)
        | (obtain ⟨_, hb⟩ := hval
           have hb2 := word_roundtrip bits hb
           refine ⟨14, ?_, Or.inl (by simp [write_request, encode_context_object_id,
             encode_context_enumerated, unsigned_content, encode_opening_tag,
             encode_closing_tag, PropertyValue.encode, encode_tagged_real,
             PROP_PRESENT_VALUE])⟩
           simp [receive_writeproperty, write_request, encode_context_object_id,
             encode_context_enumerated, unsigned_content, encode_opening_tag, encode_closing_tag,
             PropertyValue.encode, PropertyValue.tag, PropertyValue.word,
             encode_tagged_real, hb2,
             decode_is_context_tag, decode_tag_number, byte,
             decode_tag_number_and_value, decode_object_id, decode_enumerated,
             decode_is_opening_tag_number, decode_property_value, decode_is_closing_tag_number,
             decode_real, execute_write, big_endian_one, big_endian_four,
             OBJECT_BINARY_OUTPUT, OBJECT_ANALOG_OUTPUT, PROP_PRESENT_VALUE,
             BACNET_APPLICATION_TAG_NULL, BACNET_APPLICATION_TAG_ENUMERATED,
             BACNET_APPLICATION_TAG_REAL])

theorem gowp_io_frame (w : World) (ot inst prop tag v p : Nat) :
    (gpio_objects_write_property w ot inst prop tag v p).1.sent = w.sent ∧
    (gpio_objects_write_property w ot inst prop tag v p).1.pdu_pool = w.pdu_pool := by
  unfold gpio_objects_write_property
  cases object_find w.objects ot inst with
  | none => exact ⟨rfl, rfl⟩
  | some o =>
    cases gpio_get_object_index inst with
    | none => simp only []; split_ifs <;> exact ⟨rfl, rfl⟩
    | some k => simp only []; split_ifs <;> exact ⟨rfl, rfl⟩

theorem initialize_io (w : World) :
    (initialize_priority_arrays w).sent = w.sent ∧
    (initialize_priority_arrays w).pdu_pool = w.pdu_pool := by
  unfold initialize_priority_arrays; split_ifs <;> exact ⟨rfl, rfl⟩

theorem store_priority_io (w w1 : World) (idx : Fin 3) (ot tag v P : Nat)
    (h : store_priority w idx ot tag v P = some w1) :
    w1.sent = w.sent ∧ w1.pdu_pool = w.pdu_pool := by
  unfold store_priority at h
  split_ifs at h <;> cases h <;> exact ⟨rfl, rfl⟩

/-- `write_object_property_value` sends nothing and leaves the APDU pool alone. -/
theorem write_io_frame (w : World) (ot inst prop tag v P : Nat) :
    (write_object_property_value w ot inst prop tag v P).1.sent = w.sent ∧
    (write_object_property_value w ot inst prop tag v P).1.pdu_pool = w.pdu_pool := by
  have hI := initialize_io w
  unfold write_object_property_value
  cases object_find w.objects ot inst with
  | none => exact ⟨rfl, rfl⟩
  | some o =>
    simp only []
    by_cases hpv : prop = PROP_PRESENT_VALUE
    · rw [if_pos hpv]
      by_cases hobj : is_gpio_output ot inst = true
      · rw [if_pos hobj]
        cases get_priority_index inst with
        | none => exact hI
        | some idx =>
          simp only []
          by_cases hP : P < 1 ∨ P > 16
          · rw [if_pos hP]; exact hI
          · rw [if_neg hP]
            cases hst : store_priority (initialize_priority_arrays w) idx ot tag v P with
            | none => exact hI
            | some w1 =>
              obtain ⟨s1, s2⟩ := store_priority_io _ _ _ _ _ _ _ hst
              simp only []
              split_ifs
              · obtain ⟨g1, g2⟩ := gowp_io_frame
                  { w1 with objects := object_assign w1.objects ot inst (calculate_effective_value w1 ot inst) }
                  ot inst PROP_PRESENT_VALUE BACNET_APPLICATION_TAG_ENUMERATED
                  (calculate_effective_value w1 ot inst).enumerated P
                exact ⟨g1.trans (s1.trans hI.1), g2.trans (s2.trans hI.2)⟩
              · obtain ⟨g1, g2⟩ := gowp_io_frame
                  { w1 with objects := object_assign w1.objects ot inst (calculate_effective_value w1 ot inst) }
                  ot inst PROP_PRESENT_VALUE BACNET_APPLICATION_TAG_REAL
                  (calculate_effective_value w1 ot inst).real P
                exact ⟨g1.trans (s1.trans hI.1), g2.trans (s2.trans hI.2)⟩
      · rw [if_neg hobj]
        split_ifs <;> exact hI
    · rw [if_neg hpv]
      split_ifs <;> exact hI

theorem send_simple_ack_sent (w : World) (invoke_id service_choice : Nat)
    (h : 0 < w.pdu_pool) :
    (send_simple_ack w invoke_id service_choice).sent =
      w.sent ++ [[PDU_TYPE_SIMPLE_ACK, invoke_id, service_choice]] := by
  unfold send_simple_ack pdu_alloc
  have hn : ¬ (w.pdu_pool = 0) := by omega
  simp only [if_neg hn]
  rfl

theorem get_priority_value_engine (w w2 : World) (h : same_engine w2 w) (inst Q : Nat)
    (x : ObjectValue) : (get_priority_value w2 inst Q x).2 = (get_priority_value w inst Q x).2 :=
  get_priority_value_same w w2 inst Q x (Or.inl ⟨h.2.2.1, h.2.1, h.2.2.2.2.1⟩)

theorem of_class_tag (ot : Nat) (val : PropertyValue) (h : val.of_class ot) :
    val.tag = BACNET_APPLICATION_TAG_NULL ∨
      (ot = OBJECT_BINARY_OUTPUT ∧ val.tag = BACNET_APPLICATION_TAG_ENUMERATED ∧ val.word ≤ 1) ∨
      (ot = OBJECT_ANALOG_OUTPUT ∧ val.tag = BACNET_APPLICATION_TAG_REAL) := by
  cases val with
  | null => exact Or.inl rfl
  | enumerated v => exact Or.inr (Or.inl ⟨h.1, rfl, h.2⟩)
  | real bits => exact Or.inr (Or.inr ⟨h.1, rfl⟩)

theorem tag_null_iff (val : PropertyValue) :
    val.tag = BACNET_APPLICATION_TAG_NULL ↔ val = PropertyValue.null := by
  cases val <;> simp [PropertyValue.tag, BACNET_APPLICATION_TAG_NULL,
    BACNET_APPLICATION_TAG_ENUMERATED, BACNET_APPLICATION_TAG_REAL]

/-- A request whose decoded priority is P in 1..16, for a GPIO output in the store and a
value of its class: SimpleACK, slot P takes the value, nothing else changes. -/
theorem receive_writeproperty_effect (w : World) (ot inst : Nat) (val : PropertyValue)
    (rest : List Nat) (len id P : Nat) (o : ObjectRef)
    (hobj : is_gpio_output ot inst = true) (hval : val.of_class ot)
    (hfind : object_find w.objects ot inst = some o) (hpool : 0 < w.pdu_pool)
    (hP : 1 ≤ P ∧ P ≤ 16)
    (hprio : ∀ off, (off = (write_request ot inst PROP_PRESENT_VALUE val.encode []).length ∨
        (off = (write_request ot inst PROP_PRESENT_VALUE val.encode []).length + 1 ∧
          decode_is_closing_tag_number rest 3 = true)) →
        decode_priority (write_request ot inst PROP_PRESENT_VALUE val.encode rest) len off = P) :
    (receive_writeproperty w (write_request ot inst PROP_PRESENT_VALUE val.encode rest)
        len id).1.sent =
      w.sent ++ [[PDU_TYPE_SIMPLE_ACK, id, SERVICE_CONFIRMED_WRITE_PROPERTY]] ∧
    (∀ x, (get_priority_value
            (receive_writeproperty w (write_request ot inst PROP_PRESENT_VALUE val.encode rest)
              len id).1 inst P x).2 =
          if val = PropertyValue.null then (true, x) else (false, { bits := val.word })) ∧
    (∀ inst2 Q x, inst2 ≠ inst ∨ Q ≠ P →
        (get_priority_value
            (receive_writeproperty w (write_request ot inst PROP_PRESENT_VALUE val.encode rest)
              len id).1 inst2 Q x).2 = (get_priority_value w inst2 Q x).2) := by
  obtain ⟨off, heq, hoff⟩ := receive_writeproperty_eval w ot inst val rest len id hobj hval
  rw [heq, hprio off hoff]
  obtain ⟨hst, hslot, hframe⟩ :=
    write_pv_gpio_effect w ot inst val.tag val.word P o hP hfind hobj (of_class_tag ot val hval)
  obtain ⟨hsent, hpool2⟩ := write_io_frame w ot inst PROP_PRESENT_VALUE val.tag val.word P
  simp only [hst, send_write_response, if_true]
  refine ⟨?_, fun x => ?_, fun inst2 Q x hne => ?_⟩
  · rw [send_simple_ack_sent _ _ _ (by rw [hpool2]; exact hpool), hsent]
  · rw [get_priority_value_engine _ _ (send_simple_ack_engine _ _ _), hslot x]
    by_cases hn : val = PropertyValue.null
    · rw [if_pos hn, if_pos ((tag_null_iff val).mpr hn)]
    · rw [if_neg hn, if_neg (fun h => hn ((tag_null_iff val).mp h))]
  · rw [get_priority_value_engine _ _ (send_simple_ack_engine _ _ _)]
    exact hframe inst2 Q x hne

theorem write_request_length (ot inst prop : Nat) (value rest : List Nat) :
    (write_request ot inst prop value rest).length =
      (write_request ot inst prop value []).length + rest.length := by
  rw [write_request_append ot inst prop value rest, List.length_append]

theorem encoded_priority_not_closing (pv : Nat) (tail : List Nat) :
    decode_is_closing_tag_number (encode_context_unsigned 4 pv ++ tail) 3 = false := by
  unfold encode_context_unsigned unsigned_content
  split_ifs <;> simp [decode_is_closing_tag_number, byte]

theorem encoded_priority_length (pv : Nat) : 0 < (encode_context_unsigned 4 pv).length := by
  simp [encode_context_unsigned]

/-- C8, as the code has it: a Present-Value request for a GPIO output in the store, carrying a
Null or a value of the object's class and a `[4]` priority whose value is outside 1..16, is
executed at the default priority 16 and answered with a SimpleACK: slot 16 of the object
takes the value (or is cleared by a Null) and no other slot of any object changes. -/
theorem invalid_priority_defaults_to_16 (w : World) (object_type inst : Nat)
    (val : PropertyValue) (pv invoke_id : Nat) (tail : List Nat) (o : ObjectRef)
    (hobj : is_gpio_output object_type inst = true) (hval : val.of_class object_type)
    (hfind : object_find w.objects object_type inst = some o) (hpool : 0 < w.pdu_pool)
    (hpv : pv < 2 ^ 32) (hout : pv < 1 ∨ pv > 16) :
    (receive_writeproperty w
        (write_request object_type inst PROP_PRESENT_VALUE val.encode
          (encode_context_unsigned 4 pv ++ tail))
        (write_request object_type inst PROP_PRESENT_VALUE val.encode
          (encode_context_unsigned 4 pv)).length invoke_id).1.sent =
      w.sent ++ [[PDU_TYPE_SIMPLE_ACK, invoke_id, SERVICE_CONFIRMED_WRITE_PROPERTY]] ∧
    (∀ x, (get_priority_value
            (receive_writeproperty w
              (write_request object_type inst PROP_PRESENT_VALUE val.encode
                (encode_context_unsigned 4 pv ++ tail))
              (write_request object_type inst PROP_PRESENT_VALUE val.encode
                (encode_context_unsigned 4 pv)).length invoke_id).1 inst 16 x).2 =
          if val = PropertyValue.null then (true, x) else (false, { bits := val.word })) ∧
    (∀ inst2 Q x, inst2 ≠ inst ∨ Q ≠ 16 →
        (get_priority_value
            (receive_writeproperty w
              (write_request object_type inst PROP_PRESENT_VALUE val.encode
                (encode_context_unsigned 4 pv ++ tail))
              (write_request object_type inst PROP_PRESENT_VALUE val.encode
                (encode_context_unsigned 4 pv)).length invoke_id).1 inst2 Q x).2 =
          (get_priority_value w inst2 Q x).2) := by
  apply receive_writeproperty_effect w object_type inst val _ _ invoke_id 16 o hobj hval hfind
    hpool (by decide)
  intro off hoff
  rcases hoff with h | ⟨_, hc⟩
  · subst h
    have hlt : (write_request object_type inst PROP_PRESENT_VALUE val.encode []).length <
        (write_request object_type inst PROP_PRESENT_VALUE val.encode
          (encode_context_unsigned 4 pv)).length := by
      rw [write_request_length object_type inst PROP_PRESENT_VALUE val.encode
        (encode_context_unsigned 4 pv)]
      have := encoded_priority_length pv
      omega
    rw [decode_priority_encoded _ tail _ _ pv hlt hpv (write_request_drop _ _ _ _ _)]
    have hn : ¬ (pv ≥ 1 ∧ pv ≤ 16) := by omega
    rw [if_neg hn]
  · rw [encoded_priority_not_closing] at hc
    cases hc

/-- Witness for C8: ACTIVE written to BO 4018 with a `[4]` priority of 17. -/
theorem invalid_priority_defaults_to_16_witness :
    is_gpio_output OBJECT_BINARY_OUTPUT 4018 = true ∧
    (PropertyValue.enumerated 1).of_class OBJECT_BINARY_OUTPUT ∧
    0 < scenario_start.pdu_pool ∧ (17 < 1 ∨ 17 > 16) ∧
    (receive_writeproperty scenario_start
        (write_request OBJECT_BINARY_OUTPUT 4018 PROP_PRESENT_VALUE
          (PropertyValue.enumerated 1).encode (encode_context_unsigned 4 17 ++ []))
        (write_request OBJECT_BINARY_OUTPUT 4018 PROP_PRESENT_VALUE
          (PropertyValue.enumerated 1).encode (encode_context_unsigned 4 17)).length 7).1.sent =
      scenario_start.sent ++ [[PDU_TYPE_SIMPLE_ACK, 7, SERVICE_CONFIRMED_WRITE_PROPERTY]] ∧
    (∀ x, (get_priority_value
            (receive_writeproperty scenario_start
              (write_request OBJECT_BINARY_OUTPUT 4018 PROP_PRESENT_VALUE
                (PropertyValue.enumerated 1).encode (encode_context_unsigned 4 17 ++ []))
              (write_request OBJECT_BINARY_OUTPUT 4018 PROP_PRESENT_VALUE
                (PropertyValue.enumerated 1).encode (encode_context_unsigned 4 17)).length
              7).1 4018 16 x).2 =
          if PropertyValue.enumerated 1 = PropertyValue.null then (true, x)
          else (false, { bits := (PropertyValue.enumerated 1).word })) ∧
    (∀ inst2 Q x, inst2 ≠ 4018 ∨ Q ≠ 16 →
        (get_priority_value
            (receive_writeproperty scenario_start
              (write_request OBJECT_BINARY_OUTPUT 4018 PROP_PRESENT_VALUE
                (PropertyValue.enumerated 1).encode (encode_context_unsigned 4 17 ++ []))
              (write_request OBJECT_BINARY_OUTPUT 4018 PROP_PRESENT_VALUE
                (PropertyValue.enumerated 1).encode (encode_context_unsigned 4 17)).length
              7).1 inst2 Q x).2 = (get_priority_value scenario_start inst2 Q x).2) :=
  ⟨by decide, ⟨rfl, by decide⟩, by decide, by decide,
    invalid_priority_defaults_to_16 scenario_start OBJECT_BINARY_OUTPUT 4018
      (PropertyValue.enumerated 1) 17 7 []
      { type := OBJECT_BINARY_OUTPUT, inst := 4018, name := some "Test LED",
        value := { bits := 0 }, active := some "ON", inactive := some "OFF" }
      (by decide) ⟨rfl, by decide⟩ (by decide) (by decide) (by norm_num) (by decide)⟩

/-- C8 fails as stated: the request `0C 01 00 0F B2 19 55 3E 91 01 3F 49 11` (BO 4018,
Present-Value, ACTIVE, priority 17) is answered with a SimpleACK, not with the Error PDU
carrying (property, value-out-of-range), and slot 16 of BO 4018, Null before, holds ACTIVE
afterwards. -/
theorem priority_17_is_acknowledged :
    write_request OBJECT_BINARY_OUTPUT 4018 PROP_PRESENT_VALUE
        (PropertyValue.enumerated 1).encode (encode_context_unsigned 4 17) =
      [0x0C, 0x01, 0x00, 0x0F, 0xB2, 0x19, 0x55, 0x3E, 0x91, 0x01, 0x3F, 0x49, 0x11] ∧
    (receive_writeproperty scenario_start
        [0x0C, 0x01, 0x00, 0x0F, 0xB2, 0x19, 0x55, 0x3E, 0x91, 0x01, 0x3F, 0x49, 0x11] 13 7).1.sent =
      [[PDU_TYPE_SIMPLE_ACK, 7, SERVICE_CONFIRMED_WRITE_PROPERTY]] ∧
    [PDU_TYPE_SIMPLE_ACK, 7, SERVICE_CONFIRMED_WRITE_PROPERTY] ≠
      [PDU_TYPE_ERROR, 7, SERVICE_CONFIRMED_WRITE_PROPERTY] ++
        encode_tagged_enumerated ERROR_CLASS_PROPERTY ++
        encode_tagged_enumerated ERROR_CODE_VALUE_OUT_OF_RANGE ∧
    (get_priority_value scenario_start 4018 16 { bits := 0 }).2.1 = true ∧
    (get_priority_value
        (receive_writeproperty scenario_start
          [0x0C, 0x01, 0x00, 0x0F, 0xB2, 0x19, 0x55, 0x3E, 0x91, 0x01, 0x3F, 0x49, 0x11] 13 7).1
        4018 16 { bits := 0 }).2 = (false, { bits := 1 }) := by
  decide

/-- Supporting C9: for a Null or a value of the object's class and no `[4]` tag, the write is
performed at priority 16, whatever bytes follow the request in the receive buffer. -/
theorem missing_priority_defaults_to_16 (w : World) (object_type inst : Nat)
    (val : PropertyValue) (invoke_id : Nat) (tail : List Nat) (o : ObjectRef)
    (hobj : is_gpio_output object_type inst = true) (hval : val.of_class object_type)
    (hfind : object_find w.objects object_type inst = some o) (hpool : 0 < w.pdu_pool) :
    (receive_writeproperty w
        (write_request object_type inst PROP_PRESENT_VALUE val.encode tail)
        (write_request object_type inst PROP_PRESENT_VALUE val.encode []).length
        invoke_id).1.sent =
      w.sent ++ [[PDU_TYPE_SIMPLE_ACK, invoke_id, SERVICE_CONFIRMED_WRITE_PROPERTY]] ∧
    (∀ x, (get_priority_value
            (receive_writeproperty w
              (write_request object_type inst PROP_PRESENT_VALUE val.encode tail)
              (write_request object_type inst PROP_PRESENT_VALUE val.encode []).length
              invoke_id).1 inst 16 x).2 =
          if val = PropertyValue.null then (true, x) else (false, { bits := val.word })) ∧
    (∀ inst2 Q x, inst2 ≠ inst ∨ Q ≠ 16 →
        (get_priority_value
            (receive_writeproperty w
              (write_request object_type inst PROP_PRESENT_VALUE val.encode tail)
              (write_request object_type inst PROP_PRESENT_VALUE val.encode []).length
              invoke_id).1 inst2 Q x).2 = (get_priority_value w inst2 Q x).2) := by
  apply receive_writeproperty_effect w object_type inst val _ _ invoke_id 16 o hobj hval hfind
    hpool (by decide)
  intro off hoff
  apply decode_priority_at_end
  rcases hoff with h | ⟨h, _⟩ <;> omega

/-- C9 at the failing input: the request `0C 01 00 0F B2 19 55 3E 93 01 49 03 3F` writes the
Enumerated 84227 (three content bytes 01 49 03) to the Present-Value of BO 4018 and carries
no `[4]` tag.  The handler takes the tag's byte count 1 for the content length, reads the
value 1, takes the content bytes `49 03` for a `[4]` priority 3, and so writes slot 3;
slot 16 stays Null. -/
theorem missing_priority_written_at_3 :
    write_request OBJECT_BINARY_OUTPUT 4018 PROP_PRESENT_VALUE
        (PropertyValue.enumerated 84227).encode [] =
      [0x0C, 0x01, 0x00, 0x0F, 0xB2, 0x19, 0x55, 0x3E, 0x93, 0x01, 0x49, 0x03, 0x3F] ∧
    (receive_writeproperty scenario_start
        [0x0C, 0x01, 0x00, 0x0F, 0xB2, 0x19, 0x55, 0x3E, 0x93, 0x01, 0x49, 0x03, 0x3F] 13 7).1.sent =
      [[PDU_TYPE_SIMPLE_ACK, 7, SERVICE_CONFIRMED_WRITE_PROPERTY]] ∧
    (get_priority_value
        (receive_writeproperty scenario_start
          [0x0C, 0x01, 0x00, 0x0F, 0xB2, 0x19, 0x55, 0x3E, 0x93, 0x01, 0x49, 0x03, 0x3F] 13 7).1
        4018 3 { bits := 0 }).2 = (false, { bits := 1 }) ∧
    (get_priority_value
        (receive_writeproperty scenario_start
          [0x0C, 0x01, 0x00, 0x0F, 0xB2, 0x19, 0x55, 0x3E, 0x93, 0x01, 0x49, 0x03, 0x3F] 13 7).1
        4018 16 { bits := 0 }).2.1 = true := by
  decide

theorem boot_flag (config : Config) (objects : List ObjectRef) (pdu_pool : Nat) :
    initialize_priority_arrays (boot config objects pdu_pool) =
      { boot config objects pdu_pool with
        priority_null := fun _ _ => true
        priority_arrays := fun _ _ => { bits := 0 }
        relinquish_defaults := fun i =>
          if i.val < 3 then { bits := 0 } else (boot config objects pdu_pool).relinquish_defaults i
        arrays_initialized := true } := rfl

/-- C13: before any WriteProperty has been processed every slot of every commandable GPIO
output is Null.  On the start state, the first `get_priority_value(instance, P)` reports
Null (and leaves `*value` alone) for every instance in {4018, 4026, 2021} and every P in
1..16, and the resolver, on the state that this first call leaves and on the start state
as every entry point initialises it before the resolver can run, returns the
relinquish-default, which is the zero word. -/
theorem initial_slots_null (config : Config) (objects : List ObjectRef) (pdu_pool : Nat)
    (object_type inst P : Nat) (x : ObjectValue)
    (hinst : inst = 4018 ∨ inst = 4026 ∨ inst = 2021) (hP : 1 ≤ P ∧ P ≤ 16) :
    (get_priority_value (boot config objects pdu_pool) inst P x).2 = (true, x) ∧
    ∃ idx, get_priority_index inst = some idx ∧
      calculate_effective_value (get_priority_value (boot config objects pdu_pool) inst P x).1
          object_type inst =
        (get_priority_value (boot config objects pdu_pool) inst P x).1.relinquish_defaults
          (Fin.castLE (by decide) idx) ∧
      calculate_effective_value (initialize_priority_arrays (boot config objects pdu_pool))
          object_type inst =
        (initialize_priority_arrays (boot config objects pdu_pool)).relinquish_defaults
          (Fin.castLE (by decide) idx) ∧
      (initialize_priority_arrays (boot config objects pdu_pool)).relinquish_defaults
          (Fin.castLE (by decide) idx) = { bits := 0 } := by
  have hidx : ∃ idx, get_priority_index inst = some idx := by
    rcases hinst with h | h | h <;> subst h
    · exact ⟨0, rfl⟩
    · exact ⟨1, rfl⟩
    · exact ⟨2, rfl⟩
  obtain ⟨idx, hidx⟩ := hidx
  have hnot : ¬ (P < 1 ∨ P > 16) := by omega
  have hcalc : calculate_effective_value (initialize_priority_arrays (boot config objects pdu_pool))
      object_type inst =
        (initialize_priority_arrays (boot config objects pdu_pool)).relinquish_defaults
          (Fin.castLE (by decide) idx) := by
    rw [boot_flag]
    simp only [calculate_effective_value, hidx]
    exact first_non_null_all_null _ _ _ _ (fun _ _ => rfl)
  refine ⟨?_, idx, hidx, ?_, hcalc, ?_⟩
  · rw [get_priority_value, boot_flag]
    simp only [hidx, if_neg hnot, if_true]
  · rw [get_priority_value_world]; exact hcalc
  · rw [boot_flag]
    have : (Fin.castLE (by decide : 3 ≤ 5) idx).val < 3 := idx.isLt
    simp only [if_pos this]

theorem initial_slots_null_witness :
    (get_priority_value (boot scenario_config default_objects 4) 4018 8 { bits := 7 }).2 =
      (true, { bits := 7 }) ∧
    ∃ idx, get_priority_index 4018 = some idx ∧
      calculate_effective_value
          (get_priority_value (boot scenario_config default_objects 4) 4018 8 { bits := 7 }).1
          OBJECT_BINARY_OUTPUT 4018 =
        (get_priority_value (boot scenario_config default_objects 4) 4018 8
          { bits := 7 }).1.relinquish_defaults (Fin.castLE (by decide) idx) ∧
      calculate_effective_value
          (initialize_priority_arrays (boot scenario_config default_objects 4))
          OBJECT_BINARY_OUTPUT 4018 =
        (initialize_priority_arrays (boot scenario_config default_objects 4)).relinquish_defaults
          (Fin.castLE (by decide) idx) ∧
      (initialize_priority_arrays (boot scenario_config default_objects 4)).relinquish_defaults
          (Fin.castLE (by decide) idx) = { bits := 0 } :=
  initial_slots_null scenario_config default_objects 4 OBJECT_BINARY_OUTPUT 4018 8 { bits := 7 }
    (Or.inl rfl) (by decide)

theorem initialize_pins (w : World) :
    (initialize_priority_arrays w).pin_writes = w.pin_writes := by
  unfold initialize_priority_arrays; split_ifs <;> rfl

theorem store_priority_pins (w w1 : World) (idx : Fin 3) (ot tag v P : Nat)
    (h : store_priority w idx ot tag v P = some w1) : w1.pin_writes = w.pin_writes := by
  unfold store_priority at h
  split_ifs at h <;> cases h <;> rfl

/-- The effector call of the Present-Value branch of `gpio_objects_write_property`. -/
theorem gowp_pv_pins (w : World) (ot inst v p : Nat) (o : ObjectRef)
    (hfind : object_find w.objects ot inst = some o)
    (hot : ot = OBJECT_BINARY_OUTPUT ∨ ot = OBJECT_ANALOG_OUTPUT) :
    (gpio_objects_write_property w ot inst PROP_PRESENT_VALUE
      (if ot = OBJECT_BINARY_OUTPUT then BACNET_APPLICATION_TAG_ENUMERATED
       else BACNET_APPLICATION_TAG_REAL) v p).1.pin_writes =
      w.pin_writes ++
        [{ in_gpio_objects := true, inst := inst,
           value :=
             if ot = OBJECT_BINARY_OUTPUT then PinValue.ofEnumerated (if v ≠ 0 then 1 else 0)
             else PinValue.ofReal v,
           gpio_pin := gpio_pin_of inst }] := by
  unfold gpio_objects_write_property
  simp only [hfind, if_true]
  rcases hot with h | h
  · subst h
    simp only [if_true, GpioObjects.gpio_write_pin]
  · subst h
    have hne : ¬ (OBJECT_ANALOG_OUTPUT = OBJECT_BINARY_OUTPUT) := by decide
    simp only [if_neg hne, if_true, GpioObjects.gpio_write_pin]

theorem is_gpio_output_type (ot inst : Nat) (h : is_gpio_output ot inst = true) :
    ot = OBJECT_BINARY_OUTPUT ∨ ot = OBJECT_ANALOG_OUTPUT := by
  rcases is_gpio_output_cases _ _ h with ⟨h, _, _⟩ | ⟨h, _, _⟩ | ⟨h, _, _⟩
  · exact Or.inl h
  · exact Or.inl h
  · exact Or.inr h

/-- C11: every successful Present-Value or Relinquish-Default write on a commandable GPIO
output invokes the hardware effector exactly once.  In a reachable state, when
`write_object_property_value` returns 0 for such a write, the trace of effector calls has
grown by exactly one call of `gpio_write_pin` (the one of gpio_objects.c for Present-Value,
the one of receive_writeproperty.c for Relinquish-Default), made with the written object's
instance and with the value that the resolver returns on the state after the write. -/
theorem effector_invoked_once (w : World) (object_type inst property tag value P : Nat)
    (hw : Reachable w) (hobj : is_gpio_output object_type inst = true)
    (hprop : property = PROP_PRESENT_VALUE ∨ property = PROP_RELINQUISH_DEFAULT)
    (hret : (write_object_property_value w object_type inst property tag value P).2 = 0) :
    (write_object_property_value w object_type inst property tag value P).1.pin_writes =
      w.pin_writes ++
        [{ in_gpio_objects := decide (property = PROP_PRESENT_VALUE), inst := inst,
           value :=
             if object_type = OBJECT_BINARY_OUTPUT then
               PinValue.ofEnumerated (calculate_effective_value
                 (write_object_property_value w object_type inst property tag value P).1
                 object_type inst).enumerated
             else
               PinValue.ofReal (calculate_effective_value
                 (write_object_property_value w object_type inst property tag value P).1
                 object_type inst).real,
           gpio_pin := gpio_pin_of inst }] := by
  obtain ⟨o, hfind⟩ := write_status_found w _ _ _ _ _ _ hret
  obtain ⟨idx, hidx⟩ := gpio_index _ _ hobj
  have hok := reachable_binary_values w hw
  rcases hprop with hp | hp
  · subst hp
    obtain ⟨hP, w1, hst⟩ := write_pv_status w object_type inst tag value P o idx hfind hobj hidx hret
    obtain ⟨hok1, _, _, hobjs⟩ := store_priority_ok _ w1 idx object_type inst tag value P hobj hidx
      hst (binary_values_ok_init w hok)
    have heq := write_pv_gpio_eq w object_type inst tag value P o idx w1 hfind hobj hidx hP hst
    have hfind1 : object_find
        (object_assign w1.objects object_type inst (calculate_effective_value w1 object_type inst))
        object_type inst
        = some { o with value := calculate_effective_value w1 object_type inst } :=
      object_find_assign_same _ _ _ _ _ (by rw [hobjs, initialize_objects]; exact hfind)
    obtain ⟨f1, f2, f3, _⟩ := gowp_pv_frame
      { w1 with objects := object_assign w1.objects object_type inst
                  (calculate_effective_value w1 object_type inst) }
      object_type inst
      (if object_type = OBJECT_BINARY_OUTPUT then BACNET_APPLICATION_TAG_ENUMERATED
       else BACNET_APPLICATION_TAG_REAL)
      (calculate_effective_value w1 object_type inst).bits P
    have hcalc : calculate_effective_value
        (write_object_property_value w object_type inst PROP_PRESENT_VALUE tag value P).1
        object_type inst = calculate_effective_value w1 object_type inst := by
      rw [heq]
      exact calculate_effective_value_congr w1 _ object_type inst f1 f2 f3
    rw [hcalc, heq]
    rw [gowp_pv_pins _ object_type inst _ P _ hfind1 (is_gpio_output_type _ _ hobj)]
    have hpins : w1.pin_writes = w.pin_writes :=
      (store_priority_pins _ _ _ _ _ _ _ hst).trans (initialize_pins w)
    show w1.pin_writes ++ _ = _
    rw [hpins]
    by_cases hbo : object_type = OBJECT_BINARY_OUTPUT
    · subst hbo
      have hle := binary_effective_le w1 inst hok1 hobj
      simp only [if_true, ObjectValue.enumerated, norm_of_le _ hle, decide_True]
    · simp only [if_neg hbo, ObjectValue.real, decide_True]
  · subst hp
    have hne : ¬ (PROP_RELINQUISH_DEFAULT = PROP_PRESENT_VALUE) := by decide
    unfold write_object_property_value at hret ⊢
    simp only [hfind, hobj, if_neg hne, if_true] at hret ⊢
    rcases is_gpio_output_cases _ _ hobj with ⟨ho, hi, hx⟩ | ⟨ho, hi, hx⟩ | ⟨ho, hi, hx⟩
    · subst ho hi
      by_cases ht : tag = BACNET_APPLICATION_TAG_ENUMERATED
      · simp only [if_pos ht, if_true] at hret ⊢
        simp only [gpio_write_pin, initialize_pins, decide_eq_false hne]
        rfl
      · simp only [if_neg ht, if_true] at hret; cases hret
    · subst ho hi
      by_cases ht : tag = BACNET_APPLICATION_TAG_ENUMERATED
      · have h1 : ¬ ((4026 : Nat) = 4018) := by decide
        simp only [if_pos ht, if_true, if_neg h1] at hret ⊢
        simp only [gpio_write_pin, initialize_pins, decide_eq_false hne]
        rfl
      · simp only [if_neg ht, if_true] at hret; cases hret
    · subst ho hi
      have h1 : ¬ (OBJECT_ANALOG_OUTPUT = OBJECT_BINARY_OUTPUT) := by decide
      by_cases ht : tag = BACNET_APPLICATION_TAG_REAL
      · simp only [if_pos ht, if_true, if_neg h1] at hret ⊢
        simp only [gpio_write_pin, initialize_pins, decide_eq_false hne]
        rfl
      · simp only [if_neg ht, if_true, if_neg h1] at hret; cases hret

theorem effector_invoked_once_witness :
    is_gpio_output OBJECT_BINARY_OUTPUT 4018 = true ∧
    (write_object_property_value scenario_start OBJECT_BINARY_OUTPUT 4018 PROP_PRESENT_VALUE
      BACNET_APPLICATION_TAG_ENUMERATED 1 8).2 = 0 ∧
    (write_object_property_value scenario_start OBJECT_BINARY_OUTPUT 4018 PROP_PRESENT_VALUE
      BACNET_APPLICATION_TAG_ENUMERATED 1 8).1.pin_writes =
      scenario_start.pin_writes ++
        [{ in_gpio_objects := decide (PROP_PRESENT_VALUE = PROP_PRESENT_VALUE), inst := 4018,
           value :=
             if OBJECT_BINARY_OUTPUT = OBJECT_BINARY_OUTPUT then
               PinValue.ofEnumerated (calculate_effective_value
                 (write_object_property_value scenario_start OBJECT_BINARY_OUTPUT 4018
                   PROP_PRESENT_VALUE BACNET_APPLICATION_TAG_ENUMERATED 1 8).1
                 OBJECT_BINARY_OUTPUT 4018).enumerated
             else
               PinValue.ofReal (calculate_effective_value
                 (write_object_property_value scenario_start OBJECT_BINARY_OUTPUT 4018
                   PROP_PRESENT_VALUE BACNET_APPLICATION_TAG_ENUMERATED 1 8).1
                 OBJECT_BINARY_OUTPUT 4018).real,
           gpio_pin := gpio_pin_of 4018 }] :=
  ⟨by decide, by decide,
    effector_invoked_once scenario_start OBJECT_BINARY_OUTPUT 4018 PROP_PRESENT_VALUE
      BACNET_APPLICATION_TAG_ENUMERATED 1 8 (Reachable.start _ _ _ (by decide)) (by decide)
      (Or.inl rfl) (by decide)⟩

/-! ## The hardware outcome is not observed by the write path -/

theorem initialize_hw (w : World) (h : HwCommand → Bool) (l : List HwCommand) :
    initialize_priority_arrays { w with hardware := h, hw_log := l } =
      { initialize_priority_arrays w with hardware := h, hw_log := l } := by
  unfold initialize_priority_arrays
  split_ifs <;> rfl

theorem store_priority_hw (w : World) (h : HwCommand → Bool) (l : List HwCommand) (idx : Fin 3)
    (ot tag v P : Nat) :
    store_priority { w with hardware := h, hw_log := l } idx ot tag v P =
      (store_priority w idx ot tag v P).map (fun x => { x with hardware := h, hw_log := l }) := by
  unfold store_priority
  split_ifs <;> rfl

theorem gowp_hw (w : World) (h : HwCommand → Bool) (l : List HwCommand)
    (ot inst prop tag v p : Nat) :
    ∃ l2, gpio_objects_write_property { w with hardware := h, hw_log := l } ot inst prop tag v p =
      ({ (gpio_objects_write_property w ot inst prop tag v p).1 with hardware := h, hw_log := l2 },
        (gpio_objects_write_property w ot inst prop tag v p).2) := by
  unfold gpio_objects_write_property
  simp only []
  cases object_find w.objects ot inst with
  | none => exact ⟨l, rfl⟩
  | some o =>
    cases gpio_get_object_index inst with
    | none => simp only []; split_ifs <;> exact ⟨_, rfl⟩
    | some k => simp only []; split_ifs <;> exact ⟨_, rfl⟩

theorem write_hw (w : World) (h : HwCommand → Bool) (l : List HwCommand)
    (ot inst prop tag v P : Nat) :
    ∃ l2, write_object_property_value { w with hardware := h, hw_log := l } ot inst prop tag v P =
      ({ (write_object_property_value w ot inst prop tag v P).1 with hardware := h, hw_log := l2 },
        (write_object_property_value w ot inst prop tag v P).2) := by
  unfold write_object_property_value
  simp only [initialize_hw]
  cases object_find w.objects ot inst with
  | none => exact ⟨l, rfl⟩
  | some o =>
    simp only []
    by_cases hpv : prop = PROP_PRESENT_VALUE
    · rw [if_pos hpv, if_pos hpv]
      by_cases hobj : is_gpio_output ot inst = true
      · rw [if_pos hobj, if_pos hobj]
        cases get_priority_index inst with
        | none => exact ⟨l, rfl⟩
        | some idx =>
          simp only []
          by_cases hP : P < 1 ∨ P > 16
          · rw [if_pos hP, if_pos hP]; exact ⟨l, rfl⟩
          · rw [if_neg hP, if_neg hP, store_priority_hw]
            cases store_priority (initialize_priority_arrays w) idx ot tag v P with
            | none => exact ⟨l, rfl⟩
            | some w1 =>
              simp only [Option.map]
              by_cases hbo : ot = OBJECT_BINARY_OUTPUT
              · rw [if_pos hbo, if_pos hbo]
                obtain ⟨l2, hl2⟩ := gowp_hw
                  { w1 with objects := object_assign w1.objects ot inst
                              (calculate_effective_value w1 ot inst) } h l
                  ot inst PROP_PRESENT_VALUE BACNET_APPLICATION_TAG_ENUMERATED
                  (calculate_effective_value w1 ot inst).enumerated P
                exact ⟨l2, congrArg (fun r => (r.1, (0 : Int))) hl2⟩
              · rw [if_neg hbo, if_neg hbo]
                obtain ⟨l2, hl2⟩ := gowp_hw
                  { w1 with objects := object_assign w1.objects ot inst
                              (calculate_effective_value w1 ot inst) } h l
                  ot inst PROP_PRESENT_VALUE BACNET_APPLICATION_TAG_REAL
                  (calculate_effective_value w1 ot inst).real P
                exact ⟨l2, congrArg (fun r => (r.1, (0 : Int))) hl2⟩
      · rw [if_neg hobj, if_neg hobj]
        split_ifs <;> exact ⟨l, rfl⟩
    · rw [if_neg hpv, if_neg hpv]
      split_ifs <;> exact ⟨_, rfl⟩

theorem send_write_response_hw (w : World) (h : HwCommand → Bool) (l : List HwCommand)
    (status : Int) (invoke_id : Nat) :
    (send_write_response { w with hardware := h, hw_log := l } status invoke_id).sent =
      (send_write_response w status invoke_id).sent := by
  unfold send_write_response send_simple_ack send_error_response pdu_alloc
  simp only []
  split_ifs <;> rfl

/-- The model does observe the hardware: on the start state with the default objects, an
accepted write of BO 4018 runs one shell command when `gpioset` succeeds and seven hardware
operations when every one fails. -/
theorem hardware_outcome_is_logged :
    (write_object_property_value { scenario_start with hardware := fun _ => true }
      OBJECT_BINARY_OUTPUT 4018 PROP_PRESENT_VALUE BACNET_APPLICATION_TAG_ENUMERATED 1 8).1.hw_log =
      [HwCommand.system_gpioset 18 true] ∧
    (write_object_property_value { scenario_start with hardware := fun _ => false }
      OBJECT_BINARY_OUTPUT 4018 PROP_PRESENT_VALUE BACNET_APPLICATION_TAG_ENUMERATED 1 8).1.hw_log =
      [HwCommand.system_gpioset 18 true, HwCommand.popen_gpiozero 18 true,
       HwCommand.access_sysfs 18, HwCommand.export_sysfs 18, HwCommand.direction_sysfs 18,
       HwCommand.value_sysfs 18 true, HwCommand.system_echo 18 true] := by
  constructor <;> decide

/-- C12: two runs of `write_object_property_value` from the same state with the same
arguments that differ only in whether the effector's hardware commands succeed or fail
(the outcome function `hardware`) return the same status and leave the same priority
slots, relinquish-defaults, object records (so the same present values) and effector
calls, and `receive_writeproperty` answers both with the same APDU: an effector failure
never turns a write into a BACnet error. -/
theorem effector_outcome_never_surfaces (w : World) (hardware1 hardware2 : HwCommand → Bool)
    (object_type inst property tag value P : Nat) :
    (write_object_property_value { w with hardware := hardware1 }
        object_type inst property tag value P).2 =
      (write_object_property_value { w with hardware := hardware2 }
        object_type inst property tag value P).2 ∧
    (write_object_property_value { w with hardware := hardware1 }
        object_type inst property tag value P).1.priority_null =
      (write_object_property_value { w with hardware := hardware2 }
        object_type inst property tag value P).1.priority_null ∧
    (write_object_property_value { w with hardware := hardware1 }
        object_type inst property tag value P).1.priority_arrays =
      (write_object_property_value { w with hardware := hardware2 }
        object_type inst property tag value P).1.priority_arrays ∧
    (write_object_property_value { w with hardware := hardware1 }
        object_type inst property tag value P).1.relinquish_defaults =
      (write_object_property_value { w with hardware := hardware2 }
        object_type inst property tag value P).1.relinquish_defaults ∧
    (write_object_property_value { w with hardware := hardware1 }
        object_type inst property tag value P).1.objects =
      (write_object_property_value { w with hardware := hardware2 }
        object_type inst property tag value P).1.objects ∧
    (write_object_property_value { w with hardware := hardware1 }
        object_type inst property tag value P).1.pin_writes =
      (write_object_property_value { w with hardware := hardware2 }
        object_type inst property tag value P).1.pin_writes ∧
    ∀ invoke_id,
      (send_write_response
        (write_object_property_value { w with hardware := hardware1 }
          object_type inst property tag value P).1
        (write_object_property_value { w with hardware := hardware1 }
          object_type inst property tag value P).2 invoke_id).sent =
      (send_write_response
        (write_object_property_value { w with hardware := hardware2 }
          object_type inst property tag value P).1
        (write_object_property_value { w with hardware := hardware2 }
          object_type inst property tag value P).2 invoke_id).sent := by
  obtain ⟨l1, h1⟩ := write_hw w hardware1 w.hw_log object_type inst property tag value P
  obtain ⟨l2, h2⟩ := write_hw w hardware2 w.hw_log object_type inst property tag value P
  have e1 : write_object_property_value { w with hardware := hardware1 }
      object_type inst property tag value P = _ := h1
  have e2 : write_object_property_value { w with hardware := hardware2 }
      object_type inst property tag value P = _ := h2
  rw [e1, e2]
  refine ⟨rfl, rfl, rfl, rfl, rfl, rfl, fun invoke_id => ?_⟩
  exact (send_write_response_hw _ _ _ _ _).trans (send_write_response_hw _ _ _ _ _).symm

/-! ## Present values of binary objects -/

theorem object_assign_values (objs : List ObjectRef) (t i : Nat) (v : ObjectValue)
    (h : ∀ o ∈ objs, o.type = OBJECT_BINARY_INPUT ∨ o.type = OBJECT_BINARY_OUTPUT →
      o.value.bits ≤ 1)
    (hv : t = OBJECT_BINARY_INPUT ∨ t = OBJECT_BINARY_OUTPUT → v.bits ≤ 1) :
    ∀ o ∈ object_assign objs t i v,
      o.type = OBJECT_BINARY_INPUT ∨ o.type = OBJECT_BINARY_OUTPUT → o.value.bits ≤ 1 := by
  induction objs with
  | nil => intro o ho; cases ho
  | cons a rest ih =>
      intro o ho hb
      unfold object_assign at ho
      by_cases hk : a.type = t ∧ a.inst = i
      · rw [if_pos hk] at ho
        rcases List.mem_cons.mp ho with h1 | h1
        · subst h1
          exact hv (by rw [← hk.1]; exact hb)
        · exact h o (List.mem_cons_of_mem a h1) hb
      · rw [if_neg hk] at ho
        rcases List.mem_cons.mp ho with h1 | h1
        · subst h1
          exact h _ (List.mem_cons_self _ _) hb
        · exact ih (fun x hx => h x (List.mem_cons_of_mem a hx)) o h1 hb

theorem first_set_zero (prio : gpio_priority_array) (h : prio.priorities_set = 0)
    (l : List (Fin 16)) : first_set prio l = prio.relinquish_default := by
  induction l with
  | nil => rfl
  | cons a t ih => simp [first_set, h, ih]

theorem gpio_effective_updated (w : World) (inst : Nat) (k : Fin 5) (x : ObjectValue)
    (hg : ∀ i, (w.gpio_priorities i).priorities_set = 0 ∧ (w.gpio_priorities i).out_of_service = 0)
    (hk : gpio_get_object_index inst = some k) :
    gpio_get_effective_value
      { w with gpio_priorities := Function.update w.gpio_priorities k
                 { (w.gpio_priorities k) with relinquish_default := x } } inst = x := by
  unfold gpio_get_effective_value
  simp only [hk, Function.update_same, (hg k).2, ne_eq, not_true_eq_false, if_false]
  apply first_set_zero
  exact (hg k).1

theorem gpio_flags_updated (gp : Fin 5 → gpio_priority_array) (k : Fin 5) (x : ObjectValue)
    (hg : ∀ i, (gp i).priorities_set = 0 ∧ (gp i).out_of_service = 0) :
    ∀ i, (Function.update gp k { (gp k) with relinquish_default := x } i).priorities_set = 0 ∧
      (Function.update gp k { (gp k) with relinquish_default := x } i).out_of_service = 0 := by
  intro i
  by_cases hi : i = k
  · subst hi; simp only [Function.update_same]; exact hg i
  · simp only [Function.update_noteq hi]; exact hg i

theorem present_values_ok_congr (w w2 : World) (h1 : w2.objects = w.objects)
    (h2 : w2.gpio_priorities = w.gpio_priorities) (h : present_values_ok w) :
    present_values_ok w2 := by
  unfold present_values_ok at *
  rw [h1, h2]
  exact h

theorem present_values_ok_gowp (w : World) (ot inst prop tag v p : Nat)
    (h : present_values_ok w) :
    present_values_ok (gpio_objects_write_property w ot inst prop tag v p).1 := by
  obtain ⟨ho, hg⟩ := h
  have hao_nb : ot = OBJECT_ANALOG_OUTPUT →
      ¬ (ot = OBJECT_BINARY_INPUT ∨ ot = OBJECT_BINARY_OUTPUT) := by
    intro h; subst h; decide
  unfold gpio_objects_write_property
  cases object_find w.objects ot inst with
  | none => exact ⟨ho, hg⟩
  | some o =>
    simp only []
    by_cases hpv : prop = PROP_PRESENT_VALUE
    · rw [if_pos hpv]
      by_cases hbo : ot = OBJECT_BINARY_OUTPUT
      · rw [if_pos hbo]
        by_cases ht : tag = BACNET_APPLICATION_TAG_ENUMERATED
        · rw [if_pos ht]
          exact ⟨object_assign_values _ _ _ _ ho (fun _ => norm_le_one v), hg⟩
        · rw [if_neg ht]; exact ⟨ho, hg⟩
      · rw [if_neg hbo]
        by_cases hao : ot = OBJECT_ANALOG_OUTPUT
        · rw [if_pos hao]
          by_cases ht : tag = BACNET_APPLICATION_TAG_REAL
          · rw [if_pos ht]
            exact ⟨object_assign_values _ _ _ _ ho (fun hb => absurd hb (hao_nb hao)), hg⟩
          · rw [if_neg ht]; exact ⟨ho, hg⟩
        · rw [if_neg hao]; exact ⟨ho, hg⟩
    · rw [if_neg hpv]
      by_cases hrd : prop = PROP_RELINQUISH_DEFAULT
      · rw [if_pos hrd]
        by_cases hout : ot = OBJECT_BINARY_OUTPUT ∨ ot = OBJECT_ANALOG_OUTPUT
        · rw [if_pos hout]
          cases hk : gpio_get_object_index inst with
          | none => exact ⟨ho, hg⟩
          | some k =>
            simp only []
            by_cases hbo : ot = OBJECT_BINARY_OUTPUT
            · rw [if_pos hbo]
              by_cases ht : tag = BACNET_APPLICATION_TAG_ENUMERATED
              · rw [if_pos ht]
                refine ⟨object_assign_values _ _ _ _ ho (fun _ => ?_), gpio_flags_updated _ _ _ hg⟩
                rw [gpio_effective_updated w inst k _ hg hk]
                exact norm_le_one v
              · rw [if_neg ht]; exact ⟨ho, hg⟩
            · have hao : ot = OBJECT_ANALOG_OUTPUT := hout.resolve_left hbo
              rw [if_neg hbo, if_pos hao]
              by_cases ht : tag = BACNET_APPLICATION_TAG_REAL
              · rw [if_pos ht]
                exact ⟨object_assign_values _ _ _ _ ho (fun hb => absurd hb (hao_nb hao)),
                  gpio_flags_updated _ _ _ hg⟩
              · rw [if_neg ht]; exact ⟨ho, hg⟩
        · rw [if_neg hout]; exact ⟨ho, hg⟩
      · rw [if_neg hrd]; exact ⟨ho, hg⟩

theorem initialize_gpio_priorities (w : World) :
    (initialize_priority_arrays w).gpio_priorities = w.gpio_priorities := by
  unfold initialize_priority_arrays; split_ifs <;> rfl

theorem present_values_ok_init (w : World) (h : present_values_ok w) :
    present_values_ok (initialize_priority_arrays w) :=
  present_values_ok_congr w _ (initialize_objects w) (initialize_gpio_priorities w) h

theorem store_priority_gpio_priorities (w w1 : World) (idx : Fin 3) (ot tag v P : Nat)
    (h : store_priority w idx ot tag v P = some w1) :
    w1.gpio_priorities = w.gpio_priorities := by
  unfold store_priority at h
  split_ifs at h <;> cases h <;> rfl

theorem binary_values_ok_rd0 (w : World) (x : Nat) (hx : x ≤ 1) (h : binary_values_ok w)
    (hinit : w.arrays_initialized = true) :
    binary_values_ok
      { w with relinquish_defaults := Function.update w.relinquish_defaults 0 { bits := x } } := by
  obtain ⟨h1, h2, h3, h4, h5⟩ := h
  have hne : (1 : Fin 5) ≠ 0 := by decide
  refine ⟨h1, h2, ?_, ?_, fun hc => ?_⟩
  · simp only [Function.update_same]; exact hx
  · simp only [Function.update_noteq hne]; exact h4
  · rw [hinit] at hc; cases hc

theorem binary_values_ok_rd1 (w : World) (x : Nat) (hx : x ≤ 1) (h : binary_values_ok w)
    (hinit : w.arrays_initialized = true) :
    binary_values_ok
      { w with relinquish_defaults := Function.update w.relinquish_defaults 1 { bits := x } } := by
  obtain ⟨h1, h2, h3, h4, h5⟩ := h
  have hne : (0 : Fin 5) ≠ 1 := by decide
  refine ⟨h1, h2, ?_, ?_, fun hc => ?_⟩
  · simp only [Function.update_noteq hne]; exact h3
  · simp only [Function.update_same]; exact hx
  · rw [hinit] at hc; cases hc

/-- `write_object_property_value` keeps the present values of binary objects in 0..1. -/
theorem present_values_ok_write (w : World) (ot inst prop tag v P : Nat)
    (hb : binary_values_ok w) (h : present_values_ok w) :
    present_values_ok (write_object_property_value w ot inst prop tag v P).1 := by
  have hI := binary_values_ok_init w hb
  have hinit := initialize_initialized w
  have hpI := present_values_ok_init w h
  have hao_nb : ot = OBJECT_ANALOG_OUTPUT →
      ¬ (ot = OBJECT_BINARY_INPUT ∨ ot = OBJECT_BINARY_OUTPUT) := by
    intro h; subst h; decide
  unfold write_object_property_value
  cases hf : object_find w.objects ot inst with
  | none => exact h
  | some o =>
    simp only []
    by_cases hpv : prop = PROP_PRESENT_VALUE
    · simp only [if_pos hpv]
      by_cases hobj : is_gpio_output ot inst = true
      · simp only [hobj, if_true]
        obtain ⟨idx, hidx⟩ := gpio_index _ _ hobj
        simp only [hidx]
        by_cases hP : P < 1 ∨ P > 16
        · simp only [if_pos hP]; exact hpI
        · simp only [if_neg hP]
          cases hst : store_priority (initialize_priority_arrays w) idx ot tag v P with
          | none => exact hpI
          | some w1 =>
            obtain ⟨hok, _, _, hobjs⟩ := store_priority_ok _ _ _ _ _ _ _ _ hobj hidx hst hI
            have hp1 : present_values_ok w1 :=
              present_values_ok_congr _ w1 hobjs (store_priority_gpio_priorities _ _ _ _ _ _ _ hst)
                hpI
            have hp2 : present_values_ok
                { w1 with objects := object_assign w1.objects ot inst
                            (calculate_effective_value w1 ot inst) } := by
              refine ⟨object_assign_values _ _ _ _ hp1.1 (fun hbin => ?_), hp1.2⟩
              rcases is_gpio_output_type _ _ hobj with hbo | hao
              · subst hbo; exact binary_effective_le w1 inst hok hobj
              · exact absurd hbin (hao_nb hao)
            simp only []
            split_ifs
            · exact present_values_ok_gowp _ _ _ _ _ _ _ hp2
            · exact present_values_ok_gowp _ _ _ _ _ _ _ hp2
      · simp only [if_neg hobj]
        by_cases hbo : ot = OBJECT_BINARY_OUTPUT
        · rw [if_pos hbo]
          by_cases ht : tag = BACNET_APPLICATION_TAG_ENUMERATED
          · rw [if_pos ht]
            exact ⟨object_assign_values _ _ _ _ hpI.1 (fun _ => norm_le_one v), hpI.2⟩
          · rw [if_neg ht]; exact hpI
        · rw [if_neg hbo]
          by_cases hao : ot = OBJECT_ANALOG_OUTPUT
          · rw [if_pos hao]
            by_cases ht : tag = BACNET_APPLICATION_TAG_REAL
            · rw [if_pos ht]
              exact ⟨object_assign_values _ _ _ _ hpI.1 (fun hbin => absurd hbin (hao_nb hao)),
                hpI.2⟩
            · rw [if_neg ht]; exact hpI
          · rw [if_neg hao]; exact hpI
    · simp only [if_neg hpv]
      by_cases hrd : prop = PROP_RELINQUISH_DEFAULT
      · simp only [if_pos hrd]
        by_cases hobj : is_gpio_output ot inst = true
        · simp only [hobj, if_true]
          rcases is_gpio_output_cases _ _ hobj with ⟨ho, hi, _⟩ | ⟨ho, hi, _⟩ | ⟨ho, hi, _⟩
          · subst ho hi
            by_cases ht : tag = BACNET_APPLICATION_TAG_ENUMERATED
            · simp only [if_pos ht, if_true]
              have hok1 := binary_values_ok_rd0 _ _ (norm_le_one v) hI hinit
              exact ⟨object_assign_values _ _ _ _ hpI.1
                (fun _ => binary_effective_le _ 4018 hok1 hobj), hpI.2⟩
            · simp only [if_neg ht, if_true]; exact hpI
          · subst ho hi
            have h1 : ¬ ((4026 : Nat) = 4018) := by decide
            by_cases ht : tag = BACNET_APPLICATION_TAG_ENUMERATED
            · simp only [if_pos ht, if_true, if_neg h1]
              have hok1 := binary_values_ok_rd1 _ _ (norm_le_one v) hI hinit
              exact ⟨object_assign_values _ _ _ _ hpI.1
                (fun _ => binary_effective_le _ 4026 hok1 hobj), hpI.2⟩
            · simp only [if_neg ht, if_true]; exact hpI
          · subst ho hi
            have h1 : ¬ (OBJECT_ANALOG_OUTPUT = OBJECT_BINARY_OUTPUT) := by decide
            by_cases ht : tag = BACNET_APPLICATION_TAG_REAL
            · simp only [if_pos ht, if_true, if_neg h1]
              exact ⟨object_assign_values _ _ _ _ hpI.1
                (fun hbin => absurd hbin (hao_nb rfl)), hpI.2⟩
            · simp only [if_neg ht, if_true, if_neg h1]; exact hpI
        · simp only [if_neg hobj]; exact hpI
      · simp only [if_neg hrd]; exact hpI

theorem present_values_ok_engine (w w2 : World) (h : same_engine w2 w)
    (hok : present_values_ok w) : present_values_ok w2 :=
  present_values_ok_congr w w2 h.1 h.2.2.2.2.2.1 hok

theorem present_values_ok_boot (config : Config) (objects : List ObjectRef) (pdu_pool : Nat)
    (hcreated : ∀ o ∈ objects,
      o.type = OBJECT_BINARY_INPUT ∨ o.type = OBJECT_BINARY_OUTPUT → o.value = { bits := 0 }) :
    present_values_ok (boot config objects pdu_pool) := by
  refine ⟨fun o ho hbin => ?_, fun i => ⟨rfl, rfl⟩⟩
  rw [hcreated o ho hbin]
  exact Nat.zero_le 1

theorem present_values_ok_update_inputs (w : World) (t : Nat) (g : Int)
    (h : present_values_ok w) : present_values_ok (gpio_update_inputs w t g) := by
  unfold gpio_update_inputs
  by_cases h1 : (t : Int) - (w.last_update : Int) < 1
  · rw [if_pos h1]; exact h
  · rw [if_neg h1]
    cases object_find w.objects OBJECT_BINARY_INPUT 3019 with
    | none => exact h
    | some obj =>
      simp only []
      by_cases h2 : obj.value.enumerated ≠ (if g ≠ 0 then 1 else 0)
      · rw [if_pos h2]
        refine ⟨object_assign_values _ _ _ _ h.1 (fun _ => ?_), h.2⟩
        show (if g ≠ 0 then 1 else 0 : Nat) ≤ 1
        split_ifs <;> omega
      · rw [if_neg h2]; exact h

theorem present_values_ok_update_values (w : World) (t m : Nat)
    (h : present_values_ok w) : present_values_ok (gpio_objects_update_values w t m) := by
  unfold gpio_objects_update_values
  have h1 : ∀ o ∈ (match object_find w.objects OBJECT_ANALOG_INPUT 1020 with
      | none => w.objects
      | some _ => object_assign w.objects OBJECT_ANALOG_INPUT 1020 { bits := t }),
      o.type = OBJECT_BINARY_INPUT ∨ o.type = OBJECT_BINARY_OUTPUT → o.value.bits ≤ 1 := by
    cases object_find w.objects OBJECT_ANALOG_INPUT 1020 with
    | none => exact h.1
    | some _ => exact object_assign_values _ _ _ _ h.1 (fun hb => absurd hb (by decide))
  simp only []
  split
  · exact ⟨h1, h.2⟩
  · refine ⟨object_assign_values _ _ _ _ h1 (fun _ => ?_), h.2⟩
    show (if m % 10 = 0 then 1 else 0 : Nat) ≤ 1
    split_ifs <;> omega

/-- In every reachable state the present value of every binary object is 0 or 1, and
`priorities_set` and `out_of_service` of `gpio_priorities` are 0. -/
theorem reachable_present_values (w : World) (h : Reachable w) : present_values_ok w := by
  induction h with
  | gpio_read w invoke_id ot inst prop idx max_apdu _ ih =>
      exact present_values_ok_engine _ _
        (gpio_handle_read_property_engine w invoke_id ot inst prop idx max_apdu) ih
  | start config objects pdu_pool hcreated =>
      exact present_values_ok_boot config objects pdu_pool hcreated
  | environment w hw clock _ ih => exact present_values_ok_congr w _ rfl rfl ih
  | update_inputs w t g _ ih => exact present_values_ok_update_inputs w t g ih
  | update_values w t m _ ih => exact present_values_ok_update_values w t m ih
  | read_request w req len max_apdu invoke_id _ ih =>
      rcases receive_readproperty_engine w req len max_apdu invoke_id with h | h
      · exact present_values_ok_engine _ _ h ih
      · exact present_values_ok_engine _ _ h (present_values_ok_init w ih)
  | write w ot inst prop tag v P hw ih =>
      exact present_values_ok_write w ot inst prop tag v P (reachable_binary_values w hw) ih
  | read_slot w inst P x _ ih =>
      rw [get_priority_value_world]; exact present_values_ok_init w ih
  | gpio_write w ot inst prop tag v P _ ih => exact present_values_ok_gowp w ot inst prop tag v P ih
  | request w req len invoke_id hw ih =>
      apply receive_writeproperty_cases present_values_ok w req len invoke_id
      · exact fun w2 h2 => present_values_ok_engine w w2 h2 ih
      · exact fun ot inst prop tag v pr w2 h2 =>
          present_values_ok_engine _ w2 h2
            (present_values_ok_write w ot inst prop tag v pr (reachable_binary_values w hw) ih)
  | read_property w ot inst prop idx _ ih =>
      rcases encode_object_property_value_world w ot inst prop idx with h | h
      · rw [h]; exact ih
      · rw [h]; exact present_values_ok_init w ih

/-- C14: the present value of every Binary-Input and Binary-Output object is 0 or 1 in every
reachable state.  The start state holds binary objects with the present value 0 of their
creation, and a reachable state is whatever `write_object_property_value`,
`gpio_objects_write_property`, `gpio_update_inputs`, `gpio_objects_update_values` and the
two service handlers make of a reachable state on any arguments, so every value these
operations store in a binary object, whatever the input (an enumerated value above 1
included), is 0 or 1. -/
theorem binary_present_value_0_or_1 (w : World) (h : Reachable w) (o : ObjectRef)
    (ho : o ∈ w.objects)
    (hbin : o.type = OBJECT_BINARY_INPUT ∨ o.type = OBJECT_BINARY_OUTPUT) :
    o.value.enumerated = 0 ∨ o.value.enumerated = 1 := by
  have := (reachable_present_values w h).1 o ho hbin
  unfold ObjectValue.enumerated
  omega

theorem binary_present_value_0_or_1_witness :
    ({ type := OBJECT_BINARY_OUTPUT, inst := 4018, name := some "Test LED",
       value := { bits := 1 }, active := some "ON", inactive := some "OFF" } : ObjectRef) ∈
      (write_object_property_value scenario_start OBJECT_BINARY_OUTPUT 4018 PROP_PRESENT_VALUE
        BACNET_APPLICATION_TAG_ENUMERATED 5 8).1.objects ∧
    (({ type := OBJECT_BINARY_OUTPUT, inst := 4018, name := some "Test LED",
        value := { bits := 1 }, active := some "ON", inactive := some "OFF" } :
        ObjectRef).value.enumerated = 0 ∨
     ({ type := OBJECT_BINARY_OUTPUT, inst := 4018, name := some "Test LED",
        value := { bits := 1 }, active := some "ON", inactive := some "OFF" } :
        ObjectRef).value.enumerated = 1) :=
  ⟨by decide,
    binary_present_value_0_or_1
      (write_object_property_value scenario_start OBJECT_BINARY_OUTPUT 4018 PROP_PRESENT_VALUE
        BACNET_APPLICATION_TAG_ENUMERATED 5 8).1
      (Reachable.write _ _ _ _ _ _ _ (Reachable.start _ _ _ (by decide)))
      { type := OBJECT_BINARY_OUTPUT, inst := 4018, name := some "Test LED",
        value := { bits := 1 }, active := some "ON", inactive := some "OFF" }
      (by decide) (Or.inr rfl)⟩

/-! ## Decoding what the encoders wrote -/

theorem unsigned_content_length (v : Nat) :
    1 ≤ (unsigned_content v).length ∧ (unsigned_content v).length ≤ 4 := by
  unfold unsigned_content
  split_ifs <;> simp

theorem big_endian_unsigned_content (v : Nat) (hv : v < 2 ^ 32) (l : List Nat) :
    big_endian (unsigned_content v ++ l) (unsigned_content v).length = v := by
  unfold unsigned_content
  by_cases h1 : v < 256
  · simp only [if_pos h1, List.length_singleton, List.singleton_append, big_endian_one]
    exact Nat.mod_eq_of_lt hv
  · by_cases h2 : v < 65536
    · simp only [if_neg h1, if_pos h2, List.cons_append, List.nil_append]
      show big_endian _ 2 = v
      rw [big_endian_two]
      omega
    · by_cases h3 : v < 16777216
      · simp only [if_neg h1, if_neg h2, if_pos h3, List.cons_append, List.nil_append]
        show big_endian _ 3 = v
        rw [big_endian_three]
        omega
      · simp only [if_neg h1, if_neg h2, if_neg h3, List.cons_append, List.nil_append]
        show big_endian _ 4 = v
        rw [big_endian_four]
        have : 2 ^ 32 = 4294967296 := by norm_num
        omega

theorem decode_object_id_word (x : Nat) (hx : x < 2 ^ 32) (l : List Nat) :
    decode_object_id (x / 16777216 % 256 :: x / 65536 % 256 :: x / 256 % 256 :: x % 256 :: l) =
      (4, x / 2 ^ 22, x % 2 ^ 22) := by
  have h := word_roundtrip x hx
  simp only [decode_object_id, big_endian_four]
  have e : (2 : Nat) ^ 32 = 4294967296 := by norm_num
  rw [e, h]

/-- The object identifier that a request or response carries decodes to the key encoded. -/
theorem decode_object_id_encoded (t ot inst : Nat) (hot : ot < 1024) (hinst : inst < 4194304)
    (l : List Nat) :
    decode_object_id ((encode_context_object_id t ot inst ++ l).drop 1) = (4, ot, inst) := by
  have hx : ot * 4194304 + inst < 2 ^ 32 := by
    have : (2 : Nat) ^ 32 = 4294967296 := by norm_num
    omega
  have h := decode_object_id_word (ot * 4194304 + inst) hx l
  have e1 : (ot * 4194304 + inst) / 2 ^ 22 = ot := by
    have : (2 : Nat) ^ 22 = 4194304 := by norm_num
    rw [this]; omega
  have e2 : (ot * 4194304 + inst) % 2 ^ 22 = inst := by
    have : (2 : Nat) ^ 22 = 4194304 := by norm_num
    rw [this]; omega
  rw [e1, e2] at h
  unfold encode_context_object_id
  rw [Nat.mod_eq_of_lt hot, Nat.mod_eq_of_lt hinst]
  exact h

/-- A context tag byte with a content length up to 4 decodes to its tag number and length. -/
theorem decode_context_tag (t L : Nat) (ht : t < 15) (hL : L ≤ 4) (l : List Nat) :
    decode_tag_number_and_value ((t * 16 + 8 + L) :: l) = (1, t, L) ∧
    ∀ t2, decode_is_context_tag ((t * 16 + 8 + L) :: l) t2 = decide (t = t2) := by
  have h1 : (t * 16 + 8 + L) / 16 = t := by omega
  have h2 : (t * 16 + 8 + L) % 8 = L := by omega
  have h3 : (t * 16 + 8 + L) / 8 % 2 = 1 := by omega
  have h4 : ¬ (t = 15) := by omega
  have h5 : ¬ (L = 5) := by omega
  have h6 : ¬ (L = 6 ∨ L = 7) := by omega
  constructor
  · simp [decode_tag_number_and_value, decode_tag_number, byte, h1, h2, h4, h5, h6]
  · intro t2
    have e : decode_is_context_tag ((t * 16 + 8 + L) :: l) t2 = (true && (t == t2)) := by
      simp [decode_is_context_tag, decode_tag_number, byte, h1, h3, h4]
    rw [e]
    by_cases h : t = t2 <;> simp [h]

/-- What the head of a request, `[0]` object-id and `[1]` property-id, decodes to. -/
theorem request_head_decode (ot inst prop : Nat) (tail : List Nat) (hot : ot < 1024)
    (hinst : inst < 4194304) (hprop : prop < 2 ^ 32) :
    decode_is_context_tag
      (encode_context_object_id 0 ot inst ++ encode_context_enumerated 1 prop ++ tail) 0 = true ∧
    (decode_tag_number_and_value
      (encode_context_object_id 0 ot inst ++ encode_context_enumerated 1 prop ++ tail)).1 = 1 ∧
    decode_object_id
      ((encode_context_object_id 0 ot inst ++ encode_context_enumerated 1 prop ++ tail).drop 1) =
      (4, ot, inst) ∧
    decode_is_context_tag
      ((encode_context_object_id 0 ot inst ++ encode_context_enumerated 1 prop ++ tail).drop 5) 1
      = true ∧
    decode_tag_number_and_value
      ((encode_context_object_id 0 ot inst ++ encode_context_enumerated 1 prop ++ tail).drop 5) =
      (1, 1, (unsigned_content prop).length) ∧
    decode_enumerated
      ((encode_context_object_id 0 ot inst ++ encode_context_enumerated 1 prop ++ tail).drop 6)
      (unsigned_content prop).length = ((unsigned_content prop).length, prop) ∧
    (encode_context_object_id 0 ot inst ++ encode_context_enumerated 1 prop ++ tail).drop
      (6 + (unsigned_content prop).length) = tail ∧
    (encode_context_object_id 0 ot inst ++ encode_context_enumerated 1 prop ++ tail).length =
      6 + (unsigned_content prop).length + tail.length := by
  obtain ⟨hL1, hL4⟩ := unsigned_content_length prop
  have hd5 : (encode_context_object_id 0 ot inst ++ encode_context_enumerated 1 prop ++ tail).drop 5
      = (1 * 16 + 8 + (unsigned_content prop).length) :: (unsigned_content prop ++ tail) := by
    simp [encode_context_object_id, encode_context_enumerated]
  have hd6 : (encode_context_object_id 0 ot inst ++ encode_context_enumerated 1 prop ++ tail).drop 6
      = unsigned_content prop ++ tail := by
    simp [encode_context_object_id, encode_context_enumerated]
  have hhead : encode_context_object_id 0 ot inst ++ encode_context_enumerated 1 prop ++ tail =
      (0 * 16 + 8 + 4) :: ((encode_context_object_id 0 ot inst ++
        (encode_context_enumerated 1 prop ++ tail)).drop 1) := by
    simp [encode_context_object_id]
  refine ⟨?_, ?_, ?_, ?_, ?_, ?_, ?_, ?_⟩
  · rw [hhead, (decode_context_tag 0 4 (by decide) (by decide) _).2]; rfl
  · rw [hhead, (decode_context_tag 0 4 (by decide) (by decide) _).1]
  · rw [List.append_assoc]
    exact decode_object_id_encoded 0 ot inst hot hinst _
  · rw [hd5, (decode_context_tag 1 _ (by decide) hL4 _).2]; rfl
  · rw [hd5, (decode_context_tag 1 _ (by decide) hL4 _).1]
  · rw [hd6]
    unfold decode_enumerated
    rw [big_endian_unsigned_content prop hprop]
  · have : 6 + (unsigned_content prop).length =
        (encode_context_object_id 0 ot inst ++ encode_context_enumerated 1 prop).length := by
      simp [encode_context_object_id, encode_context_enumerated]; omega
    rw [this]
    exact List.drop_left _ _
  · simp [encode_context_object_id, encode_context_enumerated]; omega

/-- How `receive_readproperty` reads a well-formed request when a buffer is free: it calls the
encoder for the key and property encoded in the request, with the array index found behind
them, and frames the response. -/
theorem receive_readproperty_eval (w : World) (ot inst prop : Nat) (index : List Nat)
    (max_apdu id : Nat) (hot : ot < 1024) (hinst : inst < 4194304) (hprop : prop < 2 ^ 32)
    (hpool : w.pdu_pool ≠ 0) :
    receive_readproperty w (read_request ot inst prop index)
        (read_request ot inst prop index).length max_apdu id =
      (pdu_free (send_read_response
        (encode_requested_property { w with pdu_pool := w.pdu_pool - 1 } ot inst prop
          (decode_array_index (read_request ot inst prop index)
            (read_request ot inst prop index).length (6 + (unsigned_content prop).length))).1
        (complex_ack_header id ot inst prop
          (decode_array_index (read_request ot inst prop index)
            (read_request ot inst prop index).length (6 + (unsigned_content prop).length)))
        (encode_requested_property { w with pdu_pool := w.pdu_pool - 1 } ot inst prop
          (decode_array_index (read_request ot inst prop index)
            (read_request ot inst prop index).length (6 + (unsigned_content prop).length))).2
        max_apdu id), 1) := by
  obtain ⟨h0, _, h1, _, h2, h3, _, _⟩ := request_head_decode ot inst prop index hot hinst hprop
  unfold receive_readproperty read_request
  simp only [h0, if_true, h1, h2, h3, pdu_alloc, if_neg hpool, ne_eq, not_true_eq_false,
    if_false, Nat.reduceAdd]

/-- A request that ends behind the property identifier asks for the whole property. -/
theorem decode_array_index_absent (ot inst prop : Nat) (hot : ot < 1024)
    (hinst : inst < 4194304) (hprop : prop < 2 ^ 32) :
    decode_array_index (read_request ot inst prop []) (read_request ot inst prop []).length
      (6 + (unsigned_content prop).length) = BACNET_ARRAY_ALL := by
  obtain ⟨_, _, _, _, _, _, _, hlen⟩ := request_head_decode ot inst prop [] hot hinst hprop
  unfold decode_array_index read_request
  rw [hlen]
  simp

/-- An encoded `[2]` array index is decoded to its value. -/
theorem decode_array_index_encoded (ot inst prop i : Nat) (hot : ot < 1024)
    (hinst : inst < 4194304) (hprop : prop < 2 ^ 32) (hi : i < 2 ^ 32) :
    decode_array_index (read_request ot inst prop (encode_context_unsigned 2 i))
      (read_request ot inst prop (encode_context_unsigned 2 i)).length
      (6 + (unsigned_content prop).length) = i := by
  obtain ⟨_, _, _, _, _, _, hdrop, hlen⟩ :=
    request_head_decode ot inst prop (encode_context_unsigned 2 i) hot hinst hprop
  obtain ⟨hL1, hL4⟩ := unsigned_content_length i
  have hlt : 6 + (unsigned_content prop).length <
      (read_request ot inst prop (encode_context_unsigned 2 i)).length := by
    unfold read_request
    rw [hlen]
    simp [encode_context_unsigned]
  have htag := (decode_context_tag 2 _ (by decide) hL4 (unsigned_content i)).1
  have hd1 : List.drop (6 + (unsigned_content prop).length + 1)
      (read_request ot inst prop (encode_context_unsigned 2 i)) = unsigned_content i ++ [] := by
    unfold read_request
    rw [← List.drop_drop, hdrop]
    simp [encode_context_unsigned]
  unfold decode_array_index
  rw [if_pos hlt]
  have hd0 : List.drop (6 + (unsigned_content prop).length)
      (read_request ot inst prop (encode_context_unsigned 2 i)) =
      (2 * 16 + 8 + (unsigned_content i).length) :: unsigned_content i := hdrop
  simp only [hd0, htag, if_true, hd1, decode_unsigned]
  exact big_endian_unsigned_content i hi []

theorem spec_priority_element_init (w : World) (ot inst i : Nat) :
    spec_priority_element (initialize_priority_arrays w) ot inst i =
      spec_priority_element w ot inst i := by
  unfold spec_priority_element
  rw [← get_priority_value_init]

/-- The loop over the priorities writes the element of each, in order. -/
theorem encode_priority_levels_elements (ot inst : Nat) (l : List Nat) (w : World) :
    (encode_priority_levels ot inst w l).2 = l.flatMap (spec_priority_element w ot inst) := by
  induction l generalizing w with
  | nil => rfl
  | cons a t ih =>
      simp only [encode_priority_levels, List.flatMap_cons, get_priority_value_world, ih]
      congr 1
      apply List.flatMap_congr
      intro i _
      exact spec_priority_element_init w ot inst i

/-- C15 (amended): for every commandable GPIO output in the store, the property value that
`encode_object_property_value` writes for Priority-Array with the array index ALL (which is
what `receive_readproperty` passes when the request carries no array index) is the
encoding of the unsigned 16, the array size, followed by exactly 16 elements, the i-th
(i = 1..16) being the encoding of slot i's value if the slot is occupied and the Null tag
0x00 otherwise, with nothing after them. -/
theorem priority_array_all_size_then_elements (w : World) (object_type inst : Nat)
    (o : ObjectRef) (hfind : object_find w.objects object_type inst = some o)
    (hobj : is_gpio_output object_type inst = true) :
    (encode_object_property_value w object_type inst PROP_PRIORITY_ARRAY BACNET_ARRAY_ALL).2 =
      encode_tagged_unsigned 16 ++
        (List.range' 1 16).flatMap (spec_priority_element w object_type inst) ∧
    (∀ req len offset, len ≤ offset → decode_array_index req len offset = BACNET_ARRAY_ALL) := by
  constructor
  · unfold encode_object_property_value
    simp only [hfind, hobj, true_and, true_or, if_true]
    exact congrArg _ (encode_priority_levels_elements object_type inst _ w)
  · intro req len offset h
    unfold decode_array_index
    rw [if_neg (by omega)]

theorem priority_array_all_size_then_elements_witness :
    (encode_object_property_value scenario_active8 OBJECT_BINARY_OUTPUT 4018 PROP_PRIORITY_ARRAY
        BACNET_ARRAY_ALL).2 =
      encode_tagged_unsigned 16 ++
        (List.range' 1 16).flatMap
          (spec_priority_element scenario_active8 OBJECT_BINARY_OUTPUT 4018) ∧
    (∀ req len offset, len ≤ offset → decode_array_index req len offset = BACNET_ARRAY_ALL) :=
  priority_array_all_size_then_elements scenario_active8 OBJECT_BINARY_OUTPUT 4018 _
    (by rfl) (by decide)

/-- Counterexample to C15 as stated: on the start state with the default objects, the
property value written for the whole Priority-Array of BO 4018 is 18 bytes, the two bytes
`21 10` of the array size and then the 16 Null elements, whereas the 16 elements alone
are 16 bytes. -/
theorem priority_array_all_starts_with_size :
    (encode_object_property_value scenario_start OBJECT_BINARY_OUTPUT 4018 PROP_PRIORITY_ARRAY
        BACNET_ARRAY_ALL).2 =
      [0x21, 0x10, 0, 0, 0, 0, 0, 0, 0, 0, 0, 0, 0, 0, 0, 0, 0, 0] ∧
    (List.range' 1 16).flatMap (spec_priority_element scenario_start OBJECT_BINARY_OUTPUT 4018) =
      [0, 0, 0, 0, 0, 0, 0, 0, 0, 0, 0, 0, 0, 0, 0, 0] ∧
    (encode_object_property_value scenario_start OBJECT_BINARY_OUTPUT 4018 PROP_PRIORITY_ARRAY
        BACNET_ARRAY_ALL).2 ≠
      (List.range' 1 16).flatMap (spec_priority_element scenario_start OBJECT_BINARY_OUTPUT 4018) := by
  refine ⟨by decide, by decide, by decide⟩

/-- C16 (what the code does): for every commandable GPIO output in the store and every
array index that is not ALL, not 0 and not in 1..16, `receive_readproperty` answers a
ReadProperty of Priority-Array with the Error PDU carrying (property, unknown-property),
which is not the Error PDU carrying (property, invalid-array-index):
`encode_object_property_value` writes nothing for such an index and the handler reports
every empty encoding as an unknown property. -/
theorem priority_array_bad_index_unknown_property (w : World) (object_type inst i : Nat)
    (src_max_apdu invoke_id : Nat) (o : ObjectRef)
    (hfind : object_find w.objects object_type inst = some o)
    (hobj : is_gpio_output object_type inst = true) (hi : i < 2 ^ 32)
    (hbad : i ≠ BACNET_ARRAY_ALL ∧ i ≠ 0 ∧ ¬ (1 ≤ i ∧ i ≤ 16)) (hpool : 0 < w.pdu_pool) :
    (receive_readproperty w
        (read_request object_type inst PROP_PRIORITY_ARRAY (encode_context_unsigned 2 i))
        (read_request object_type inst PROP_PRIORITY_ARRAY (encode_context_unsigned 2 i)).length
        src_max_apdu invoke_id).1.sent =
      w.sent ++ [error_pdu invoke_id SERVICE_CONFIRMED_READ_PROPERTY ERROR_CLASS_PROPERTY
        ERROR_CODE_UNKNOWN_PROPERTY] ∧
    error_pdu invoke_id SERVICE_CONFIRMED_READ_PROPERTY ERROR_CLASS_PROPERTY
        ERROR_CODE_UNKNOWN_PROPERTY ≠
      error_pdu invoke_id SERVICE_CONFIRMED_READ_PROPERTY ERROR_CLASS_PROPERTY
        ERROR_CODE_INVALID_ARRAY_INDEX := by
  have hot : object_type < 1024 := by
    rcases is_gpio_output_type _ _ hobj with h | h <;> subst h <;> decide
  have hinst : inst < 4194304 := by
    rcases is_gpio_output_cases _ _ hobj with ⟨_, h, _⟩ | ⟨_, h, _⟩ | ⟨_, h, _⟩ <;> subst h <;>
      decide
  have hnd : ¬ (object_type = OBJECT_DEVICE ∧ inst = w.config.BACnet_Device_Instance) := by
    rintro ⟨h, _⟩
    rcases is_gpio_output_type _ _ hobj with h2 | h2 <;> rw [h2] at h <;> exact absurd h (by decide)
  have henc : encode_requested_property { w with pdu_pool := w.pdu_pool - 1 } object_type inst
      PROP_PRIORITY_ARRAY i = ({ w with pdu_pool := w.pdu_pool - 1 }, []) := by
    have hne : ¬ (PROP_PRIORITY_ARRAY = PROP_RELINQUISH_DEFAULT ∧
        (object_type = OBJECT_BINARY_OUTPUT ∨ object_type = OBJECT_ANALOG_OUTPUT)) := by
      rintro ⟨h, _⟩; exact absurd h (by decide)
    unfold encode_requested_property
    rw [if_neg hnd, if_neg hne]
    unfold encode_object_property_value
    simp only [hfind, hobj, true_and, true_or, if_true, if_neg hbad.1, if_neg hbad.2.1,
      if_neg (show ¬ (i ≥ 1 ∧ i ≤ 16) from hbad.2.2)]
  constructor
  · rw [receive_readproperty_eval w object_type inst PROP_PRIORITY_ARRAY _ src_max_apdu invoke_id
      hot hinst (by decide) (by omega)]
    rw [decode_array_index_encoded object_type inst PROP_PRIORITY_ARRAY i hot hinst (by decide) hi]
    rw [henc]
    simp [send_read_response, send_error_address, send_npdu_address, pdu_free, error_pdu,
      PDU_TYPE_ERROR]
  · simp [error_pdu, encode_tagged_enumerated, unsigned_content, ERROR_CODE_UNKNOWN_PROPERTY,
      ERROR_CODE_INVALID_ARRAY_INDEX]

theorem priority_array_bad_index_unknown_property_witness :
    read_request OBJECT_BINARY_OUTPUT 4018 PROP_PRIORITY_ARRAY (encode_context_unsigned 2 17) =
      [0x0C, 0x01, 0x00, 0x0F, 0xB2, 0x19, 0x57, 0x29, 0x11] ∧
    ((receive_readproperty scenario_start
        (read_request OBJECT_BINARY_OUTPUT 4018 PROP_PRIORITY_ARRAY (encode_context_unsigned 2 17))
        (read_request OBJECT_BINARY_OUTPUT 4018 PROP_PRIORITY_ARRAY
          (encode_context_unsigned 2 17)).length 480 1).1.sent =
      scenario_start.sent ++ [error_pdu 1 SERVICE_CONFIRMED_READ_PROPERTY ERROR_CLASS_PROPERTY
        ERROR_CODE_UNKNOWN_PROPERTY] ∧
    error_pdu 1 SERVICE_CONFIRMED_READ_PROPERTY ERROR_CLASS_PROPERTY
        ERROR_CODE_UNKNOWN_PROPERTY ≠
      error_pdu 1 SERVICE_CONFIRMED_READ_PROPERTY ERROR_CLASS_PROPERTY
        ERROR_CODE_INVALID_ARRAY_INDEX) :=
  ⟨by decide,
    priority_array_bad_index_unknown_property scenario_start OBJECT_BINARY_OUTPUT 4018 17 480 1 _
      (by rfl) (by decide) (by decide) (by decide) (by decide)⟩

theorem gpio_encode_relinquish_default_length (w : World) (ot inst : Nat) :
    (gpio_encode_relinquish_default w ot inst).length ≠ 0 := by
  unfold gpio_encode_relinquish_default
  split_ifs <;> simp [encode_tagged_enumerated, encode_tagged_real]

/-- C18 (what the code does): a ReadProperty that names a key absent from the object store
(and not the Device object of the server) is never answered with (object,
unknown-object).  With a free APDU buffer, `receive_readproperty` sends the Error PDU
carrying (property, unknown-property), whatever array index the request carries; and when
the property is relinquish-default and the object type is Binary-Output or Analog-Output
it sends, for a request without array index whose answer fits `src_max_apdu`, a
ComplexACK with the value that `gpio_encode_relinquish_default` writes, although no such
object exists. -/
theorem missing_object_not_unknown_object (w : World) (object_type inst property : Nat)
    (index : List Nat) (src_max_apdu invoke_id : Nat)
    (hmiss : object_find w.objects object_type inst = none)
    (hnd : ¬ (object_type = OBJECT_DEVICE ∧ inst = w.config.BACnet_Device_Instance))
    (hot : object_type < 1024) (hinst : inst < 4194304) (hprop : property < 2 ^ 32)
    (hpool : 0 < w.pdu_pool) :
    (¬ (property = PROP_RELINQUISH_DEFAULT ∧
          (object_type = OBJECT_BINARY_OUTPUT ∨ object_type = OBJECT_ANALOG_OUTPUT)) →
      (receive_readproperty w (read_request object_type inst property index)
          (read_request object_type inst property index).length src_max_apdu invoke_id).1.sent =
        w.sent ++ [error_pdu invoke_id SERVICE_CONFIRMED_READ_PROPERTY ERROR_CLASS_PROPERTY
          ERROR_CODE_UNKNOWN_PROPERTY]) ∧
    (property = PROP_RELINQUISH_DEFAULT ∧
          (object_type = OBJECT_BINARY_OUTPUT ∨ object_type = OBJECT_ANALOG_OUTPUT) →
      (complex_ack_header invoke_id object_type inst property BACNET_ARRAY_ALL ++
          gpio_encode_relinquish_default w object_type inst ++ encode_closing_tag 3).length
        ≤ src_max_apdu →
      (receive_readproperty w (read_request object_type inst property [])
          (read_request object_type inst property []).length src_max_apdu invoke_id).1.sent =
        w.sent ++ [complex_ack_header invoke_id object_type inst property BACNET_ARRAY_ALL ++
          gpio_encode_relinquish_default w object_type inst ++ encode_closing_tag 3]) := by
  constructor
  · intro hn
    rw [receive_readproperty_eval w object_type inst property index src_max_apdu invoke_id
      hot hinst hprop (by omega)]
    have henc : ∀ idx, encode_requested_property { w with pdu_pool := w.pdu_pool - 1 }
        object_type inst property idx = ({ w with pdu_pool := w.pdu_pool - 1 }, []) := by
      intro idx
      unfold encode_requested_property
      rw [if_neg hnd, if_neg hn]
      unfold encode_object_property_value
      simp only [hmiss]
    rw [henc]
    simp [send_read_response, send_error_address, send_npdu_address, pdu_free, error_pdu,
      PDU_TYPE_ERROR]
  · intro hrd hfit
    rw [receive_readproperty_eval w object_type inst property [] src_max_apdu invoke_id
      hot hinst hprop (by omega)]
    rw [decode_array_index_absent object_type inst property hot hinst hprop]
    have hlen := gpio_encode_relinquish_default_length w object_type inst
    have hne : ¬ (gpio_encode_relinquish_default w object_type inst = []) := by
      intro h; rw [h] at hlen; exact hlen rfl
    have henc : encode_requested_property { w with pdu_pool := w.pdu_pool - 1 }
        object_type inst property BACNET_ARRAY_ALL =
        ({ w with pdu_pool := w.pdu_pool - 1 },
          gpio_encode_relinquish_default w object_type inst) := by
      unfold encode_requested_property
      rw [if_neg hnd, if_pos hrd]
      have e : gpio_encode_relinquish_default { w with pdu_pool := w.pdu_pool - 1 }
          object_type inst = gpio_encode_relinquish_default w object_type inst := rfl
      rw [e, if_neg hne]
    rw [henc]
    unfold send_read_response
    simp only []
    rw [if_neg hlen, if_neg (by omega)]
    rfl

theorem missing_object_not_unknown_object_witness :
    object_find scenario_start.objects OBJECT_BINARY_OUTPUT 4099 = none ∧
    (receive_readproperty scenario_start
        (read_request OBJECT_BINARY_OUTPUT 4099 PROP_PRESENT_VALUE [])
        (read_request OBJECT_BINARY_OUTPUT 4099 PROP_PRESENT_VALUE []).length 480 1).1.sent =
      scenario_start.sent ++ [error_pdu 1 SERVICE_CONFIRMED_READ_PROPERTY ERROR_CLASS_PROPERTY
        ERROR_CODE_UNKNOWN_PROPERTY] ∧
    (receive_readproperty scenario_start
        (read_request OBJECT_BINARY_OUTPUT 4099 PROP_RELINQUISH_DEFAULT [])
        (read_request OBJECT_BINARY_OUTPUT 4099 PROP_RELINQUISH_DEFAULT []).length 480 1).1.sent =
      scenario_start.sent ++
        [complex_ack_header 1 OBJECT_BINARY_OUTPUT 4099 PROP_RELINQUISH_DEFAULT BACNET_ARRAY_ALL ++
          gpio_encode_relinquish_default scenario_start OBJECT_BINARY_OUTPUT 4099 ++
          encode_closing_tag 3] :=
  ⟨by decide,
    (missing_object_not_unknown_object scenario_start OBJECT_BINARY_OUTPUT 4099 PROP_PRESENT_VALUE
      [] 480 1 (by decide) (by decide) (by decide) (by decide) (by decide) (by decide)).1
      (by decide),
    (missing_object_not_unknown_object scenario_start OBJECT_BINARY_OUTPUT 4099
      PROP_RELINQUISH_DEFAULT [] 480 1 (by decide) (by decide) (by decide) (by decide)
      (by decide) (by decide)).2 (by decide) (by decide)⟩

/-- The tag number read from the first byte of an encoded property value. -/
theorem value_tag_decode (val : PropertyValue) (tl : List Nat) :
    (decode_tag_number_and_value (val.encode ++ tl)).2.1 = val.tag := by
  have hres : ∀ l : List Nat, (decode_tag_number_and_value l).2.1 = (decode_tag_number l).2 := by
    intro l
    unfold decode_tag_number_and_value
    simp only []
    split_ifs <;> rfl
  rw [hres]
  cases val with
  | null => simp [PropertyValue.encode, PropertyValue.tag, decode_tag_number, byte,
      BACNET_APPLICATION_TAG_NULL]
  | enumerated v =>
      obtain ⟨h1, h4⟩ := unsigned_content_length v
      have e : (9 * 16 + (unsigned_content v).length) / 16 = 9 := by omega
      simp [PropertyValue.encode, PropertyValue.tag, decode_tag_number, byte,
        encode_tagged_enumerated, e, BACNET_APPLICATION_TAG_ENUMERATED]
  | real bits => simp [PropertyValue.encode, PropertyValue.tag, decode_tag_number, byte,
      encode_tagged_real, BACNET_APPLICATION_TAG_REAL]

/-- A value whose tag is Null, Enumerated or Real gets past the decoder of the property
value, whatever its content. -/
theorem decode_property_value_some (req : List Nat) (off t : Nat)
    (ht : (decode_tag_number_and_value (req.drop off)).2.1 = t)
    (hin : t = BACNET_APPLICATION_TAG_NULL ∨ t = BACNET_APPLICATION_TAG_ENUMERATED ∨
      t = BACNET_APPLICATION_TAG_REAL) :
    ∃ d, decode_property_value req off = (t, some d) ∧
      (d.is_null_write = true ↔ t = BACNET_APPLICATION_TAG_NULL) := by
  unfold decode_property_value
  simp only [ht]
  rcases hin with h | h | h
  · subst h
    exact ⟨_, by rw [if_pos rfl], by simp⟩
  · subst h
    have h1 : ¬ (BACNET_APPLICATION_TAG_ENUMERATED = BACNET_APPLICATION_TAG_NULL) := by decide
    exact ⟨_, by rw [if_neg h1, if_pos rfl], by simp [h1]⟩
  · subst h
    have h1 : ¬ (BACNET_APPLICATION_TAG_REAL = BACNET_APPLICATION_TAG_NULL) := by decide
    have h2 : ¬ (BACNET_APPLICATION_TAG_REAL = BACNET_APPLICATION_TAG_ENUMERATED) := by decide
    exact ⟨_, by rw [if_neg h1, if_neg h2, if_pos rfl], by simp [h1]⟩

theorem property_value_tag_cases (val : PropertyValue) :
    val.tag = BACNET_APPLICATION_TAG_NULL ∨ val.tag = BACNET_APPLICATION_TAG_ENUMERATED ∨
      val.tag = BACNET_APPLICATION_TAG_REAL := by
  cases val <;> simp [PropertyValue.tag]

/-- Every well-formed WriteProperty request that carries a Null, an Enumerated or a Real
and no array index reaches `write_object_property_value` with the key and the property of
the request and the tag of the value, and is answered from its status. -/
theorem receive_writeproperty_reaches_write (w : World) (ot inst prop : Nat)
    (val : PropertyValue) (rest : List Nat) (len id : Nat) (hot : ot < 1024)
    (hinst : inst < 4194304) (hprop : prop < 2 ^ 32) :
    ∃ v P, receive_writeproperty w (write_request ot inst prop val.encode rest) len id =
      (send_write_response (write_object_property_value w ot inst prop val.tag v P).1
        (write_object_property_value w ot inst prop val.tag v P).2 id, 0) := by
  have hreq : write_request ot inst prop val.encode rest =
      encode_context_object_id 0 ot inst ++ encode_context_enumerated 1 prop ++
        (0x3E :: (val.encode ++ 0x3F :: rest)) := by
    simp [write_request, encode_opening_tag, encode_closing_tag]
  obtain ⟨h0, h0b, h1, h1b, h2, h3, hdrop, _⟩ :=
    request_head_decode ot inst prop (0x3E :: (val.encode ++ 0x3F :: rest)) hot hinst hprop
  have hdrop1 : List.drop (6 + (unsigned_content prop).length + 1)
      (encode_context_object_id 0 ot inst ++ encode_context_enumerated 1 prop ++
        (0x3E :: (val.encode ++ 0x3F :: rest))) = val.encode ++ 0x3F :: rest := by
    rw [← List.drop_drop, hdrop]; rfl
  obtain ⟨d, hd, hnull⟩ := decode_property_value_some _ _ val.tag
    (by rw [hdrop1]; exact value_tag_decode val _) (property_value_tag_cases val)
  rw [hreq]
  generalize encode_context_object_id 0 ot inst ++ encode_context_enumerated 1 prop ++
        (0x3E :: (val.encode ++ 0x3F :: rest)) = req at *
  generalize (unsigned_content prop).length = L at *
  unfold receive_writeproperty
  simp only [h0, h0b, h1, h1b, h2, h3, if_true, Nat.reduceAdd]
  have hc2 : decode_is_context_tag (List.drop (6 + L) req) 2 = false := by
    rw [hdrop]; simp [decode_is_context_tag, decode_tag_number, byte]
  have ho3 : decode_is_opening_tag_number (List.drop (6 + L) req) 3 = true := by
    rw [hdrop]; simp [decode_is_opening_tag_number, decode_tag_number, byte]
  simp only [hc2, ho3, hd, if_true, Bool.false_eq_true, if_false]
  generalize decode_priority req len _ = P
  unfold execute_write
  rcases property_value_tag_cases val with ht | ht | ht
  · rw [if_pos (hnull.mpr ht), ht]
    exact ⟨0, P, rfl⟩
  · have hn : ¬ (d.is_null_write = true) := by
      rw [hnull, ht]; decide
    rw [if_neg hn, ht, if_pos rfl]
    exact ⟨_, P, rfl⟩
  · have hn : ¬ (d.is_null_write = true) := by
      rw [hnull, ht]; decide
    have h2 : ¬ (BACNET_APPLICATION_TAG_REAL = BACNET_APPLICATION_TAG_ENUMERATED) := by decide
    rw [if_neg hn, ht, if_neg h2, if_pos rfl]
    exact ⟨_, P, rfl⟩

theorem send_error_response_sent (w : World) (invoke_id service_choice c e : Nat)
    (h : 0 < w.pdu_pool) :
    (send_error_response w invoke_id service_choice c e).sent =
      w.sent ++ [error_pdu invoke_id service_choice c e] := by
  have hp : ¬ (w.pdu_pool = 0) := by omega
  simp [send_error_response, pdu_alloc, hp, pdu_free, send_npdu_address, error_pdu,
    PDU_TYPE_ERROR]

/-- A value of the wrong type for the output object makes `write_object_property_value`
return -3 on Present-Value and on Relinquish-Default. -/
theorem write_mismatch_status (w : World) (ot inst prop tag v P : Nat) (o : ObjectRef)
    (hfind : object_find w.objects ot inst = some o)
    (hcase : (ot = OBJECT_BINARY_OUTPUT ∧ tag = BACNET_APPLICATION_TAG_REAL) ∨
      (ot = OBJECT_ANALOG_OUTPUT ∧ tag = BACNET_APPLICATION_TAG_ENUMERATED))
    (hprop : prop = PROP_PRESENT_VALUE ∨ prop = PROP_RELINQUISH_DEFAULT) :
    (write_object_property_value w ot inst prop tag v P).2 = -3 := by
  have hst : ∀ (x : World) (idx : Fin 3), store_priority x idx ot tag v P = none := by
    intro x idx
    unfold store_priority
    rcases hcase with ⟨h1, h2⟩ | ⟨h1, h2⟩ <;> subst h1 h2 <;> simp +decide
  have hne : ¬ (PROP_RELINQUISH_DEFAULT = PROP_PRESENT_VALUE) := by decide
  unfold write_object_property_value
  simp only [hfind]
  rcases hprop with hp | hp <;> subst hp
  · simp only [if_true]
    by_cases hobj : is_gpio_output ot inst = true
    · simp only [hobj, if_true]
      cases get_priority_index inst with
      | none => rfl
      | some idx =>
        simp only [hst]
        split_ifs <;> rfl
    · simp only [hobj, Bool.false_eq_true, if_false]
      rcases hcase with ⟨h1, h2⟩ | ⟨h1, h2⟩ <;> subst h1 h2 <;> simp +decide
  · simp only [if_neg hne, if_true]
    by_cases hobj : is_gpio_output ot inst = true
    · simp only [hobj, if_true]
      rcases hcase with ⟨h1, h2⟩ | ⟨h1, h2⟩ <;> subst h1 h2 <;> simp +decide
    · simp only [hobj, Bool.false_eq_true, if_false]

/-- C19 (what the code does): a WriteProperty of Present-Value or Relinquish-Default on an
existing output object whose value has the wrong type for the object (a Real written to a
Binary-Output, an Enumerated written to an Analog-Output) is answered, when a buffer is
free, with the Error PDU carrying (property, write-access-denied), which is not the Error
PDU carrying (property, invalid-data-type): `write_object_property_value` returns -3 for
the wrong type as it does for a property that is not writable. -/
theorem type_mismatch_write_access_denied (w : World) (object_type inst property : Nat)
    (val : PropertyValue) (rest : List Nat) (len invoke_id : Nat) (o : ObjectRef)
    (hfind : object_find w.objects object_type inst = some o) (hinst : inst < 4194304)
    (hcase : (object_type = OBJECT_BINARY_OUTPUT ∧ ∃ bits, val = PropertyValue.real bits) ∨
      (object_type = OBJECT_ANALOG_OUTPUT ∧ ∃ v, val = PropertyValue.enumerated v))
    (hprop : property = PROP_PRESENT_VALUE ∨ property = PROP_RELINQUISH_DEFAULT)
    (hpool : 0 < w.pdu_pool) :
    (receive_writeproperty w (write_request object_type inst property val.encode rest) len
        invoke_id).1.sent =
      w.sent ++ [error_pdu invoke_id SERVICE_CONFIRMED_WRITE_PROPERTY ERROR_CLASS_PROPERTY
        ERROR_CODE_WRITE_ACCESS_DENIED] ∧
    error_pdu invoke_id SERVICE_CONFIRMED_WRITE_PROPERTY ERROR_CLASS_PROPERTY
        ERROR_CODE_WRITE_ACCESS_DENIED ≠
      error_pdu invoke_id SERVICE_CONFIRMED_WRITE_PROPERTY ERROR_CLASS_PROPERTY
        ERROR_CODE_INVALID_DATA_TYPE := by
  have hot : object_type < 1024 := by
    rcases hcase with ⟨h, _⟩ | ⟨h, _⟩ <;> subst h <;> decide
  have hp32 : property < 2 ^ 32 := by
    rcases hprop with h | h <;> subst h <;> decide
  have hcase2 : (object_type = OBJECT_BINARY_OUTPUT ∧ val.tag = BACNET_APPLICATION_TAG_REAL) ∨
      (object_type = OBJECT_ANALOG_OUTPUT ∧ val.tag = BACNET_APPLICATION_TAG_ENUMERATED) := by
    rcases hcase with ⟨h, b, hb⟩ | ⟨h, b, hb⟩
    · left; subst hb; exact ⟨h, rfl⟩
    · right; subst hb; exact ⟨h, rfl⟩
  obtain ⟨v, P, heq⟩ := receive_writeproperty_reaches_write w object_type inst property val rest
    len invoke_id hot hinst hp32
  have hst := write_mismatch_status w object_type inst property val.tag v P o hfind hcase2 hprop
  obtain ⟨hs, hpl⟩ := write_io_frame w object_type inst property val.tag v P
  constructor
  · rw [heq, hst]
    show (send_error_response _ _ _ _ _).sent = _
    rw [send_error_response_sent _ _ _ _ _ (by rw [hpl]; exact hpool), hs]
  · simp [error_pdu, encode_tagged_enumerated, unsigned_content, ERROR_CODE_WRITE_ACCESS_DENIED,
      ERROR_CODE_INVALID_DATA_TYPE]

theorem type_mismatch_write_access_denied_witness :
    write_request OBJECT_BINARY_OUTPUT 4018 PROP_PRESENT_VALUE
        (PropertyValue.real 0x422A0000).encode [0x49, 0x08] =
      [0x0C, 0x01, 0x00, 0x0F, 0xB2, 0x19, 0x55, 0x3E, 0x44, 0x42, 0x2A, 0x00, 0x00, 0x3F,
       0x49, 0x08] ∧
    ((receive_writeproperty scenario_start
        (write_request OBJECT_BINARY_OUTPUT 4018 PROP_PRESENT_VALUE
          (PropertyValue.real 0x422A0000).encode [0x49, 0x08]) 16 1).1.sent =
      scenario_start.sent ++ [error_pdu 1 SERVICE_CONFIRMED_WRITE_PROPERTY ERROR_CLASS_PROPERTY
        ERROR_CODE_WRITE_ACCESS_DENIED] ∧
    error_pdu 1 SERVICE_CONFIRMED_WRITE_PROPERTY ERROR_CLASS_PROPERTY
        ERROR_CODE_WRITE_ACCESS_DENIED ≠
      error_pdu 1 SERVICE_CONFIRMED_WRITE_PROPERTY ERROR_CLASS_PROPERTY
        ERROR_CODE_INVALID_DATA_TYPE) :=
  ⟨by decide,
    type_mismatch_write_access_denied scenario_start OBJECT_BINARY_OUTPUT 4018 PROP_PRESENT_VALUE
      (PropertyValue.real 0x422A0000) [0x49, 0x08] 16 1 _ (by rfl) (by decide)
      (Or.inl ⟨rfl, _, rfl⟩) (Or.inl rfl) (by decide)⟩

/-- On a property that is not writable for the object's type, `write_object_property_value`
only initialises the priority arrays and returns -3. -/
theorem write_not_writable (w : World) (ot inst prop tag v P : Nat) (o : ObjectRef)
    (hfind : object_find w.objects ot inst = some o) (hnw : spec_writable ot prop = false) :
    write_object_property_value w ot inst prop tag v P = (initialize_priority_arrays w, -3) := by
  have hcases : (ot ≠ OBJECT_ANALOG_OUTPUT ∧ ot ≠ OBJECT_BINARY_OUTPUT) ∨
      (prop ≠ PROP_PRESENT_VALUE ∧ prop ≠ PROP_RELINQUISH_DEFAULT) := by
    simp only [spec_writable, Bool.and_eq_false_iff, Bool.or_eq_false_iff, beq_eq_false_iff_ne]
      at hnw
    exact hnw
  unfold write_object_property_value
  simp only [hfind]
  rcases hcases with ⟨h1, h2⟩ | ⟨h1, h2⟩
  · have hobj : ¬ (is_gpio_output ot inst = true) := by
      intro h
      rcases is_gpio_output_type _ _ h with h3 | h3
      · exact h2 h3
      · exact h1 h3
    simp only [hobj, if_false, if_neg h2, if_neg h1, ite_self, Bool.false_eq_true]
  · simp only [if_neg h1, if_neg h2]

/-- A target that `object_find` does not find makes `write_object_property_value` return -2
at once. -/
theorem write_not_found (w : World) (ot inst prop tag v P : Nat)
    (hfind : object_find w.objects ot inst = none) :
    write_object_property_value w ot inst prop tag v P = (w, -2) := by
  unfold write_object_property_value
  rw [hfind]

/-- A value whose tag is none of Null, Enumerated and Real takes the unsupported-type branch
of `decode_property_value`. -/
theorem decode_property_value_none (req : List Nat) (off : Nat)
    (h0 : (decode_tag_number_and_value (req.drop off)).2.1 ≠ BACNET_APPLICATION_TAG_NULL)
    (h9 : (decode_tag_number_and_value (req.drop off)).2.1 ≠ BACNET_APPLICATION_TAG_ENUMERATED)
    (h4 : (decode_tag_number_and_value (req.drop off)).2.1 ≠ BACNET_APPLICATION_TAG_REAL) :
    (decode_property_value req off).2 = none := by
  unfold decode_property_value
  simp only []
  rw [if_neg h0, if_neg h9, if_neg h4]

/-- A request with a `[2]` array index behind the property identifier is answered with
(services, property-is-not-a-list) before anything else is looked at. -/
theorem receive_writeproperty_array_index (w : World) (ot inst prop : Nat) (tail : List Nat)
    (len id : Nat) (hot : ot < 1024) (hinst : inst < 4194304) (hprop : prop < 2 ^ 32)
    (h2 : decode_is_context_tag tail 2 = true) :
    (receive_writeproperty w
        (encode_context_object_id 0 ot inst ++ encode_context_enumerated 1 prop ++ tail)
        len id).1 =
      send_error_response w id SERVICE_CONFIRMED_WRITE_PROPERTY ERROR_CLASS_SERVICES
        ERROR_CODE_PROPERTY_IS_NOT_A_LIST := by
  obtain ⟨h0, h0b, h1, h1b, h2b, h3, hdrop, _⟩ :=
    request_head_decode ot inst prop tail hot hinst hprop
  have hc2 : decode_is_context_tag (List.drop (6 + (unsigned_content prop).length)
      (encode_context_object_id 0 ot inst ++ encode_context_enumerated 1 prop ++ tail)) 2
      = true := by
    rw [hdrop]; exact h2
  generalize encode_context_object_id 0 ot inst ++ encode_context_enumerated 1 prop ++ tail
    = req at *
  generalize (unsigned_content prop).length = L at *
  unfold receive_writeproperty
  simp only [h0, h0b, h1, h1b, h2b, h3, hc2, if_true, Nat.reduceAdd]

/-- A request whose value carries a tag other than Null, Enumerated and Real is answered
with (property, invalid-data-type) before the object or the property is looked at. -/
theorem receive_writeproperty_other_tag (w : World) (ot inst prop : Nat) (tail : List Nat)
    (len id : Nat) (hot : ot < 1024) (hinst : inst < 4194304) (hprop : prop < 2 ^ 32)
    (h0 : (decode_tag_number_and_value tail).2.1 ≠ BACNET_APPLICATION_TAG_NULL)
    (h9 : (decode_tag_number_and_value tail).2.1 ≠ BACNET_APPLICATION_TAG_ENUMERATED)
    (h4 : (decode_tag_number_and_value tail).2.1 ≠ BACNET_APPLICATION_TAG_REAL) :
    (receive_writeproperty w
        (encode_context_object_id 0 ot inst ++ encode_context_enumerated 1 prop ++
          encode_opening_tag 3 ++ tail) len id).1 =
      send_error_response w id SERVICE_CONFIRMED_WRITE_PROPERTY ERROR_CLASS_PROPERTY
        ERROR_CODE_INVALID_DATA_TYPE := by
  have hreq : encode_context_object_id 0 ot inst ++ encode_context_enumerated 1 prop ++
      encode_opening_tag 3 ++ tail =
      encode_context_object_id 0 ot inst ++ encode_context_enumerated 1 prop ++
        (0x3E :: tail) := by
    simp [encode_opening_tag]
  obtain ⟨g0, g0b, g1, g1b, g2, g3, hdrop, _⟩ :=
    request_head_decode ot inst prop (0x3E :: tail) hot hinst hprop
  have hdrop1 : List.drop (6 + (unsigned_content prop).length + 1)
      (encode_context_object_id 0 ot inst ++ encode_context_enumerated 1 prop ++
        (0x3E :: tail)) = tail := by
    rw [← List.drop_drop, hdrop]; rfl
  have hd := decode_property_value_none
    (encode_context_object_id 0 ot inst ++ encode_context_enumerated 1 prop ++ (0x3E :: tail))
    (6 + (unsigned_content prop).length + 1)
    (by rw [hdrop1]; exact h0) (by rw [hdrop1]; exact h9) (by rw [hdrop1]; exact h4)
  have hc2 : decode_is_context_tag (List.drop (6 + (unsigned_content prop).length)
      (encode_context_object_id 0 ot inst ++ encode_context_enumerated 1 prop ++
        (0x3E :: tail))) 2 = false := by
    rw [hdrop]; simp [decode_is_context_tag, decode_tag_number, byte]
  have ho3 : decode_is_opening_tag_number (List.drop (6 + (unsigned_content prop).length)
      (encode_context_object_id 0 ot inst ++ encode_context_enumerated 1 prop ++
        (0x3E :: tail))) 3 = true := by
    rw [hdrop]; simp [decode_is_opening_tag_number, decode_tag_number, byte]
  rw [hreq]
  generalize encode_context_object_id 0 ot inst ++ encode_context_enumerated 1 prop ++
        (0x3E :: tail) = req at *
  generalize (unsigned_content prop).length = L at *
  unfold receive_writeproperty
  simp only [g0, g0b, g1, g1b, g2, g3, hc2, ho3, if_true, Bool.false_eq_true, if_false,
    Nat.reduceAdd]
  generalize hv : decode_property_value req (6 + L + 1) = dv at hd
  obtain ⟨t, d⟩ := dv
  simp only [] at hd
  subst hd
  rfl

/-- An Error PDU sent on the state of entry: one APDU more, nothing else changed. -/
theorem error_response_unchanged (w : World) (id c e : Nat) (hpool : 0 < w.pdu_pool) :
    (send_error_response w id SERVICE_CONFIRMED_WRITE_PROPERTY c e).sent =
      w.sent ++ [error_pdu id SERVICE_CONFIRMED_WRITE_PROPERTY c e] ∧
    (send_error_response w id SERVICE_CONFIRMED_WRITE_PROPERTY c e).objects = w.objects ∧
    (send_error_response w id SERVICE_CONFIRMED_WRITE_PROPERTY c e).relinquish_defaults =
      w.relinquish_defaults ∧
    ∀ inst2 Q x,
      (get_priority_value (send_error_response w id SERVICE_CONFIRMED_WRITE_PROPERTY c e)
        inst2 Q x).2 = (get_priority_value w inst2 Q x).2 := by
  have heng := send_error_response_engine w id SERVICE_CONFIRMED_WRITE_PROPERTY c e
  exact ⟨send_error_response_sent w id _ c e hpool, heng.1, heng.2.2.2.1,
    fun inst2 Q x => get_priority_value_engine _ _ heng inst2 Q x⟩

/-- C20 (amended): the Error PDU that answers a WriteProperty request which cannot be
carried out, in the order in which `receive_writeproperty` decides it, on a reachable state
with a free buffer.  (1) A well-formed request that carries a Null, an Enumerated or a
Real, no array index, and targets an object of the store on a property that the table of
spec section 4.4 does not list as writable for the object's type is answered with
(property, write-access-denied).  (2) Such a request for a target that `object_find` does
not find in the store is answered with (object, unknown-object), whatever the property.
(3) A request whose value carries any other tag is answered with (property,
invalid-data-type), and (4) a request with a `[2]` array index with (services,
property-is-not-a-list), both whatever the object and the property.  In all four cases
exactly this one APDU is sent, the object records and all relinquish-defaults are
unchanged, and every priority slot reads as before. -/
theorem not_writable_write_access_denied (w : World) (object_type inst property : Nat)
    (req : List Nat) (len invoke_id error_class error_code : Nat)
    (hw : Reachable w)
    (hot : object_type < 1024) (hinst : inst < 4194304) (hprop : property < 2 ^ 32)
    (hpool : 0 < w.pdu_pool)
    (hcase :
      (∃ (val : PropertyValue) (rest : List Nat) (o : ObjectRef),
        req = write_request object_type inst property val.encode rest ∧
        object_find w.objects object_type inst = some o ∧
        spec_writable object_type property = false ∧
        error_class = ERROR_CLASS_PROPERTY ∧ error_code = ERROR_CODE_WRITE_ACCESS_DENIED) ∨
      (∃ (val : PropertyValue) (rest : List Nat),
        req = write_request object_type inst property val.encode rest ∧
        object_find w.objects object_type inst = none ∧
        error_class = ERROR_CLASS_OBJECT ∧ error_code = ERROR_CODE_UNKNOWN_OBJECT) ∨
      (∃ tail : List Nat,
        req = encode_context_object_id 0 object_type inst ++
          encode_context_enumerated 1 property ++ encode_opening_tag 3 ++ tail ∧
        (decode_tag_number_and_value tail).2.1 ≠ BACNET_APPLICATION_TAG_NULL ∧
        (decode_tag_number_and_value tail).2.1 ≠ BACNET_APPLICATION_TAG_ENUMERATED ∧
        (decode_tag_number_and_value tail).2.1 ≠ BACNET_APPLICATION_TAG_REAL ∧
        error_class = ERROR_CLASS_PROPERTY ∧ error_code = ERROR_CODE_INVALID_DATA_TYPE) ∨
      (∃ tail : List Nat,
        req = encode_context_object_id 0 object_type inst ++
          encode_context_enumerated 1 property ++ tail ∧
        decode_is_context_tag tail 2 = true ∧
        error_class = ERROR_CLASS_SERVICES ∧ error_code = ERROR_CODE_PROPERTY_IS_NOT_A_LIST)) :
    (receive_writeproperty w req len invoke_id).1.sent =
      w.sent ++ [error_pdu invoke_id SERVICE_CONFIRMED_WRITE_PROPERTY error_class error_code] ∧
    (receive_writeproperty w req len invoke_id).1.objects = w.objects ∧
    (receive_writeproperty w req len invoke_id).1.relinquish_defaults = w.relinquish_defaults ∧
    ∀ inst2 Q x,
      (get_priority_value (receive_writeproperty w req len invoke_id).1 inst2 Q x).2 =
        (get_priority_value w inst2 Q x).2 := by
  rcases hcase with ⟨val, rest, o, hreq, hfind, hnw, hc, he⟩ | ⟨val, rest, hreq, hfind, hc, he⟩ |
    ⟨tail, hreq, h0, h9, h4, hc, he⟩ | ⟨tail, hreq, h2, hc, he⟩
  · subst hreq hc he
    obtain ⟨v, P, heq⟩ := receive_writeproperty_reaches_write w object_type inst property val
      rest len invoke_id hot hinst hprop
    rw [heq, write_not_writable w object_type inst property val.tag v P o hfind hnw]
    have heng := send_error_response_engine (initialize_priority_arrays w) invoke_id
      SERVICE_CONFIRMED_WRITE_PROPERTY ERROR_CLASS_PROPERTY ERROR_CODE_WRITE_ACCESS_DENIED
    have hok := reachable_binary_values w hw
    refine ⟨?_, ?_, ?_, fun inst2 Q x => ?_⟩
    · show (send_error_response _ _ _ _ _).sent = _
      rw [send_error_response_sent _ _ _ _ _ (by rw [(initialize_io w).2]; exact hpool),
        (initialize_io w).1]
    · exact heng.1.trans (initialize_objects w)
    · exact heng.2.2.2.1.trans (initialize_relinquish_defaults w hok)
    · exact (get_priority_value_engine _ _ heng inst2 Q x).trans
        (get_priority_value_init w inst2 Q x).symm
  · subst hreq hc he
    obtain ⟨v, P, heq⟩ := receive_writeproperty_reaches_write w object_type inst property val
      rest len invoke_id hot hinst hprop
    rw [heq, write_not_found w object_type inst property val.tag v P hfind]
    exact error_response_unchanged w invoke_id ERROR_CLASS_OBJECT ERROR_CODE_UNKNOWN_OBJECT hpool
  · subst hreq hc he
    rw [receive_writeproperty_other_tag w object_type inst property tail len invoke_id hot hinst
      hprop h0 h9 h4]
    exact error_response_unchanged w invoke_id ERROR_CLASS_PROPERTY ERROR_CODE_INVALID_DATA_TYPE
      hpool
  · subst hreq hc he
    rw [receive_writeproperty_array_index w object_type inst property tail len invoke_id hot
      hinst hprop h2]
    exact error_response_unchanged w invoke_id ERROR_CLASS_SERVICES
      ERROR_CODE_PROPERTY_IS_NOT_A_LIST hpool

/-- C20 (amended) on the start state with the default objects, one request for each of the
four cases: Enumerated 1 written to the present value of BI 3019 (write-access-denied), the
same written to the present value of Device 260, which is no record of the store
(unknown-object), the character string "x" written to the object-name of BO 4018
(invalid-data-type), and an Enumerated written to object-name[1] of BO 4018
(property-is-not-a-list). -/
theorem not_writable_write_access_denied_witness :
    ((receive_writeproperty scenario_start
        [0x0C, 0x00, 0xC0, 0x0B, 0xCB, 0x19, 0x55, 0x3E, 0x91, 0x01, 0x3F] 11 1).1.sent =
      scenario_start.sent ++ [error_pdu 1 SERVICE_CONFIRMED_WRITE_PROPERTY ERROR_CLASS_PROPERTY
        ERROR_CODE_WRITE_ACCESS_DENIED] ∧
     (receive_writeproperty scenario_start
        [0x0C, 0x00, 0xC0, 0x0B, 0xCB, 0x19, 0x55, 0x3E, 0x91, 0x01, 0x3F] 11 1).1.objects =
      scenario_start.objects) ∧
    ((receive_writeproperty scenario_start
        [0x0C, 0x02, 0x00, 0x01, 0x04, 0x19, 0x55, 0x3E, 0x91, 0x01, 0x3F] 11 1).1.sent =
      scenario_start.sent ++ [error_pdu 1 SERVICE_CONFIRMED_WRITE_PROPERTY ERROR_CLASS_OBJECT
        ERROR_CODE_UNKNOWN_OBJECT] ∧
     (receive_writeproperty scenario_start
        [0x0C, 0x02, 0x00, 0x01, 0x04, 0x19, 0x55, 0x3E, 0x91, 0x01, 0x3F] 11 1).1.objects =
      scenario_start.objects) ∧
    ((receive_writeproperty scenario_start
        [0x0C, 0x01, 0x00, 0x0F, 0xB2, 0x19, 0x4D, 0x3E, 0x72, 0x00, 0x78, 0x3F] 12 1).1.sent =
      scenario_start.sent ++ [error_pdu 1 SERVICE_CONFIRMED_WRITE_PROPERTY ERROR_CLASS_PROPERTY
        ERROR_CODE_INVALID_DATA_TYPE] ∧
     (receive_writeproperty scenario_start
        [0x0C, 0x01, 0x00, 0x0F, 0xB2, 0x19, 0x4D, 0x3E, 0x72, 0x00, 0x78, 0x3F] 12 1).1.objects =
      scenario_start.objects) ∧
    ((receive_writeproperty scenario_start
        [0x0C, 0x01, 0x00, 0x0F, 0xB2, 0x19, 0x4D, 0x29, 0x01, 0x3E, 0x91, 0x00, 0x3F]
        13 1).1.sent =
      scenario_start.sent ++ [error_pdu 1 SERVICE_CONFIRMED_WRITE_PROPERTY ERROR_CLASS_SERVICES
        ERROR_CODE_PROPERTY_IS_NOT_A_LIST] ∧
     (receive_writeproperty scenario_start
        [0x0C, 0x01, 0x00, 0x0F, 0xB2, 0x19, 0x4D, 0x29, 0x01, 0x3E, 0x91, 0x00, 0x3F]
        13 1).1.objects = scenario_start.objects) :=
  have h1 := not_writable_write_access_denied scenario_start OBJECT_BINARY_INPUT 3019
    PROP_PRESENT_VALUE [0x0C, 0x00, 0xC0, 0x0B, 0xCB, 0x19, 0x55, 0x3E, 0x91, 0x01, 0x3F] 11 1
    ERROR_CLASS_PROPERTY ERROR_CODE_WRITE_ACCESS_DENIED (Reachable.start _ _ _ (by decide))
    (by decide) (by decide) (by decide) (by decide)
    (Or.inl ⟨PropertyValue.enumerated 1, [], _, by decide, by rfl, by decide, rfl, rfl⟩)
  have h2 := not_writable_write_access_denied scenario_start OBJECT_DEVICE 260
    PROP_PRESENT_VALUE [0x0C, 0x02, 0x00, 0x01, 0x04, 0x19, 0x55, 0x3E, 0x91, 0x01, 0x3F] 11 1
    ERROR_CLASS_OBJECT ERROR_CODE_UNKNOWN_OBJECT (Reachable.start _ _ _ (by decide))
    (by decide) (by decide) (by decide) (by decide)
    (Or.inr (Or.inl ⟨PropertyValue.enumerated 1, [], by decide, by decide, rfl, rfl⟩))
  have h3 := not_writable_write_access_denied scenario_start OBJECT_BINARY_OUTPUT 4018
    PROP_OBJECT_NAME [0x0C, 0x01, 0x00, 0x0F, 0xB2, 0x19, 0x4D, 0x3E, 0x72, 0x00, 0x78, 0x3F]
    12 1 ERROR_CLASS_PROPERTY ERROR_CODE_INVALID_DATA_TYPE (Reachable.start _ _ _ (by decide))
    (by decide) (by decide) (by decide) (by decide)
    (Or.inr (Or.inr (Or.inl ⟨[0x72, 0x00, 0x78, 0x3F], by decide, by decide, by decide,
      by decide, rfl, rfl⟩)))
  have h4 := not_writable_write_access_denied scenario_start OBJECT_BINARY_OUTPUT 4018
    PROP_OBJECT_NAME
    [0x0C, 0x01, 0x00, 0x0F, 0xB2, 0x19, 0x4D, 0x29, 0x01, 0x3E, 0x91, 0x00, 0x3F] 13 1
    ERROR_CLASS_SERVICES ERROR_CODE_PROPERTY_IS_NOT_A_LIST (Reachable.start _ _ _ (by decide))
    (by decide) (by decide) (by decide) (by decide)
    (Or.inr (Or.inr (Or.inr ⟨[0x29, 0x01, 0x3E, 0x91, 0x00, 0x3F], by decide, by decide,
      rfl, rfl⟩)))
  ⟨⟨h1.1, h1.2.1⟩, ⟨h2.1, h2.2.1⟩, ⟨h3.1, h3.2.1⟩, ⟨h4.1, h4.2.1⟩⟩

/-- Counterexample to C20 as stated, on the start state with the default objects.  A
WriteProperty of object-name (not writable) on BO 4018 that carries the character string
"x" is answered with (property, invalid-data-type), and one that carries an array index
with (services, property-is-not-a-list).  A WriteProperty of present-value on Device 260,
the object that `receive_readproperty` answers for (its object-identifier is read with a
ComplexACK), is answered with (object, unknown-object), since the Device is no record of
the object store.  None of the three is the Error PDU carrying (property,
write-access-denied). -/
theorem object_name_write_invalid_data_type :
    (receive_writeproperty scenario_start
        [0x0C, 0x01, 0x00, 0x0F, 0xB2, 0x19, 0x4D, 0x3E, 0x72, 0x00, 0x78, 0x3F] 12 1).1.sent =
      [error_pdu 1 SERVICE_CONFIRMED_WRITE_PROPERTY ERROR_CLASS_PROPERTY
        ERROR_CODE_INVALID_DATA_TYPE] ∧
    (receive_writeproperty scenario_start
        [0x0C, 0x01, 0x00, 0x0F, 0xB2, 0x19, 0x4D, 0x29, 0x01, 0x3E, 0x91, 0x00, 0x3F] 13 1).1.sent =
      [error_pdu 1 SERVICE_CONFIRMED_WRITE_PROPERTY ERROR_CLASS_SERVICES
        ERROR_CODE_PROPERTY_IS_NOT_A_LIST] ∧
    (receive_writeproperty scenario_start
        [0x0C, 0x02, 0x00, 0x01, 0x04, 0x19, 0x55, 0x3E, 0x91, 0x01, 0x3F] 11 1).1.sent =
      [[0x50, 1, 0x0F, 0x91, 0x01, 0x91, 0x1F]] ∧
    [0x50, 1, 0x0F, 0x91, 0x01, 0x91, 0x1F] =
      error_pdu 1 SERVICE_CONFIRMED_WRITE_PROPERTY ERROR_CLASS_OBJECT
        ERROR_CODE_UNKNOWN_OBJECT ∧
    (receive_readproperty scenario_start [0x0C, 0x02, 0x00, 0x01, 0x04, 0x19, 0x4B] 7 480
        1).1.sent =
      [[0x30, 1, 0x0C, 0x0C, 0x02, 0x00, 0x01, 0x04, 0x19, 0x4B, 0x3E,
        0xC4, 0x02, 0x00, 0x01, 0x04, 0x3F]] ∧
    object_find scenario_start.objects OBJECT_DEVICE 260 = none ∧
    error_pdu 1 SERVICE_CONFIRMED_WRITE_PROPERTY ERROR_CLASS_PROPERTY
        ERROR_CODE_INVALID_DATA_TYPE ≠
      error_pdu 1 SERVICE_CONFIRMED_WRITE_PROPERTY ERROR_CLASS_PROPERTY
        ERROR_CODE_WRITE_ACCESS_DENIED ∧
    error_pdu 1 SERVICE_CONFIRMED_WRITE_PROPERTY ERROR_CLASS_SERVICES
        ERROR_CODE_PROPERTY_IS_NOT_A_LIST ≠
      error_pdu 1 SERVICE_CONFIRMED_WRITE_PROPERTY ERROR_CLASS_PROPERTY
        ERROR_CODE_WRITE_ACCESS_DENIED ∧
    error_pdu 1 SERVICE_CONFIRMED_WRITE_PROPERTY ERROR_CLASS_OBJECT
        ERROR_CODE_UNKNOWN_OBJECT ≠
      error_pdu 1 SERVICE_CONFIRMED_WRITE_PROPERTY ERROR_CLASS_PROPERTY
        ERROR_CODE_WRITE_ACCESS_DENIED ∧
    spec_writable OBJECT_BINARY_OUTPUT PROP_OBJECT_NAME = false ∧
    spec_writable OBJECT_DEVICE PROP_PRESENT_VALUE = false := by
  refine ⟨by decide, by decide, by decide, by decide, by decide, by decide, by decide,
    by decide, by decide, by decide, by decide⟩

/-! ## Rejected writes -/

/-- Once the arrays are initialised, a call of `write_object_property_value` either leaves
the whole state as it was or returns 0. -/
theorem write_unchanged_or_accepted (w : World) (ot inst prop tag v P : Nat)
    (hinit : w.arrays_initialized = true) :
    (write_object_property_value w ot inst prop tag v P).1 = w ∨
    (write_object_property_value w ot inst prop tag v P).2 = 0 := by
  unfold write_object_property_value
  cases object_find w.objects ot inst with
  | none => exact Or.inl rfl
  | some o =>
    simp only []
    rw [initialize_idem w hinit]
    by_cases hpv : prop = PROP_PRESENT_VALUE
    · rw [if_pos hpv]
      by_cases hobj : is_gpio_output ot inst = true
      · rw [if_pos hobj]
        cases get_priority_index inst with
        | none => exact Or.inl rfl
        | some idx =>
          simp only []
          by_cases hP : P < 1 ∨ P > 16
          · rw [if_pos hP]; exact Or.inl rfl
          · rw [if_neg hP]
            cases store_priority w idx ot tag v P with
            | none => exact Or.inl rfl
            | some w1 =>
              simp only []
              by_cases hbo : ot = OBJECT_BINARY_OUTPUT
              · rw [if_pos hbo]; exact Or.inr rfl
              · rw [if_neg hbo]; exact Or.inr rfl
      · rw [if_neg hobj]
        by_cases hbo : ot = OBJECT_BINARY_OUTPUT
        · rw [if_pos hbo]
          by_cases ht : tag = BACNET_APPLICATION_TAG_ENUMERATED
          · rw [if_pos ht]; exact Or.inr rfl
          · rw [if_neg ht]; exact Or.inl rfl
        · rw [if_neg hbo]
          by_cases hao : ot = OBJECT_ANALOG_OUTPUT
          · rw [if_pos hao]
            by_cases ht : tag = BACNET_APPLICATION_TAG_REAL
            · rw [if_pos ht]; exact Or.inr rfl
            · rw [if_neg ht]; exact Or.inl rfl
          · rw [if_neg hao]; exact Or.inl rfl
    · rw [if_neg hpv]
      by_cases hrd : prop = PROP_RELINQUISH_DEFAULT
      · rw [if_pos hrd]
        by_cases hobj : is_gpio_output ot inst = true
        · rw [if_pos hobj]
          by_cases hbo : ot = OBJECT_BINARY_OUTPUT
          · rw [if_pos hbo]
            by_cases ht : tag = BACNET_APPLICATION_TAG_ENUMERATED
            · rw [if_pos ht]; exact Or.inr rfl
            · rw [if_neg ht]; exact Or.inl rfl
          · rw [if_neg hbo]
            by_cases hao : ot = OBJECT_ANALOG_OUTPUT
            · rw [if_pos hao]
              by_cases ht : tag = BACNET_APPLICATION_TAG_REAL
              · rw [if_pos ht]; exact Or.inr rfl
              · rw [if_neg ht]; exact Or.inl rfl
            · rw [if_neg hao]; exact Or.inl rfl
        · rw [if_neg hobj]; exact Or.inl rfl
      · rw [if_neg hrd]; exact Or.inl rfl

/-- C27: rejected writes are atomic.  When the priority arrays are initialised and
`write_object_property_value` returns a non-zero status, the state after the call is the
state before it: every priority slot, every relinquish-default and every object's
present value are as before, and the record of effector calls (`pin_writes`, `hw_log`)
has no new entry. -/
theorem rejected_write_atomic (w : World) (ot inst prop tag v P : Nat)
    (hinit : w.arrays_initialized = true)
    (hrej : (write_object_property_value w ot inst prop tag v P).2 ≠ 0) :
    (write_object_property_value w ot inst prop tag v P).1 = w ∧
    (write_object_property_value w ot inst prop tag v P).1.priority_null = w.priority_null ∧
    (write_object_property_value w ot inst prop tag v P).1.priority_arrays
      = w.priority_arrays ∧
    (write_object_property_value w ot inst prop tag v P).1.relinquish_defaults
      = w.relinquish_defaults ∧
    (write_object_property_value w ot inst prop tag v P).1.objects = w.objects ∧
    (write_object_property_value w ot inst prop tag v P).1.pin_writes = w.pin_writes ∧
    (write_object_property_value w ot inst prop tag v P).1.hw_log = w.hw_log := by
  rcases write_unchanged_or_accepted w ot inst prop tag v P hinit with h | h
  · rw [h]; exact ⟨rfl, rfl, rfl, rfl, rfl, rfl, rfl⟩
  · exact absurd h hrej

/-- C27 at BO 4018 holding ACTIVE at priority 8: a Real written to its present value is
rejected and changes nothing. -/
theorem rejected_write_atomic_witness :
    scenario_active8.arrays_initialized = true ∧
    (write_object_property_value scenario_active8 OBJECT_BINARY_OUTPUT 4018 PROP_PRESENT_VALUE
      BACNET_APPLICATION_TAG_REAL 0 8).2 = -3 ∧
    (write_object_property_value scenario_active8 OBJECT_BINARY_OUTPUT 4018 PROP_PRESENT_VALUE
      BACNET_APPLICATION_TAG_REAL 0 8).1 = scenario_active8 :=
  ⟨by decide, by decide,
   (rejected_write_atomic scenario_active8 OBJECT_BINARY_OUTPUT 4018 PROP_PRESENT_VALUE
      BACNET_APPLICATION_TAG_REAL 0 8 (by decide) (by decide)).1⟩

/-! ## Device properties: protocol-services-supported and object-list -/

/-- The 40 bits of protocol-services-supported, bit by bit. -/
theorem services_supported_bits (config : Config) :
    services_supported config = (List.range MAX_BACNET_SERVICES_SUPPORTED).map (fun i =>
      decide (i = SERVICE_SUPPORTED_WHO_IS ∨ i = SERVICE_SUPPORTED_I_AM ∨
        i = SERVICE_SUPPORTED_READ_PROPERTY ∨
        (i = SERVICE_SUPPORTED_TIME_SYNCHRONIZATION ∧ config.BACnet_Time_Sync_Seconds ≠ 0) ∨
        (i = SERVICE_SUPPORTED_CONFIRMED_COV_NOTIFICATION ∧ config.BACnet_COV_Support ≠ 0))) := by
  have key : ∀ a b : Bool,
      (if b = true then
        bitstring_set_bit
          (if a = true then
            bitstring_set_bit
              (bitstring_set_bit
                (bitstring_set_bit
                  (bitstring_set_bit
                    (List.foldl (fun b i => bitstring_set_bit b i false) []
                      (List.range MAX_BACNET_SERVICES_SUPPORTED))
                    SERVICE_SUPPORTED_WHO_IS true)
                  SERVICE_SUPPORTED_I_AM true)
                SERVICE_SUPPORTED_READ_PROPERTY true)
              SERVICE_SUPPORTED_TIME_SYNCHRONIZATION true
          else
            bitstring_set_bit
              (bitstring_set_bit
                (bitstring_set_bit
                  (List.foldl (fun b i => bitstring_set_bit b i false) []
                    (List.range MAX_BACNET_SERVICES_SUPPORTED))
                  SERVICE_SUPPORTED_WHO_IS true)
                SERVICE_SUPPORTED_I_AM true)
              SERVICE_SUPPORTED_READ_PROPERTY true)
          SERVICE_SUPPORTED_CONFIRMED_COV_NOTIFICATION true
      else
        if a = true then
          bitstring_set_bit
            (bitstring_set_bit
              (bitstring_set_bit
                (bitstring_set_bit
                  (List.foldl (fun b i => bitstring_set_bit b i false) []
                    (List.range MAX_BACNET_SERVICES_SUPPORTED))
                  SERVICE_SUPPORTED_WHO_IS true)
                SERVICE_SUPPORTED_I_AM true)
              SERVICE_SUPPORTED_READ_PROPERTY true)
            SERVICE_SUPPORTED_TIME_SYNCHRONIZATION true
        else
          bitstring_set_bit
            (bitstring_set_bit
              (bitstring_set_bit
                (List.foldl (fun b i => bitstring_set_bit b i false) []
                  (List.range MAX_BACNET_SERVICES_SUPPORTED))
                SERVICE_SUPPORTED_WHO_IS true)
              SERVICE_SUPPORTED_I_AM true)
            SERVICE_SUPPORTED_READ_PROPERTY true) =
      (List.range MAX_BACNET_SERVICES_SUPPORTED).map (fun i =>
        decide (i = SERVICE_SUPPORTED_WHO_IS ∨ i = SERVICE_SUPPORTED_I_AM ∨
          i = SERVICE_SUPPORTED_READ_PROPERTY ∨
          (i = SERVICE_SUPPORTED_TIME_SYNCHRONIZATION ∧ a = true) ∨
          (i = SERVICE_SUPPORTED_CONFIRMED_COV_NOTIFICATION ∧ b = true))) := by
    decide
  have h := key (decide (config.BACnet_Time_Sync_Seconds ≠ 0))
    (decide (config.BACnet_COV_Support ≠ 0))
  simp only [decide_eq_true_eq] at h
  unfold services_supported
  exact h

/-- C25: the bit string that `encode_device_property` builds for
protocol-services-supported has 40 bits; the bits of who-is, i-am and read-property are
set, the time-synchronization bit is set iff time sync is enabled, the
confirmed-cov-notification bit iff COV support is enabled, and every other bit is clear.
The write-property bit is among the clear ones, while the claim lists it as set. -/
theorem write_property_service_not_advertised (w : World) (array_index : Nat) :
    encode_device_property w PROP_PROTOCOL_SERVICES_SUPPORTED array_index =
      encode_tagged_bitstring (services_supported w.config) ∧
    (services_supported w.config).length = MAX_BACNET_SERVICES_SUPPORTED ∧
    (∀ i : Fin MAX_BACNET_SERVICES_SUPPORTED,
      (services_supported w.config).getD i.val false =
        decide (i.val = SERVICE_SUPPORTED_WHO_IS ∨ i.val = SERVICE_SUPPORTED_I_AM ∨
          i.val = SERVICE_SUPPORTED_READ_PROPERTY ∨
          (i.val = SERVICE_SUPPORTED_TIME_SYNCHRONIZATION ∧
            w.config.BACnet_Time_Sync_Seconds ≠ 0) ∨
          (i.val = SERVICE_SUPPORTED_CONFIRMED_COV_NOTIFICATION ∧
            w.config.BACnet_COV_Support ≠ 0))) ∧
    (services_supported w.config).getD SERVICE_SUPPORTED_WRITE_PROPERTY true = false := by
  refine ⟨rfl, ?_, ?_, ?_⟩
  · rw [services_supported_bits]; simp
  · intro i
    rw [services_supported_bits]
    rw [List.getD_eq_getElem?_getD, List.getElem?_map,
      List.getElem?_range i.isLt]
    rfl
  · rw [services_supported_bits]
    rw [List.getD_eq_getElem?_getD, List.getElem?_map,
      List.getElem?_range (by decide)]
    simp [SERVICE_SUPPORTED_WRITE_PROPERTY, SERVICE_SUPPORTED_WHO_IS, SERVICE_SUPPORTED_I_AM,
      SERVICE_SUPPORTED_READ_PROPERTY, SERVICE_SUPPORTED_TIME_SYNCHRONIZATION,
      SERVICE_SUPPORTED_CONFIRMED_COV_NOTIFICATION]

/-- C26, as the code has it: the Device's object-list is a fixed table, whatever the object
store holds.  Index 0 gives the unsigned 6; the indices 1..6 give the Device itself,
BO 4018, BI 3019, AI 1020, AO 2021 and BO 4026; every other index (ALL among them) gives
no bytes, which `receive_readproperty` answers with Error (property, unknown-property). -/
theorem object_list_is_fixed_table (w : World) :
    encode_device_property w PROP_OBJECT_LIST 0 = encode_tagged_unsigned 6 ∧
    encode_device_property w PROP_OBJECT_LIST 1 =
      encode_tagged_object_id OBJECT_DEVICE w.config.BACnet_Device_Instance ∧
    encode_device_property w PROP_OBJECT_LIST 2 =
      encode_tagged_object_id OBJECT_BINARY_OUTPUT 4018 ∧
    encode_device_property w PROP_OBJECT_LIST 3 =
      encode_tagged_object_id OBJECT_BINARY_INPUT 3019 ∧
    encode_device_property w PROP_OBJECT_LIST 4 =
      encode_tagged_object_id OBJECT_ANALOG_INPUT 1020 ∧
    encode_device_property w PROP_OBJECT_LIST 5 =
      encode_tagged_object_id OBJECT_ANALOG_OUTPUT 2021 ∧
    encode_device_property w PROP_OBJECT_LIST 6 =
      encode_tagged_object_id OBJECT_BINARY_OUTPUT 4026 ∧
    (∀ k, encode_device_property w PROP_OBJECT_LIST (7 + k) = []) ∧
    (∀ k max_apdu invoke_id, send_read_response w
        (complex_ack_header invoke_id OBJECT_DEVICE w.config.BACnet_Device_Instance
          PROP_OBJECT_LIST (7 + k))
        (encode_device_property w PROP_OBJECT_LIST (7 + k)) max_apdu invoke_id =
      send_error_address w invoke_id SERVICE_CONFIRMED_READ_PROPERTY ERROR_CLASS_PROPERTY
        ERROR_CODE_UNKNOWN_PROPERTY) := by
  have h7 : ∀ k, encode_device_property w PROP_OBJECT_LIST (7 + k) = [] := by
    intro k
    have e0 : ¬ (7 + k = 0) := by omega
    have e1 : ¬ (7 + k = 1) := by omega
    have e2 : ¬ (7 + k = 2) := by omega
    have e3 : ¬ (7 + k = 3) := by omega
    have e4 : ¬ (7 + k = 4) := by omega
    have e5 : ¬ (7 + k = 5) := by omega
    have e6 : ¬ (7 + k = 6) := by omega
    simp [encode_device_property, PROP_OBJECT_LIST, PROP_OBJECT_IDENTIFIER, PROP_OBJECT_NAME,
      PROP_OBJECT_TYPE, PROP_DESCRIPTION, PROP_SYSTEM_STATUS, PROP_VENDOR_NAME,
      PROP_VENDOR_IDENTIFIER, PROP_MODEL_NAME, PROP_FIRMWARE_REVISION,
      PROP_APPLICATION_SOFTWARE_VERSION, PROP_LOCAL_TIME, PROP_LOCAL_DATE,
      PROP_PROTOCOL_VERSION, PROP_PROTOCOL_CONFORMANCE_CLASS, PROP_PROTOCOL_SERVICES_SUPPORTED,
      PROP_PROTOCOL_OBJECT_TYPES_SUPPORTED, e0, e1, e2, e3, e4, e5, e6]
  refine ⟨rfl, rfl, rfl, rfl, rfl, rfl, rfl, h7, ?_⟩
  intro k max_apdu invoke_id
  rw [h7 k]
  rfl

/-- C26 fails on the start state with the default objects: the store holds two objects
(BO 4018 and BI 3019), yet object-list[0] answers 6 (bytes 21 06) and object-list[4]
answers the identifier of AI 1020 (bytes C4 00 00 03 FC), an object that is not in the
store; the two requests are answered with these values in ComplexACKs. -/
theorem object_list_names_absent_objects :
    scenario_start.objects.length = 2 ∧
    object_find scenario_start.objects OBJECT_ANALOG_INPUT 1020 = none ∧
    (receive_readproperty scenario_start
        (read_request OBJECT_DEVICE 260 PROP_OBJECT_LIST (encode_context_unsigned 2 0)) 9 480
        1).1.sent =
      [[0x30, 1, 0x0C, 0x0C, 0x02, 0x00, 0x01, 0x04, 0x19, 0x4C, 0x29, 0x00, 0x3E,
        0x21, 0x06, 0x3F]] ∧
    (receive_readproperty scenario_start
        (read_request OBJECT_DEVICE 260 PROP_OBJECT_LIST (encode_context_unsigned 2 4)) 9 480
        1).1.sent =
      [[0x30, 1, 0x0C, 0x0C, 0x02, 0x00, 0x01, 0x04, 0x19, 0x4C, 0x29, 0x04, 0x3E,
        0xC4, 0x00, 0x00, 0x03, 0xFC, 0x3F]] := by
  decide

/-! ## The length handed to decode_enumerated -/

/-- C28, as the code has it: whatever content length `L` in 1..4 the tag of an
application-tagged Enumerated announces, `decode_property_value` hands the byte count of
the tag (1), not `L`, to `decode_enumerated`: the value passed on is the first content byte
alone and the offset moves on by two bytes, so for `L` of 2..4 the closing tag and the
`[4]` priority are looked for inside the content. -/
theorem enumerated_length_not_passed (req : List Nat) (offset L : Nat)
    (hL : 1 ≤ L ∧ L ≤ 4) (htag : byte (req.drop offset) 0 = 9 * 16 + L) :
    decode_property_value req offset =
      (BACNET_APPLICATION_TAG_ENUMERATED,
        some { is_null_write := false, enum_value := byte (req.drop (offset + 1)) 0 % 2 ^ 32,
               real_value := 0, offset := offset + 2 }) := by
  have h16 : (9 * 16 + L) / 16 = 9 := by omega
  have h8 : (9 * 16 + L) % 8 = L := by omega
  have ht : decode_tag_number_and_value (req.drop offset) = (1, 9, L) := by
    unfold decode_tag_number_and_value decode_tag_number
    simp only [htag, h16, h8]
    have e5 : ¬ (L = 5) := by omega
    have e67 : ¬ (L = 6 ∨ L = 7) := by omega
    simp [e5, e67]
  unfold decode_property_value
  simp only [ht]
  have hbe : big_endian (List.drop (offset + 1) req) 1 = byte (req.drop (offset + 1)) 0 % 2 ^ 32 := by
    simp [big_endian, List.range_succ]
  simp [BACNET_APPLICATION_TAG_ENUMERATED, BACNET_APPLICATION_TAG_NULL, decode_enumerated, hbe]

/-- C28 at the failing input: the request `0C 01 00 0F B2 19 55 3E 92 01 00 3F 49 08`
writes the Enumerated 256 (content bytes 01 00) to the Present-Value of BO 4018 at
priority 8.  The handler reads the value 1 from the first content byte, finds neither a
closing tag nor a `[4]` tag at the second one, and writes at the default priority 16: slot
16 is set, slot 8 stays Null. -/
theorem enumerated_length_not_passed_witness :
    write_request OBJECT_BINARY_OUTPUT 4018 PROP_PRESENT_VALUE
        (PropertyValue.enumerated 256).encode (encode_context_unsigned 4 8) =
      [0x0C, 0x01, 0x00, 0x0F, 0xB2, 0x19, 0x55, 0x3E, 0x92, 0x01, 0x00, 0x3F, 0x49, 0x08] ∧
    decode_property_value
        [0x0C, 0x01, 0x00, 0x0F, 0xB2, 0x19, 0x55, 0x3E, 0x92, 0x01, 0x00, 0x3F, 0x49, 0x08] 8 =
      (BACNET_APPLICATION_TAG_ENUMERATED,
        some { is_null_write := false, enum_value := 1, real_value := 0, offset := 10 }) ∧
    (receive_writeproperty scenario_start
        [0x0C, 0x01, 0x00, 0x0F, 0xB2, 0x19, 0x55, 0x3E, 0x92, 0x01, 0x00, 0x3F, 0x49, 0x08]
        14 7).1.sent = [[PDU_TYPE_SIMPLE_ACK, 7, SERVICE_CONFIRMED_WRITE_PROPERTY]] ∧
    (get_priority_value
        (receive_writeproperty scenario_start
          [0x0C, 0x01, 0x00, 0x0F, 0xB2, 0x19, 0x55, 0x3E, 0x92, 0x01, 0x00, 0x3F, 0x49, 0x08]
          14 7).1
        4018 16 { bits := 0 }).2 = (false, { bits := 1 }) ∧
    (get_priority_value
        (receive_writeproperty scenario_start
          [0x0C, 0x01, 0x00, 0x0F, 0xB2, 0x19, 0x55, 0x3E, 0x92, 0x01, 0x00, 0x3F, 0x49, 0x08]
          14 7).1
        4018 8 { bits := 0 }).2.1 = true :=
  ⟨by decide,
   enumerated_length_not_passed
     [0x0C, 0x01, 0x00, 0x0F, 0xB2, 0x19, 0x55, 0x3E, 0x92, 0x01, 0x00, 0x3F, 0x49, 0x08] 8 2
     (by decide) (by decide),
   by decide, by decide, by decide⟩

/-! ## The responses of receive_readproperty -/

theorem encode_requested_property_io (w : World) (ot inst prop idx : Nat) :
    (encode_requested_property w ot inst prop idx).1.sent = w.sent ∧
    (encode_requested_property w ot inst prop idx).1.pdu_pool = w.pdu_pool := by
  rcases encode_requested_property_world w ot inst prop idx with h | h
  · rw [h]; exact ⟨rfl, rfl⟩
  · rw [h]; exact initialize_io w

/-- The one APDU that `receive_readproperty` sends for a request: an Abort (other) when a tag
check fails or no buffer is free; else an Error (property, unknown-property) when the
encoder wrote nothing, an Abort (segmentation-not-supported) when the assembled APDU is
longer than `src_max_apdu`, and the assembled APDU otherwise. -/
theorem receive_readproperty_sent (w : World) (req : List Nat) (len max_apdu id : Nat) :
    ((decode_is_context_tag req 0 = false ∨
        (decode_tag_number_and_value (req.drop 5)).2.1 ≠ 1 ∨ w.pdu_pool = 0) ∧
      (receive_readproperty w req len max_apdu id).1.sent =
        w.sent ++ [[PDU_TYPE_ABORT, id, ABORT_REASON_OTHER]]) ∨
    (decode_is_context_tag req 0 = true ∧
      (decode_tag_number_and_value (req.drop 5)).2.1 = 1 ∧ w.pdu_pool ≠ 0 ∧
      ((read_response_value w req len = [] ∧
        (receive_readproperty w req len max_apdu id).1.sent =
          w.sent ++ [error_pdu id SERVICE_CONFIRMED_READ_PROPERTY ERROR_CLASS_PROPERTY
            ERROR_CODE_UNKNOWN_PROPERTY]) ∨
       (read_response_value w req len ≠ [] ∧
        (read_response_apdu w req len id).length > max_apdu ∧
        (receive_readproperty w req len max_apdu id).1.sent =
          w.sent ++ [[PDU_TYPE_ABORT, id, ABORT_REASON_SEGMENTATION_NOT_SUPPORTED]]) ∨
       (read_response_value w req len ≠ [] ∧
        (read_response_apdu w req len id).length ≤ max_apdu ∧
        (receive_readproperty w req len max_apdu id).1.sent =
          w.sent ++ [read_response_apdu w req len id]))) := by
  unfold receive_readproperty
  simp only []
  by_cases h0 : decode_is_context_tag req 0 = true
  · rw [if_pos h0]
    have hoid : (decode_object_id (req.drop 1)).1 = 4 := rfl
    simp only [hoid, Nat.reduceAdd]
    by_cases h1 : (decode_tag_number_and_value (req.drop 5)).2.1 ≠ 1
    · rw [if_pos h1]
      exact Or.inl ⟨Or.inr (Or.inl h1), rfl⟩
    · rw [if_neg h1]
      by_cases hp : w.pdu_pool = 0
      · simp only [pdu_alloc, if_pos hp]
        exact Or.inl ⟨Or.inr (Or.inr hp), rfl⟩
      · simp only [pdu_alloc, if_neg hp]
        refine Or.inr ⟨h0, not_not.mp h1, hp, ?_⟩
        have hio := (encode_requested_property_io { w with pdu_pool := w.pdu_pool - 1 }
          (decoded_read_request req len).1 (decoded_read_request req len).2.1
          (decoded_read_request req len).2.2.1 (decoded_read_request req len).2.2.2).1
        unfold read_response_apdu read_response_value
        unfold decoded_read_request at hio ⊢
        simp only [hoid, Nat.reduceAdd] at hio ⊢
        unfold send_read_response
        by_cases hv : (encode_requested_property { w with pdu_pool := w.pdu_pool - 1 }
            (decode_object_id (List.drop 1 req)).2.1 (decode_object_id (List.drop 1 req)).2.2
            (decode_enumerated
              (List.drop (5 + (decode_tag_number_and_value (List.drop 5 req)).1) req)
              (decode_tag_number_and_value (List.drop 5 req)).2.2).2
            (decode_array_index req len
              (5 + (decode_tag_number_and_value (List.drop 5 req)).1 +
                (decode_enumerated
                  (List.drop (5 + (decode_tag_number_and_value (List.drop 5 req)).1) req)
                  (decode_tag_number_and_value (List.drop 5 req)).2.2).1))).2 = []
        · left
          refine ⟨hv, ?_⟩
          rw [if_pos (by rw [hv]; rfl)]
          show _ ++ _ = _
          rw [hio]; rfl
        · right
          have hlen : ¬ ((encode_requested_property { w with pdu_pool := w.pdu_pool - 1 }
            (decode_object_id (List.drop 1 req)).2.1 (decode_object_id (List.drop 1 req)).2.2
            (decode_enumerated
              (List.drop (5 + (decode_tag_number_and_value (List.drop 5 req)).1) req)
              (decode_tag_number_and_value (List.drop 5 req)).2.2).2
            (decode_array_index req len
              (5 + (decode_tag_number_and_value (List.drop 5 req)).1 +
                (decode_enumerated
                  (List.drop (5 + (decode_tag_number_and_value (List.drop 5 req)).1) req)
                  (decode_tag_number_and_value (List.drop 5 req)).2.2).1))).2.length = 0) := by
            intro h; exact hv (List.length_eq_zero.mp h)
          rw [if_neg hlen]
          split_ifs with hgt
          · left
            refine ⟨hv, hgt, ?_⟩
            show _ ++ _ = _
            rw [hio]
          · right
            refine ⟨hv, not_lt.mp hgt, ?_⟩
            show _ ++ _ = _
            rw [hio]
  · rw [if_neg h0]
    exact Or.inl ⟨Or.inl (by simpa using h0), rfl⟩

/-! ## Shape and length of the ReadProperty response -/

theorem sent_last_eq (sent : List (List Nat)) (a b : List Nat) (s : List (List Nat))
    (h1 : s = sent ++ [a]) (h2 : s = sent ++ [b]) : a = b := by
  have h := List.append_cancel_left (h1.symm.trans h2)
  simpa using h

/-- A request in the shape of spec section 4.5 decodes to the key and the property that it
encodes. -/
theorem decoded_read_request_encoded (ot inst prop : Nat) (index : List Nat) (len : Nat)
    (hot : ot < 1024) (hinst : inst < 4194304) (hprop : prop < 2 ^ 32) :
    decoded_read_request (read_request ot inst prop index) len =
      (ot, inst, prop, decode_array_index (read_request ot inst prop index) len
        (6 + (unsigned_content prop).length)) := by
  obtain ⟨_, _, h1, _, h2, h3, _, _⟩ := request_head_decode ot inst prop index hot hinst hprop
  unfold decoded_read_request read_request
  simp only [h1, h2, h3, Nat.reduceAdd]

/-- C21: every ComplexACK that `receive_readproperty` sends is the concatenation of the
three header bytes (ComplexACK PDU type, the invoke-id of the request, the ReadProperty
service choice), the context-tag-0 encoding of the requested object identifier, the
context-tag-1 encoding of the requested property identifier, the context-tag-2 encoding of
the array index exactly when the array index of the request is not ALL, the opening tag 3,
the encoded property value and the closing tag 3. -/
theorem complex_ack_shape (w : World) (req : List Nat) (len max_apdu id : Nat)
    (apdu : List Nat)
    (hsent : (receive_readproperty w req len max_apdu id).1.sent = w.sent ++ [apdu])
    (hack : apdu.head? = some PDU_TYPE_COMPLEX_ACK) :
    apdu = [PDU_TYPE_COMPLEX_ACK, id, SERVICE_CONFIRMED_READ_PROPERTY] ++
      encode_context_object_id 0 (decoded_read_request req len).1
        (decoded_read_request req len).2.1 ++
      encode_context_enumerated 1 (decoded_read_request req len).2.2.1 ++
      (if (decoded_read_request req len).2.2.2 ≠ BACNET_ARRAY_ALL then
        encode_context_unsigned 2 (decoded_read_request req len).2.2.2 else []) ++
      encode_opening_tag 3 ++ read_response_value w req len ++ encode_closing_tag 3 := by
  rcases receive_readproperty_sent w req len max_apdu id with
    ⟨_, h⟩ | ⟨_, _, _, ⟨_, h⟩ | ⟨_, _, h⟩ | ⟨_, _, h⟩⟩
  · have e := sent_last_eq _ _ _ _ hsent h
    subst e
    exact absurd hack (by simp [PDU_TYPE_ABORT, PDU_TYPE_COMPLEX_ACK])
  · have e := sent_last_eq _ _ _ _ hsent h
    subst e
    exact absurd hack (by simp [error_pdu, PDU_TYPE_COMPLEX_ACK])
  · have e := sent_last_eq _ _ _ _ hsent h
    subst e
    exact absurd hack (by simp [PDU_TYPE_ABORT, PDU_TYPE_COMPLEX_ACK])
  · have e := sent_last_eq _ _ _ _ hsent h
    rw [e]
    rfl

/-- C21 on the request `0C 02 00 01 04 19 4B` (Device 260, object-identifier, no array
index): the ComplexACK sent, byte by byte; and for the request `0C 02 00 01 04 19 4C 29 00`
(object-list, array index 0) the ComplexACK carries the index as `29 00`. -/
theorem complex_ack_shape_witness :
    (receive_readproperty scenario_start [0x0C, 0x02, 0x00, 0x01, 0x04, 0x19, 0x4B] 7 480
        1).1.sent =
      scenario_start.sent ++
        [[0x30, 1, 0x0C, 0x0C, 0x02, 0x00, 0x01, 0x04, 0x19, 0x4B, 0x3E,
          0xC4, 0x02, 0x00, 0x01, 0x04, 0x3F]] ∧
    [0x30, 1, 0x0C, 0x0C, 0x02, 0x00, 0x01, 0x04, 0x19, 0x4B, 0x3E,
        0xC4, 0x02, 0x00, 0x01, 0x04, 0x3F] =
      [PDU_TYPE_COMPLEX_ACK, 1, SERVICE_CONFIRMED_READ_PROPERTY] ++
        encode_context_object_id 0 OBJECT_DEVICE 260 ++
        encode_context_enumerated 1 PROP_OBJECT_IDENTIFIER ++ [] ++
        encode_opening_tag 3 ++ encode_tagged_object_id OBJECT_DEVICE 260 ++
        encode_closing_tag 3 ∧
    [0x30, 1, 0x0C, 0x0C, 0x02, 0x00, 0x01, 0x04, 0x19, 0x4B, 0x3E,
        0xC4, 0x02, 0x00, 0x01, 0x04, 0x3F] =
      [PDU_TYPE_COMPLEX_ACK, 1, SERVICE_CONFIRMED_READ_PROPERTY] ++
        encode_context_object_id 0
          (decoded_read_request [0x0C, 0x02, 0x00, 0x01, 0x04, 0x19, 0x4B] 7).1
          (decoded_read_request [0x0C, 0x02, 0x00, 0x01, 0x04, 0x19, 0x4B] 7).2.1 ++
        encode_context_enumerated 1
          (decoded_read_request [0x0C, 0x02, 0x00, 0x01, 0x04, 0x19, 0x4B] 7).2.2.1 ++
        (if (decoded_read_request [0x0C, 0x02, 0x00, 0x01, 0x04, 0x19, 0x4B] 7).2.2.2
            ≠ BACNET_ARRAY_ALL then
          encode_context_unsigned 2
            (decoded_read_request [0x0C, 0x02, 0x00, 0x01, 0x04, 0x19, 0x4B] 7).2.2.2
         else []) ++
        encode_opening_tag 3 ++
        read_response_value scenario_start [0x0C, 0x02, 0x00, 0x01, 0x04, 0x19, 0x4B] 7 ++
        encode_closing_tag 3 ∧
    (receive_readproperty scenario_start [0x0C, 0x02, 0x00, 0x01, 0x04, 0x19, 0x4C, 0x29, 0x00]
        9 480 1).1.sent =
      scenario_start.sent ++
        [[PDU_TYPE_COMPLEX_ACK, 1, SERVICE_CONFIRMED_READ_PROPERTY] ++
          encode_context_object_id 0 OBJECT_DEVICE 260 ++
          encode_context_enumerated 1 PROP_OBJECT_LIST ++ encode_context_unsigned 2 0 ++
          encode_opening_tag 3 ++ encode_tagged_unsigned 6 ++ encode_closing_tag 3] :=
  ⟨by decide, by decide,
   complex_ack_shape scenario_start [0x0C, 0x02, 0x00, 0x01, 0x04, 0x19, 0x4B] 7 480 1
     [0x30, 1, 0x0C, 0x0C, 0x02, 0x00, 0x01, 0x04, 0x19, 0x4B, 0x3E,
       0xC4, 0x02, 0x00, 0x01, 0x04, 0x3F] (by decide) (by decide),
   by decide⟩

/-- C22: for every request and every `src_max_apdu`, `receive_readproperty` sends exactly
one APDU.  When the request passes the tag checks, a buffer is free and the encoder wrote
a value, that APDU is the assembled response if its length is at most `src_max_apdu`, and
the Abort with reason segmentation-not-supported if it is longer, so an over-long response
is never sent.  (The other cases send the Error for a property without value or the Abort
with reason other.) -/
theorem read_response_fits_or_abort (w : World) (req : List Nat) (len max_apdu id : Nat) :
    (receive_readproperty w req len max_apdu id).1.sent = w.sent ++
      [if decode_is_context_tag req 0 = true ∧
          (decode_tag_number_and_value (req.drop 5)).2.1 = 1 ∧ w.pdu_pool ≠ 0 then
        if read_response_value w req len = [] then
          error_pdu id SERVICE_CONFIRMED_READ_PROPERTY ERROR_CLASS_PROPERTY
            ERROR_CODE_UNKNOWN_PROPERTY
        else if (read_response_apdu w req len id).length ≤ max_apdu then
          read_response_apdu w req len id
        else [PDU_TYPE_ABORT, id, ABORT_REASON_SEGMENTATION_NOT_SUPPORTED]
       else [PDU_TYPE_ABORT, id, ABORT_REASON_OTHER]] := by
  rcases receive_readproperty_sent w req len max_apdu id with
    ⟨hc, h⟩ | ⟨h0, h1, hp, ⟨hv, h⟩ | ⟨hv, hl, h⟩ | ⟨hv, hl, h⟩⟩
  · have hn : ¬ (decode_is_context_tag req 0 = true ∧
        (decode_tag_number_and_value (req.drop 5)).2.1 = 1 ∧ w.pdu_pool ≠ 0) := by
      rintro ⟨a, b, c⟩
      rcases hc with hc | hc | hc
      · rw [hc] at a; exact Bool.false_ne_true a
      · exact hc b
      · exact c hc
    rw [if_neg hn]; exact h
  · rw [if_pos ⟨h0, h1, hp⟩, if_pos hv]; exact h
  · rw [if_pos ⟨h0, h1, hp⟩, if_neg hv, if_neg (not_le.mpr hl)]; exact h
  · rw [if_pos ⟨h0, h1, hp⟩, if_neg hv, if_pos hl]; exact h

/-- The two outcomes of the length check on the request `0C 02 00 01 04 19 4D` (Device 260,
object-name): the 27-byte response is sent to a peer that accepts 27 bytes, and a peer that
accepts 26 gets the Abort `70 01 04` instead. -/
theorem read_response_length_check_example :
    (read_response_apdu scenario_start [0x0C, 0x02, 0x00, 0x01, 0x04, 0x19, 0x4D] 7 1).length
      = 27 ∧
    (receive_readproperty scenario_start [0x0C, 0x02, 0x00, 0x01, 0x04, 0x19, 0x4D] 7 27
        1).1.sent =
      [read_response_apdu scenario_start [0x0C, 0x02, 0x00, 0x01, 0x04, 0x19, 0x4D] 7 1] ∧
    (receive_readproperty scenario_start [0x0C, 0x02, 0x00, 0x01, 0x04, 0x19, 0x4D] 7 26
        1).1.sent = [[0x70, 1, 4]] := by
  decide

/-- The cases object-identifier to inactive-text of `gpio_handle_read_property` never send
an APDU longer than `src_max_apdu` either; they answer an over-long one with the Error
(object, unknown-object) of the last lines of that function, not with an Abort. -/
theorem gpio_read_reply_sent (w : World) (invoke_id src_max_apdu : Nat) (apdu : List Nat) :
    (gpio_read_reply w invoke_id src_max_apdu apdu).1.sent = w.sent ++
      [if w.pdu_pool ≠ 0 ∧ apdu.length ≤ src_max_apdu then apdu
       else error_pdu invoke_id SERVICE_CONFIRMED_READ_PROPERTY ERROR_CLASS_OBJECT
        ERROR_CODE_UNKNOWN_OBJECT] := by
  unfold gpio_read_reply pdu_alloc
  by_cases hp : w.pdu_pool = 0
  · simp only [if_pos hp]
    rw [if_neg (by simp [hp])]
    rfl
  · simp only [if_neg hp]
    by_cases hl : apdu.length ≤ src_max_apdu
    · rw [if_pos hl, if_pos ⟨hp, hl⟩]; rfl
    · rw [if_neg hl, if_neg (by simp [hl])]; rfl

/-! ## Requests that do not decode -/

/-- The two tag checks that `receive_readproperty` does make: a first tag that is not
context tag 0, or a tag NUMBER other than 1 behind the object identifier, is answered with
exactly one Abort (other). -/
theorem rejected_read_request_aborts (w : World) (req : List Nat) (len max_apdu id : Nat)
    (h : decode_is_context_tag req 0 = false ∨
      (decode_tag_number_and_value (req.drop 5)).2.1 ≠ 1) :
    (receive_readproperty w req len max_apdu id).1.sent =
      w.sent ++ [[PDU_TYPE_ABORT, id, ABORT_REASON_OTHER]] := by
  rcases receive_readproperty_sent w req len max_apdu id with
    ⟨_, hs⟩ | ⟨h0, h1, _, _⟩
  · exact hs
  · rcases h with h | h
    · rw [h] at h0; exact absurd h0 Bool.false_ne_true
    · exact absurd h1 h

/-- C23 at the failing input: in the request `0C 02 00 01 04 11 4B` the tag behind the
object identifier of Device 260 is the APPLICATION tag 1 (byte 11), not context tag 1.
Line 393 of `receive_readproperty` compares the tag number only, so the request is taken
for a read of property 75 (object-identifier) and answered with a ComplexACK; no Abort is
sent. -/
theorem application_tag_1_not_rejected :
    decode_is_context_tag ([0x0C, 0x02, 0x00, 0x01, 0x04, 0x11, 0x4B].drop 5) 1 = false ∧
    decode_tag_number_and_value ([0x0C, 0x02, 0x00, 0x01, 0x04, 0x11, 0x4B].drop 5) =
      (1, 1, 1) ∧
    (receive_readproperty scenario_start [0x0C, 0x02, 0x00, 0x01, 0x04, 0x11, 0x4B] 7 480
        1).1.sent =
      [[PDU_TYPE_COMPLEX_ACK, 1, SERVICE_CONFIRMED_READ_PROPERTY, 0x0C, 0x02, 0x00, 0x01, 0x04,
        0x19, 0x4B, 0x3E, 0xC4, 0x02, 0x00, 0x01, 0x04, 0x3F]] := by
  decide

/-! ## The invoke-id of the responses -/

theorem send_error_response_forms (w : World) (id service_choice c e : Nat) :
    (send_error_response w id service_choice c e).sent = w.sent ∨
    (send_error_response w id service_choice c e).sent =
      w.sent ++ [error_pdu id service_choice c e] := by
  by_cases hp : w.pdu_pool = 0
  · left; simp [send_error_response, pdu_alloc, hp]
  · right; exact send_error_response_sent w id service_choice c e (by omega)

theorem send_simple_ack_forms (w : World) (id service_choice : Nat) :
    (send_simple_ack w id service_choice).sent = w.sent ∨
    (send_simple_ack w id service_choice).sent =
      w.sent ++ [[PDU_TYPE_SIMPLE_ACK, id, service_choice]] := by
  by_cases hp : w.pdu_pool = 0
  · left; simp [send_simple_ack, pdu_alloc, hp]
  · right; exact send_simple_ack_sent w id service_choice (by omega)

/-- What `send_write_response` sends: nothing when no buffer is free, else the SimpleACK
or an Error PDU, each with the invoke-id passed in. -/
theorem send_write_response_forms (w : World) (status : Int) (id : Nat) :
    (send_write_response w status id).sent = w.sent ∨
    (send_write_response w status id).sent =
      w.sent ++ [[PDU_TYPE_SIMPLE_ACK, id, SERVICE_CONFIRMED_WRITE_PROPERTY]] ∨
    ∃ c e, (send_write_response w status id).sent =
      w.sent ++ [error_pdu id SERVICE_CONFIRMED_WRITE_PROPERTY c e] := by
  unfold send_write_response
  split_ifs
  · rcases send_simple_ack_forms w id SERVICE_CONFIRMED_WRITE_PROPERTY with h | h
    · exact Or.inl h
    · exact Or.inr (Or.inl h)
  · rcases send_error_response_forms w id SERVICE_CONFIRMED_WRITE_PROPERTY ERROR_CLASS_OBJECT
      ERROR_CODE_UNKNOWN_OBJECT with h | h
    · exact Or.inl h
    · exact Or.inr (Or.inr ⟨_, _, h⟩)
  · rcases send_error_response_forms w id SERVICE_CONFIRMED_WRITE_PROPERTY ERROR_CLASS_PROPERTY
      ERROR_CODE_WRITE_ACCESS_DENIED with h | h
    · exact Or.inl h
    · exact Or.inr (Or.inr ⟨_, _, h⟩)
  · rcases send_error_response_forms w id SERVICE_CONFIRMED_WRITE_PROPERTY ERROR_CLASS_SERVICES
      ERROR_CODE_OTHER with h | h
    · exact Or.inl h
    · exact Or.inr (Or.inr ⟨_, _, h⟩)

/-- Every path of `receive_writeproperty` ends in `send_error_response` on the state of
entry or in `send_write_response` on a state with the same sent trace. -/
theorem receive_writeproperty_responses (P : World → Prop) (w : World) (req : List Nat)
    (len id : Nat)
    (h1 : ∀ c e, P (send_error_response w id SERVICE_CONFIRMED_WRITE_PROPERTY c e))
    (h2 : ∀ (w2 : World) (status : Int), w2.sent = w.sent → P (send_write_response w2 status id)) :
    P (receive_writeproperty w req len id).1 := by
  unfold receive_writeproperty
  simp only []
  split
  · split
    · split
      · exact h1 _ _
      · split
        · split
          · exact h1 _ _
          · rename_i value_tag d heq
            generalize decode_priority req len _ = priority
            generalize (decode_enumerated _ _).2 = property
            generalize (decode_object_id _).2.1 = object_type
            generalize (decode_object_id _).2.2 = inst
            rcases execute_write_cases w object_type inst property value_tag d priority with
              h | ⟨tag, v, h⟩
            · rw [h]; exact h2 w 0 rfl
            · rw [h]
              exact h2 (write_object_property_value w object_type inst property tag v priority).1
                (write_object_property_value w object_type inst property tag v priority).2
                (write_io_frame w _ _ _ _ _ _).1
        · exact h1 _ _
    · exact h1 _ _
  · exact h1 _ _

/-- C24: the invoke-id of every response equals the `invoke_id` argument, for every
value of it (the 256 values of a byte among them).  `receive_readproperty` sends exactly one
APDU (ComplexACK, Error or Abort) and its second byte is the invoke-id;
`receive_writeproperty` sends nothing (no free buffer), or the SimpleACK, which is exactly
the 3 bytes SimpleACK PDU type, invoke-id, WriteProperty service choice, or an Error PDU
whose second byte is the invoke-id. -/
theorem invoke_id_echoed (w : World) (req : List Nat) (len max_apdu id : Nat) :
    (∃ apdu, (receive_readproperty w req len max_apdu id).1.sent = w.sent ++ [apdu] ∧
      apdu[1]? = some id) ∧
    ((receive_writeproperty w req len id).1.sent = w.sent ∨
     (receive_writeproperty w req len id).1.sent =
        w.sent ++ [[PDU_TYPE_SIMPLE_ACK, id, SERVICE_CONFIRMED_WRITE_PROPERTY]] ∨
     ∃ c e, (receive_writeproperty w req len id).1.sent =
        w.sent ++ [error_pdu id SERVICE_CONFIRMED_WRITE_PROPERTY c e] ∧
        (error_pdu id SERVICE_CONFIRMED_WRITE_PROPERTY c e)[1]? = some id) := by
  constructor
  · rcases receive_readproperty_sent w req len max_apdu id with
      ⟨_, h⟩ | ⟨_, _, _, ⟨_, h⟩ | ⟨_, _, h⟩ | ⟨_, _, h⟩⟩
    · exact ⟨_, h, rfl⟩
    · exact ⟨_, h, rfl⟩
    · exact ⟨_, h, rfl⟩
    · exact ⟨_, h, rfl⟩
  · apply receive_writeproperty_responses
      (fun w2 => w2.sent = w.sent ∨
        w2.sent = w.sent ++ [[PDU_TYPE_SIMPLE_ACK, id, SERVICE_CONFIRMED_WRITE_PROPERTY]] ∨
        ∃ c e, w2.sent = w.sent ++ [error_pdu id SERVICE_CONFIRMED_WRITE_PROPERTY c e] ∧
          (error_pdu id SERVICE_CONFIRMED_WRITE_PROPERTY c e)[1]? = some id)
    · intro c e
      rcases send_error_response_forms w id SERVICE_CONFIRMED_WRITE_PROPERTY c e with h | h
      · exact Or.inl h
      · exact Or.inr (Or.inr ⟨c, e, h, rfl⟩)
    · intro w2 status hs
      rcases send_write_response_forms w2 status id with h | h | ⟨c, e, h⟩
      · exact Or.inl (h.trans hs)
      · exact Or.inr (Or.inl (by rw [h, hs]))
      · exact Or.inr (Or.inr ⟨c, e, by rw [h, hs], rfl⟩)

/-! ## gpio_create_objects_from_config -/

/-- What `strstr` returns starts with the needle. -/
theorem strstr_prefix (s needle p : List Char) (h : strstr s needle = some p) :
    ∃ rest, p = needle ++ rest := by
  induction s with
  | nil =>
    unfold strstr at h
    split_ifs at h with hn
    cases h
    exact ⟨[], by simp [hn]⟩
  | cons c s ih =>
    unfold strstr at h
    split_ifs at h with hpre
    · cases h
      obtain ⟨rest, hr⟩ := List.isPrefixOf_iff_prefix.mp hpre
      exact ⟨rest, hr.symm⟩
    · exact ih h

/-- `strchr` steps over the characters that differ from the one looked for. -/
theorem strchr_append (k t : List Char) (ch : Char) (hk : ch ∉ k) :
    strchr (k ++ ch :: t) ch = some (ch :: t) := by
  induction k with
  | nil => simp [strchr]
  | cons c k ih =>
    have hc : ¬ (c = ch) := fun e => hk (by simp [e])
    have hk2 : ch ∉ k := fun e => hk (by simp [e])
    show strchr (c :: (k ++ ch :: t)) ch = _
    unfold strchr
    rw [if_neg hc]
    exact ih hk2

/-- The quoted text that the parser copies for a key is the key itself: `strchr` finds the
opening double quote of the key that `strstr` has just found, and the next double quote is
the one that closes the key.  The value behind the colon is never looked at. -/
theorem quoted_after_key (pin_config k : List Char) (size : Nat) (dflt : List Char)
    (hk : '"' ∉ k) (hsize : k.length < size) :
    quoted_after pin_config ('"' :: k ++ ['"', ':']) size dflt = k ∨
    quoted_after pin_config ('"' :: k ++ ['"', ':']) size dflt = dflt := by
  unfold quoted_after
  cases hs : strstr pin_config ('"' :: k ++ ['"', ':']) with
  | none => exact Or.inr rfl
  | some p =>
    obtain ⟨rest, hp⟩ := strstr_prefix _ _ _ hs
    subst hp
    left
    have h1 : strchr ('"' :: k ++ ['"', ':'] ++ rest) '"' =
        some ('"' :: k ++ ['"', ':'] ++ rest) := by
      simp [strchr]
    have h2 : List.drop 1 ('"' :: k ++ ['"', ':'] ++ rest) = k ++ '"' :: (':' :: rest) := by
      simp
    have h3 := strchr_append k (':' :: rest) '"' hk
    simp only [h1, h2, h3]
    have h4 : (k ++ '"' :: ':' :: rest).length - ('"' :: ':' :: rest).length = k.length := by
      simp
    rw [h4, if_pos hsize]
    simp

/-- One round of the loop never asks for a Binary-Output: the direction copied is the key
text "direction" or the default "input", never "output".  The name and the two state
texts are the key texts or the defaults as well. -/
theorem gpio_create_object_for_pin_cases (json_config : List Char) (gpio_pin : Nat)
    (r : NewObject) (h : gpio_create_object_for_pin json_config gpio_pin = some r) :
    r.type = OBJECT_BINARY_INPUT ∧
    (r.name = "name" ∨ r.name = String.mk ("GPIO ".toList ++ (toString gpio_pin).toList)) ∧
    (r.active = "high_unit" ∨ r.active = "High") ∧
    (r.inactive = "low_unit" ∨ r.inactive = "Low") := by
  unfold gpio_create_object_for_pin at h
  cases h1 : strstr json_config (('"' :: (toString gpio_pin).toList) ++ ['"']) with
  | none => rw [h1] at h; cases h
  | some pin_config =>
    rw [h1] at h
    simp only [] at h
    cases h2 : strstr pin_config "\"enabled\":".toList with
    | none => rw [h2] at h; cases h
    | some enabled_ptr =>
      rw [h2] at h
      simp only [] at h
      cases h3 : strstr enabled_ptr ":".toList with
      | none => rw [h3] at h; cases h
      | some colon =>
        rw [h3] at h
        simp only [] at h
        have hname : quoted_after pin_config "\"name\":".toList 64
              ("GPIO ".toList ++ (toString gpio_pin).toList) = "name".toList ∨
            quoted_after pin_config "\"name\":".toList 64
              ("GPIO ".toList ++ (toString gpio_pin).toList) =
              "GPIO ".toList ++ (toString gpio_pin).toList :=
          quoted_after_key pin_config "name".toList 64 _ (by decide) (by decide)
        have hdir : quoted_after pin_config "\"direction\":".toList 16 "input".toList =
              "direction".toList ∨
            quoted_after pin_config "\"direction\":".toList 16 "input".toList =
              "input".toList :=
          quoted_after_key pin_config "direction".toList 16 _ (by decide) (by decide)
        have hhigh : quoted_after pin_config "\"high_unit\":".toList 32 "High".toList =
              "high_unit".toList ∨
            quoted_after pin_config "\"high_unit\":".toList 32 "High".toList =
              "High".toList :=
          quoted_after_key pin_config "high_unit".toList 32 _ (by decide) (by decide)
        have hlow : quoted_after pin_config "\"low_unit\":".toList 32 "Low".toList =
              "low_unit".toList ∨
            quoted_after pin_config "\"low_unit\":".toList 32 "Low".toList =
              "Low".toList :=
          quoted_after_key pin_config "low_unit".toList 32 _ (by decide) (by decide)
        have hnot : ¬ (quoted_after pin_config "\"direction\":".toList 16 "input".toList =
            "output".toList) := by
          rcases hdir with e | e <;> rw [e] <;> decide
        by_cases hen : "true".toList.isPrefixOf (skip_blanks (colon.drop 1)) = true
        · rw [if_pos hen, if_neg hnot] at h
          cases h
          refine ⟨rfl, ?_, ?_, ?_⟩
          · rcases hname with e | e
            · left; show String.mk _ = _; rw [e]; rfl
            · right; show String.mk _ = _; rw [e]
          · rcases hhigh with e | e
            · left; show String.mk _ = _; rw [e]; rfl
            · right; show String.mk _ = _; rw [e]; rfl
          · rcases hlow with e | e
            · left; show String.mk _ = _; rw [e]; rfl
            · right; show String.mk _ = _; rw [e]; rfl
        · rw [if_neg hen] at h
          cases h

/-- Whatever the configuration text says, `gpio_create_objects_from_config` asks for
Binary-Inputs only. -/
theorem config_creates_inputs_only (json_config : String) (r : NewObject)
    (h : r ∈ gpio_create_objects_from_config json_config) : r.type = OBJECT_BINARY_INPUT := by
  unfold gpio_create_objects_from_config at h
  obtain ⟨pin, _, hpin⟩ := List.mem_filterMap.mp h
  exact (gpio_create_object_for_pin_cases _ pin r hpin).1

/-- C29, as the code has it: every object that `gpio_create_objects_from_config` asks for
is a Binary-Input, never a Binary-Output; its name is the key text "name" or the default
"GPIO n" of its pin, its active text the key text "high_unit" or the default "High", its
inactive text the key text "low_unit" or the default "Low".  The string values of the
entry ("direction": "output" among them) are never read. -/
theorem config_entry_values_not_read (json_config : String) (r : NewObject)
    (h : r ∈ gpio_create_objects_from_config json_config) :
    r.type = OBJECT_BINARY_INPUT ∧
    (r.name = "name" ∨
      ∃ gpio_pin, gpio_pin < 24 ∧
        r.name = String.mk ("GPIO ".toList ++ (toString gpio_pin).toList)) ∧
    (r.active = "high_unit" ∨ r.active = "High") ∧
    (r.inactive = "low_unit" ∨ r.inactive = "Low") := by
  unfold gpio_create_objects_from_config at h
  obtain ⟨pin, hmem, hpin⟩ := List.mem_filterMap.mp h
  obtain ⟨h1, h2, h3, h4⟩ := gpio_create_object_for_pin_cases _ pin r hpin
  refine ⟨h1, ?_, h3, h4⟩
  rcases h2 with e | e
  · exact Or.inl e
  · exact Or.inr ⟨pin, List.mem_range.mp hmem, e⟩

set_option maxRecDepth 100000 in
/-- C29 at the failing input: the configuration text
`{"17": {"enabled": true, "name": "Relay", "direction": "output", "instance": 17,
"high_unit": "On", "low_unit": "Off"}}` yields one object, the Binary-Input 3017 with the
name "name", the active text "high_unit" and the inactive text "low_unit", where the claim
expects the Binary-Output 4017 named "Relay" with the texts "On" and "Off". -/
theorem config_entry_values_not_read_witness :
    gpio_create_objects_from_config
        "\x7b\"17\": \x7b\"enabled\": true, \"name\": \"Relay\", \"direction\": \"output\", \"instance\": 17, \"high_unit\": \"On\", \"low_unit\": \"Off\"\x7d\x7d" =
      [{ type := OBJECT_BINARY_INPUT, inst := 3017, name := "name", active := "high_unit",
         inactive := "low_unit" }] ∧
    (({ type := OBJECT_BINARY_INPUT, inst := 3017, name := "name", active := "high_unit",
        inactive := "low_unit" } : NewObject).type = OBJECT_BINARY_INPUT ∧
     OBJECT_BINARY_INPUT ≠ OBJECT_BINARY_OUTPUT) :=
  ⟨by decide,
   (config_entry_values_not_read
      "\x7b\"17\": \x7b\"enabled\": true, \"name\": \"Relay\", \"direction\": \"output\", \"instance\": 17, \"high_unit\": \"On\", \"low_unit\": \"Off\"\x7d\x7d"
      { type := OBJECT_BINARY_INPUT, inst := 3017, name := "name", active := "high_unit",
        inactive := "low_unit" } (by decide)).1, by decide⟩

/-! ## The flags of gpio_priorities -/

/-- With `priorities_set` 0 the priority-array case of `gpio_handle_read_property` finds
every slot 1..16 unset and encodes the Null tag. -/
theorem gpio_priority_array_value_null (w : World) (ot inst : Nat) (P : Fin 16)
    (hg : ∀ i, (w.gpio_priorities i).priorities_set = 0) :
    gpio_priority_array_value w ot inst (P.val + 1) = some [0x00] := by
  unfold gpio_priority_array_value
  cases gpio_get_object_index inst with
  | none => rfl
  | some k =>
    have h0 : ¬ (P.val + 1 = 0) := by omega
    have h1 : P.val + 1 ≥ 1 ∧ P.val + 1 ≤ 16 := ⟨by omega, by have := P.isLt; omega⟩
    simp only [if_neg h0, if_pos h1, hg k, Nat.zero_and, ne_eq, not_true_eq_false, if_false]

theorem gpio_get_effective_value_default (w : World) (inst : Nat) (k : Fin 5)
    (hg : ∀ i, (w.gpio_priorities i).priorities_set = 0 ∧ (w.gpio_priorities i).out_of_service = 0)
    (hk : gpio_get_object_index inst = some k) :
    gpio_get_effective_value w inst = (w.gpio_priorities k).relinquish_default := by
  unfold gpio_get_effective_value
  rw [hk]
  simp only [(hg k).2, ne_eq, not_true_eq_false, if_false]
  exact first_set_zero _ (hg k).1 _

theorem gpio_read_priority_array_sent (w : World) (id ot inst prop max_apdu : Nat)
    (value : List Nat) (idx : Nat)
    (hv : ∀ w1 : World, w1.gpio_priorities = w.gpio_priorities →
      gpio_priority_array_value w1 ot inst idx = some value) :
    (gpio_read_priority_array w id ot inst prop idx max_apdu).1.sent =
      if w.pdu_pool ≠ 0 ∧ (gpio_read_ack id ot inst prop value).length ≤ max_apdu then
        w.sent ++ [gpio_read_ack id ot inst prop value]
      else w.sent := by
  unfold gpio_read_priority_array pdu_alloc
  by_cases hp : w.pdu_pool = 0
  · simp only [if_pos hp]
    rw [if_neg (by simp [hp])]
  · simp only [if_neg hp, hv { w with pdu_pool := w.pdu_pool - 1 } rfl]
    by_cases hl : (gpio_read_ack id ot inst prop value).length ≤ max_apdu
    · rw [if_pos hl, if_pos ⟨hp, hl⟩]; rfl
    · rw [if_neg hl, if_neg (by simp [hl])]; rfl

/-- The priority-array case of `gpio_handle_read_property` for an output object that is in
the store. -/
theorem gpio_handle_read_property_priority_array (w : World) (id ot inst idx max_apdu : Nat)
    (obj : ObjectRef) (hfind : object_find w.objects ot inst = some obj)
    (hot : ot = OBJECT_BINARY_OUTPUT ∨ ot = OBJECT_ANALOG_OUTPUT) :
    gpio_handle_read_property w id ot inst PROP_PRIORITY_ARRAY idx max_apdu =
      gpio_read_priority_array w id ot inst PROP_PRIORITY_ARRAY idx max_apdu := by
  unfold gpio_handle_read_property
  rw [hfind]
  simp only []
  rw [if_neg (by decide), if_neg (by decide), if_neg (by decide), if_neg (by decide),
    if_neg (by decide), if_neg (by decide), if_neg (by decide), if_neg (by decide),
    if_neg (by decide), if_pos trivial, if_pos hot]

/-- C30: in every reachable state the fields `priorities_set` and `out_of_service` of every
`gpio_priorities` entry are 0.  Hence `gpio_get_effective_value` returns the entry's
`relinquish_default` for each of the five known instances, and the priority-array case of
`gpio_handle_read_property` encodes the Null tag for every index 1..16 of every object:
the ComplexACK that it sends (when a buffer is free and the APDU fits) carries the value
`00`, whatever `write_object_property_value` has recorded. -/
theorem gpio_priorities_flags_stay_zero (w : World) (h : Reachable w) :
    (∀ i, (w.gpio_priorities i).priorities_set = 0 ∧
      (w.gpio_priorities i).out_of_service = 0) ∧
    gpio_get_effective_value w 4018 = (w.gpio_priorities 0).relinquish_default ∧
    gpio_get_effective_value w 3019 = (w.gpio_priorities 1).relinquish_default ∧
    gpio_get_effective_value w 1020 = (w.gpio_priorities 2).relinquish_default ∧
    gpio_get_effective_value w 2021 = (w.gpio_priorities 3).relinquish_default ∧
    gpio_get_effective_value w 4026 = (w.gpio_priorities 4).relinquish_default ∧
    (∀ (ot inst : Nat) (P : Fin 16),
      gpio_priority_array_value w ot inst (P.val + 1) = some [0x00]) ∧
    (∀ (id ot inst max_apdu : Nat) (P : Fin 16),
      (gpio_read_priority_array w id ot inst PROP_PRIORITY_ARRAY (P.val + 1) max_apdu).1.sent =
        if w.pdu_pool ≠ 0 ∧
            (gpio_read_ack id ot inst PROP_PRIORITY_ARRAY [0x00]).length ≤ max_apdu then
          w.sent ++ [gpio_read_ack id ot inst PROP_PRIORITY_ARRAY [0x00]]
        else w.sent) := by
  have hg := (reachable_present_values w h).2
  refine ⟨hg, gpio_get_effective_value_default w 4018 0 hg rfl,
    gpio_get_effective_value_default w 3019 1 hg rfl,
    gpio_get_effective_value_default w 1020 2 hg rfl,
    gpio_get_effective_value_default w 2021 3 hg rfl,
    gpio_get_effective_value_default w 4026 4 hg rfl, ?_, ?_⟩
  · exact fun ot inst P => gpio_priority_array_value_null w ot inst P (fun i => (hg i).1)
  · intro id ot inst max_apdu P
    apply gpio_read_priority_array_sent
    intro w1 h1
    exact gpio_priority_array_value_null w1 ot inst P (fun i => by rw [h1]; exact (hg i).1)

/-- C30 after BO 4018 has been written ACTIVE at priority 8: slot 8 of the arrays of
`write_object_property_value` is occupied, yet `gpio_handle_read_property` answers the
read of priority-array[8] with the Null tag. -/
theorem gpio_priorities_flags_stay_zero_witness :
    Reachable scenario_active8 ∧
    (get_priority_value scenario_active8 4018 8 { bits := 0 }).2 = (false, { bits := 1 }) ∧
    gpio_priority_array_value scenario_active8 OBJECT_BINARY_OUTPUT 4018 8 = some [0x00] ∧
    (gpio_handle_read_property scenario_active8 1 OBJECT_BINARY_OUTPUT 4018 PROP_PRIORITY_ARRAY
        8 480).1.sent =
      scenario_active8.sent ++
        [[0x30, 1, 0x0C, 0x0C, 0x01, 0x00, 0x0F, 0xB2, 0x19, 0x57, 0x3E, 0x00, 0x3F]] :=
  ⟨Reachable.write _ _ _ _ _ _ _ (Reachable.start _ _ _ (by decide)), by decide,
   (gpio_priorities_flags_stay_zero scenario_active8
      (Reachable.write _ _ _ _ _ _ _ (Reachable.start _ _ _ (by decide)))).2.2.2.2.2.2.1
      OBJECT_BINARY_OUTPUT 4018 7,
   by decide⟩

end GpioBacnet
